import Mathlib

set_option autoImplicit false

/-!
# Fonepay dynamic QR demo: the signing and logging core of `server.js`

A shallow embedding of `src/server.js` and of the handlers of the browser components
`WebSocketTester.js`, `QRCodeGenerator.js`, `SignatureGenerator.js` and `Configuration.js`
(under `src/src/components`).  JavaScript values are the values a parsed JSON
body or query string can hold; a thrown exception is the `Except.error` case; the module
variable `apiLogs` is passed explicitly; what the handlers read from their surroundings
(the UUID generator, the clock, the provider's answer) is a field of `Runtime`.
The value a function returns and the lines it writes to the console are two definitions:
the console of the server is the section `The console of the server`.
-/

namespace Fonepay

/-! ## SHA-512 (FIPS 180-4) and HMAC (RFC 2104)

`crypto.createHmac('sha512', key)` belongs to Node's `crypto` module, not to this repository;
it is modelled by the two standards it implements.  A byte is a `Nat` below 256, a word a
`Nat` below `2 ^ 64`. -/

/-- Addition of 64-bit words. -/
def add64 (a b : Nat) : Nat := (a + b) % 2 ^ 64

/-- Rotate a 64-bit word right by `n` bits. -/
def rotr64 (n x : Nat) : Nat := ((x >>> n) ||| (x <<< (64 - n))) % 2 ^ 64

/-- Bitwise complement of a 64-bit word. -/
def not64 (x : Nat) : Nat := x ^^^ (2 ^ 64 - 1)

/-- FIPS 180-4 (4.8). -/
def ch (x y z : Nat) : Nat := (x &&& y) ^^^ (not64 x &&& z)

/-- FIPS 180-4 (4.9). -/
def maj (x y z : Nat) : Nat := (x &&& y) ^^^ (x &&& z) ^^^ (y &&& z)

/-- FIPS 180-4 (4.10). -/
def bigSigma0 (x : Nat) : Nat := rotr64 28 x ^^^ rotr64 34 x ^^^ rotr64 39 x

/-- FIPS 180-4 (4.11). -/
def bigSigma1 (x : Nat) : Nat := rotr64 14 x ^^^ rotr64 18 x ^^^ rotr64 41 x

/-- FIPS 180-4 (4.12). -/
def smallSigma0 (x : Nat) : Nat := rotr64 1 x ^^^ rotr64 8 x ^^^ (x >>> 7)

/-- FIPS 180-4 (4.13). -/
def smallSigma1 (x : Nat) : Nat := rotr64 19 x ^^^ rotr64 61 x ^^^ (x >>> 6)

/-- The eighty round constants of SHA-512. -/
def sha512K : List Nat :=
  [
   0x428a2f98d728ae22, 0x7137449123ef65cd, 0xb5c0fbcfec4d3b2f, 0xe9b5dba58189dbbc,
   0x3956c25bf348b538, 0x59f111f1b605d019, 0x923f82a4af194f9b, 0xab1c5ed5da6d8118,
   0xd807aa98a3030242, 0x12835b0145706fbe, 0x243185be4ee4b28c, 0x550c7dc3d5ffb4e2,
   0x72be5d74f27b896f, 0x80deb1fe3b1696b1, 0x9bdc06a725c71235, 0xc19bf174cf692694,
   0xe49b69c19ef14ad2, 0xefbe4786384f25e3, 0x0fc19dc68b8cd5b5, 0x240ca1cc77ac9c65,
   0x2de92c6f592b0275, 0x4a7484aa6ea6e483, 0x5cb0a9dcbd41fbd4, 0x76f988da831153b5,
   0x983e5152ee66dfab, 0xa831c66d2db43210, 0xb00327c898fb213f, 0xbf597fc7beef0ee4,
   0xc6e00bf33da88fc2, 0xd5a79147930aa725, 0x06ca6351e003826f, 0x142929670a0e6e70,
   0x27b70a8546d22ffc, 0x2e1b21385c26c926, 0x4d2c6dfc5ac42aed, 0x53380d139d95b3df,
   0x650a73548baf63de, 0x766a0abb3c77b2a8, 0x81c2c92e47edaee6, 0x92722c851482353b,
   0xa2bfe8a14cf10364, 0xa81a664bbc423001, 0xc24b8b70d0f89791, 0xc76c51a30654be30,
   0xd192e819d6ef5218, 0xd69906245565a910, 0xf40e35855771202a, 0x106aa07032bbd1b8,
   0x19a4c116b8d2d0c8, 0x1e376c085141ab53, 0x2748774cdf8eeb99, 0x34b0bcb5e19b48a8,
   0x391c0cb3c5c95a63, 0x4ed8aa4ae3418acb, 0x5b9cca4f7763e373, 0x682e6ff3d6b2b8a3,
   0x748f82ee5defb2fc, 0x78a5636f43172f60, 0x84c87814a1f0ab72, 0x8cc702081a6439ec,
   0x90befffa23631e28, 0xa4506cebde82bde9, 0xbef9a3f7b2c67915, 0xc67178f2e372532b,
   0xca273eceea26619c, 0xd186b8c721c0c207, 0xeada7dd6cde0eb1e, 0xf57d4f7fee6ed178,
   0x06f067aa72176fba, 0x0a637dc5a2c898a6, 0x113f9804bef90dae, 0x1b710b35131c471b,
   0x28db77f523047d84, 0x32caab7b40c72493, 0x3c9ebe0a15c9bebc, 0x431d67c49c100d4c,
   0x4cc5d4becb3e42b6, 0x597f299cfc657e2a, 0x5fcb6fab3ad6faec, 0x6c44198c4a475817
  ]

/-- The eight working variables, also the running hash value. -/
structure Sha512State where
  a : Nat
  b : Nat
  c : Nat
  d : Nat
  e : Nat
  f : Nat
  g : Nat
  h : Nat
  deriving DecidableEq, Repr

/-- The initial hash value of SHA-512. -/
def sha512Init : Sha512State :=
  ⟨0x6a09e667f3bcc908, 0xbb67ae8584caa73b, 0x3c6ef372fe94f82b, 0xa54ff53a5f1d36f1,
   0x510e527fade682d1, 0x9b05688c2b3e6c1f, 0x1f83d9abfb41bd6b, 0x5be0cd19137e2179⟩

/-- Big-endian value of a list of bytes. -/
def beWord (bytes : List Nat) : Nat := bytes.foldl (fun acc b => acc * 256 + b % 256) 0

/-- The `n` big-endian bytes of `x` (its low `8 * n` bits). -/
def beBytes : Nat → Nat → List Nat
  | 0, _ => []
  | n + 1, x => (x >>> (8 * n)) % 256 :: beBytes n x

/-- Split into `n` consecutive pieces of `size` elements. -/
def chunks (size : Nat) : Nat → List Nat → List (List Nat)
  | 0, _ => []
  | n + 1, xs => xs.take size :: chunks size n (xs.drop size)

/-- Padding of FIPS 180-4 section 5.1.2: a one bit, zeros up to 112 modulo 128 bytes, then the
bit length as a 128-bit big-endian number. -/
def sha512Pad (msg : List Nat) : List Nat :=
  msg ++ [0x80] ++ List.replicate ((239 - msg.length % 128) % 128) 0 ++ beBytes 16 (8 * msg.length)

/-- Extend the message schedule by `n` words; `rev` holds the words so far, newest first. -/
def scheduleExtend : Nat → List Nat → List Nat
  | 0, rev => rev
  | n + 1, rev =>
    let w := add64 (add64 (add64 (smallSigma1 (rev.getD 1 0)) (rev.getD 6 0))
      (smallSigma0 (rev.getD 14 0))) (rev.getD 15 0)
    scheduleExtend n (w :: rev)

/-- The eighty-word message schedule of a 128-byte block. -/
def schedule (block : List Nat) : List Nat :=
  (scheduleExtend 64 ((chunks 8 16 block).map beWord).reverse).reverse

/-- One round of the compression function with constant `k` and schedule word `w`. -/
def sha512Round (s : Sha512State) (kw : Nat × Nat) : Sha512State :=
  let t1 := add64 (add64 (add64 (add64 s.h (bigSigma1 s.e)) (ch s.e s.f s.g)) kw.1) kw.2
  let t2 := add64 (bigSigma0 s.a) (maj s.a s.b s.c)
  ⟨add64 t1 t2, s.a, s.b, s.c, add64 s.d t1, s.e, s.f, s.g⟩

/-- Process one block: eighty rounds, then add the result to the running hash. -/
def sha512Block (hash : Sha512State) (block : List Nat) : Sha512State :=
  let r := (sha512K.zip (schedule block)).foldl sha512Round hash
  ⟨add64 hash.a r.a, add64 hash.b r.b, add64 hash.c r.c, add64 hash.d r.d,
   add64 hash.e r.e, add64 hash.f r.f, add64 hash.g r.g, add64 hash.h r.h⟩

/-- The 64 bytes of a hash value. -/
def Sha512State.bytes (s : Sha512State) : List Nat :=
  beBytes 8 s.a ++ beBytes 8 s.b ++ beBytes 8 s.c ++ beBytes 8 s.d ++
  beBytes 8 s.e ++ beBytes 8 s.f ++ beBytes 8 s.g ++ beBytes 8 s.h

/-- SHA-512 of a byte string. -/
def sha512 (msg : List Nat) : List Nat :=
  let padded := sha512Pad msg
  ((chunks 128 (padded.length / 128) padded).foldl sha512Block sha512Init).bytes

/-- The key block of RFC 2104: a key longer than the 128-byte block is hashed first, then the
key is filled with zero bytes to the block size. -/
def hmacKeyBlock (key : List Nat) : List Nat :=
  let k := if key.length > 128 then sha512 key else key
  k ++ List.replicate (128 - k.length) 0

/-- HMAC-SHA512 of RFC 2104: `H((K xor opad) ++ H((K xor ipad) ++ text))`. -/
def hmacSha512 (key text : List Nat) : List Nat :=
  let k := hmacKeyBlock key
  sha512 (k.map (· ^^^ 0x5c) ++ sha512 (k.map (· ^^^ 0x36) ++ text))

/-! ## JavaScript values -/

/-- A value that `JSON.parse` or the query-string parser can produce, together with
`undefined`.  A number is represented by its decimal rendering (`Number::toString`), which
determines it up to the sign of zero; a string by its Unicode scalar values (a lone surrogate
is not representable); an object by its own properties in insertion order, without duplicate
keys. -/
inductive JsVal where
  | undefined
  | null
  | bool (b : Bool)
  | num (shown : String)
  | str (s : String)
  | arr (items : List JsVal)
  | obj (fields : List (String × JsVal))

/-- The places where the modelled code can raise a `TypeError`. -/
inductive TypeErrorKind where
  /-- Conversion `ToString` of an object whose own `toString` property hides `Object.prototype.toString`. -/
  | cannotConvertToPrimitive
  /-- A property read or method call on `undefined` or `null`. -/
  | readOfNullish
  /-- A call of a property that is not a function. -/
  | notAFunction
  /-- Call of `crypto.createHmac` with a key that is not a string (or buffer). -/
  | invalidKeyType
  /-- Call of `hmac.update` with data that is not a string (or buffer). -/
  | invalidDataType
  deriving DecidableEq, Repr

/-- What the provider answered: HTTP status, headers and body. -/
structure ProviderResponse where
  status : Nat
  headers : JsVal
  data : JsVal

/-- A thrown value: a `TypeError` of the engine, or the error `axios.post` rejects with, which
carries the provider's response when there was one. -/
inductive JsError where
  | typeError (kind : TypeErrorKind)
  | axiosError (message : String) (response : Option ProviderResponse)

/-- The `ToBoolean` conversion. -/
def JsVal.truthy : JsVal → Bool
  | .undefined => false
  | .null => false
  | .bool b => b
  | .num shown => shown != "0" && shown != "NaN"
  | .str s => s != ""
  | .arr _ => true
  | .obj _ => true

/-- The operator `a || b`. -/
def JsVal.or (a b : JsVal) : JsVal := if a.truthy then a else b

/-- A destructuring default `= d`: it applies to `undefined` only. -/
def JsVal.withDefault (v d : JsVal) : JsVal :=
  match v with
  | .undefined => d
  | _ => v

/-- Own property lookup in a property list. -/
def lookupField (key : String) : List (String × JsVal) → JsVal
  | [] => .undefined
  | (k, v) :: rest => if k = key then v else lookupField key rest

/-- The value of the property `key` of a value that is neither `undefined` nor `null`, for
the keys this program reads (`amount`, `prn`, `merchantCode`, `secretKey`, ...), none of which
exists on a prototype: an own property of an object, `undefined` on any other value. -/
def JsVal.field (v : JsVal) (key : String) : JsVal :=
  match v with
  | .obj fields => lookupField key fields
  | _ => .undefined

/-- The property read `v.key`: a `TypeError` on `undefined` and `null`. -/
def JsVal.getProp (v : JsVal) (key : String) : Except JsError JsVal :=
  match v with
  | .undefined => throw (.typeError .readOfNullish)
  | .null => throw (.typeError .readOfNullish)
  | _ => pure (v.field key)

/-- One element of a joined array, given its `ToString` result: `undefined` and `null` give
the empty string. -/
def JsVal.itemStr (v : JsVal) (converted : Except JsError String) : Except JsError String :=
  match v with
  | .undefined => pure ""
  | .null => pure ""
  | _ => converted

mutual
/-- The `ToString` conversion, as a template literal applies it.  An array is joined with
commas; a plain object gives `[object Object]` unless an own `toString` property (never a
function in parsed JSON) hides the inherited method, in which case the conversion throws. -/
def JsVal.toStr : JsVal → Except JsError String
  | .undefined => pure "undefined"
  | .null => pure "null"
  | .bool true => pure "true"
  | .bool false => pure "false"
  | .num shown => pure shown
  | .str s => pure s
  | .arr items => JsVal.joinItems items
  | .obj fields =>
    if fields.any (fun kv => kv.1 == "toString") then throw (.typeError .cannotConvertToPrimitive)
    else pure "[object Object]"
termination_by structural v => v
/-- The method `Array.prototype.join` with the default separator. -/
def JsVal.joinItems : List JsVal → Except JsError String
  | [] => pure ""
  | [x] => JsVal.itemStr x (JsVal.toStr x)
  | x :: y :: rest => do
    let first ← JsVal.itemStr x (JsVal.toStr x)
    let others ← JsVal.joinItems (y :: rest)
    pure (first ++ "," ++ others)
termination_by structural xs => xs
end

/-- The method call `v.toString()`: a `TypeError` on `undefined` and `null`, on an object whose own
`toString` property is not a function, and the `ToString` conversion otherwise. -/
def JsVal.toStringCall : JsVal → Except JsError String
  | .undefined => throw (.typeError .readOfNullish)
  | .null => throw (.typeError .readOfNullish)
  | .obj fields =>
    if fields.any (fun kv => kv.1 == "toString") then throw (.typeError .notAFunction)
    else pure "[object Object]"
  | v => v.toStr

/-! ## Text encodings -/

/-- UTF-8 encoding of one Unicode scalar value. -/
def utf8EncodeScalar (c : Nat) : List Nat :=
  if c < 0x80 then [c]
  else if c < 0x800 then [0xC0 ||| (c >>> 6), 0x80 ||| (c &&& 0x3F)]
  else if c < 0x10000 then
    [0xE0 ||| (c >>> 12), 0x80 ||| ((c >>> 6) &&& 0x3F), 0x80 ||| (c &&& 0x3F)]
  else
    [0xF0 ||| (c >>> 18), 0x80 ||| ((c >>> 12) &&& 0x3F), 0x80 ||| ((c >>> 6) &&& 0x3F),
     0x80 ||| (c &&& 0x3F)]

/-- The bytes of a string in the `'utf8'` encoding. -/
def utf8Encode (s : String) : List Nat := s.data.flatMap fun c => utf8EncodeScalar c.toNat

/-- A hexadecimal digit, lower case as `digest('hex')` writes it. -/
def hexDigit (n : Nat) : Char := "0123456789abcdef".data.getD n '0'

/-- The `'hex'` encoding of a byte string: two digits per byte. -/
def hexEncode (bytes : List Nat) : String :=
  String.mk (bytes.flatMap fun b => [hexDigit (b / 16 % 16), hexDigit (b % 16)])

/-- The method `String.prototype.toUpperCase` on ASCII text, where it maps `a`-`z` to `A`-`Z`
and changes nothing else.  It is applied to hex digests only. -/
def toUpperCase (s : String) : String := String.mk (s.data.map Char.toUpper)

/-! ## `crypto.createHmac` -/

/-- The object `crypto.createHmac('sha512', key)` returns: the key and the data fed so far. -/
structure Hmac where
  key : List Nat
  data : List Nat

/-- The call `crypto.createHmac('sha512', key)`: a string key is taken in UTF-8, of any length
including zero; a key of another type is rejected with a `TypeError`. -/
def createHmacSha512 (key : JsVal) : Except JsError Hmac :=
  match key with
  | .str k => pure { key := utf8Encode k, data := [] }
  | _ => throw (.typeError .invalidKeyType)

/-- The call `hmac.update(data, 'utf8')`. -/
def Hmac.update (hmac : Hmac) (data : JsVal) : Except JsError Hmac :=
  match data with
  | .str d => pure { hmac with data := hmac.data ++ utf8Encode d }
  | _ => throw (.typeError .invalidDataType)

/-- The call `hmac.digest('hex')`. -/
def Hmac.digestHex (hmac : Hmac) : String := hexEncode (hmacSha512 hmac.key hmac.data)

/-! ## `FonepayUtils`: signatures -/

namespace FonepayUtils

/-- The method `FonepayUtils.generateHMACSignature(secretKey, message)`, server.js lines 41-57.  The
`catch` block reports the error and throws it again. -/
def generateHMACSignature (secretKey message : JsVal) : Except JsError String :=
  tryCatch
    (do
      let hmac ← createHmacSha512 secretKey
      let hmac ← hmac.update message
      let signature := toUpperCase hmac.digestHex
      pure signature)
    (fun error => throw error)

/-- The method `FonepayUtils.generateQRRequestSignature`, server.js lines 59-62. -/
def generateQRRequestSignature (amount prn merchantCode remarks1 remarks2 secretKey : JsVal) :
    Except JsError String := do
  let message := (← amount.toStr) ++ "," ++ (← prn.toStr) ++ "," ++ (← merchantCode.toStr) ++ ","
    ++ (← remarks1.toStr) ++ "," ++ (← remarks2.toStr)
  generateHMACSignature secretKey (.str message)

/-- The method `FonepayUtils.generateCheckStatusSignature`, server.js lines 64-67. -/
def generateCheckStatusSignature (prn merchantCode secretKey : JsVal) : Except JsError String := do
  let message := (← prn.toStr) ++ "," ++ (← merchantCode.toStr)
  generateHMACSignature secretKey (.str message)

end FonepayUtils

/-! ## Configuration -/

namespace FONEPAY_CONFIG

def DEV_BASE_URL : String := "https://uat-new-merchant-api.fonepay.com/api"

def LIVE_BASE_URL : String := "https://merchantapi.fonepay.com/api"

def DEV_WEBSOCKET_URL : String := "ws://acquirer-websocket.fonepay.com/merchantEndPoint"

def LIVE_WEBSOCKET_URL : String :=
  "wss://ws.fonepay.com/convergent-webSocket-web/merchantEndPoint"

/-- Test credentials, server.js lines 31-36. -/
def TEST_CREDENTIALS : JsVal :=
  .obj [("merchantCode", .str "fonepay123"), ("secretKey", .str "fonepay"),
        ("username", .str "bijayk"), ("password", .str "password")]

end FONEPAY_CONFIG

/-! ## The API log -/

/-- The response object handed to `logApiCall`: the provider's answer, and `config.startTime`
when the handler has set `response.config`. -/
structure AxiosResponse extends ProviderResponse where
  startTime : Option Nat

/-- One record of `apiLogs`, server.js lines 73-92. -/
structure LogEntry where
  id : String
  timestamp : String
  type : String
  method : String
  url : String
  status : Nat
  duration : Int
  requestHeaders : JsVal
  requestBody : JsVal
  responseHeaders : JsVal
  responseBody : JsVal
  responseStatus : Nat

/-- What one run of `logApiCall` reads from its surroundings: `new Date().toISOString()`, the
first `Date.now()`, the second `Date.now()` (read only when there is no start time) and
`uuidv4()`. -/
structure LogEnv where
  timestamp : String
  now : Nat
  nowAgain : Nat
  id : String

/-- Whether `needle` occurs in the character list. -/
def includesChars (needle : List Char) : List Char → Bool
  | [] => needle.isEmpty
  | c :: cs => needle.isPrefixOf (c :: cs) || includesChars needle cs

/-- The method `String.prototype.includes`. -/
def includes (s needle : String) : Bool := includesChars needle.data s.data

/-- The capacity of the API log. -/
def logCapacity : Nat := 100

namespace FonepayUtils

/-- The record `logApiCall` builds, server.js lines 70-92.  `response?.status || 0` is the
status itself, or 0 without a response. -/
def logEntry (env : LogEnv) (method url : String) (headers body : JsVal)
    (response : Option AxiosResponse) : LogEntry :=
  let started : Nat :=
    match response.bind (·.startTime) with
    | some t => if t ≠ 0 then t else env.nowAgain
    | none => env.nowAgain
  { id := env.id
    timestamp := env.timestamp
    type :=
      if includes url "thirdPartyDynamicQrDownload" then "QR_GENERATION"
      else if includes url "thirdPartyDynamicQrGetStatus" then "STATUS_CHECK"
      else "OTHER"
    method := method
    url := url
    status := (response.map (·.status)).getD 0
    duration := (env.now : Int) - (started : Int)
    requestHeaders := headers
    requestBody := body
    responseHeaders := JsVal.or ((response.map fun r => r.headers).getD JsVal.undefined) (JsVal.obj [])
    responseBody := JsVal.or ((response.map fun r => r.data).getD JsVal.undefined) (JsVal.obj [])
    responseStatus := (response.map (·.status)).getD 0 }

/-- The method `FonepayUtils.logApiCall`, server.js lines 69-98, as a function of the module variable
`apiLogs`: the new record goes to the front, and a log of more than 100 records is cut to its
first 100. -/
def logApiCall (env : LogEnv) (method url : String) (headers body : JsVal)
    (response : Option AxiosResponse) (apiLogs : List LogEntry) : List LogEntry :=
  let apiLogs := logEntry env method url headers body response :: apiLogs
  if apiLogs.length > logCapacity then apiLogs.take logCapacity else apiLogs

end FonepayUtils

/-! ## HTTP plumbing -/

/-- The status and the object a handler passes to `res.status(code).json(body)`; the status
is 200 when the handler sets none. -/
structure HttpResponse where
  status : Nat
  body : JsVal

/-- What happens to a POST sent with `axios.post` and a timeout of 30000 ms. -/
inductive Transport where
  | timeout
  | networkFailure (message : String)
  | answered (response : ProviderResponse)

/-- The promise `axios.post` returns, settled: it resolves on an answer with status 2xx and
rejects otherwise, with the response attached when the provider answered. -/
def axiosPost (t : Transport) : Except JsError ProviderResponse :=
  match t with
  | .timeout => throw (.axiosError "timeout of 30000ms exceeded" none)
  | .networkFailure message => throw (.axiosError message none)
  | .answered response =>
    if 200 ≤ response.status ∧ response.status < 300 then pure response
    else throw (.axiosError ("Request failed with status code " ++ toString response.status)
      (some response))

/-- What a request handler reads from its surroundings: the UUID generator (once for the
`prn`), the clock (`Date.now()` before the POST), the provider, the surroundings of
`logApiCall`, the text the engine puts in a `TypeError`, and `toUpperCase` on arbitrary
Unicode text. -/
structure Runtime where
  uuid : String
  startTime : Nat
  provider : String → JsVal → Transport
  logEnv : LogEnv
  typeErrorMessage : TypeErrorKind → String
  unicodeUpper : String → String

/-- The property `error.message`. -/
def JsError.message (rt : Runtime) : JsError → String
  | .typeError kind => rt.typeErrorMessage kind
  | .axiosError message _ => message

/-- The expression `error.response?.data`. -/
def JsError.responseData : JsError → JsVal
  | .axiosError _ (some response) => response.data
  | _ => .undefined

/-- A natural number as a JavaScript number. -/
def JsVal.ofNat (n : Nat) : JsVal := .num (toString n)

/-- An integer as a JavaScript number. -/
def JsVal.ofInt (i : Int) : JsVal := .num (toString i)

/-- The expression `error.response?.status`. -/
def JsError.responseStatus : JsError → JsVal
  | .axiosError _ (some response) => .ofNat response.status
  | _ => .undefined

/-- The `catch` block of both POST handlers, server.js lines 243-250 and 327-334. -/
def errorResponse (rt : Runtime) (error : JsError) : HttpResponse :=
  { status := 500
    body := .obj [("success", .bool false),
      ("error", .obj [("message", .str (error.message rt)),
                      ("response", error.responseData),
                      ("status", error.responseStatus)])] }

/-- The first error-handling middleware, server.js lines 446-453: it answers what a handler
without `try` throws. -/
def unhandledErrorResponse (rt : Runtime) (error : JsError) : HttpResponse :=
  { status := 500
    body := .obj [("success", .bool false), ("error", .str "Internal server error"),
                  ("details", .str (error.message rt))] }

/-- The POST a handler issues: `axios.post(url, payload, { headers, timeout })`. -/
structure OutboundCall where
  url : String
  payload : JsVal
  headers : JsVal
  timeout : Nat

/-- The effect of one request: the response, the module variable `apiLogs` afterwards, and
the POST issued to the provider, if one was. -/
structure Outcome where
  response : HttpResponse
  apiLogs : List LogEntry
  sent : Option OutboundCall

/-! ## `GET /api/logs` and `DELETE /api/logs` -/

/-- The white space `parseInt` skips (`StrWhiteSpaceChar`). -/
def isStrWhiteSpace (c : Char) : Bool :=
  [0x9, 0xA, 0xB, 0xC, 0xD, 0x20, 0xA0, 0x1680, 0x2028, 0x2029, 0x202F, 0x205F, 0x3000,
    0xFEFF].contains c.toNat || (0x2000 ≤ c.toNat && c.toNat ≤ 0x200A)

/-- The value of a character as a digit, letters counting from ten. -/
def digitValue (c : Char) : Option Nat :=
  if 48 ≤ c.toNat ∧ c.toNat ≤ 57 then some (c.toNat - 48)
  else if 97 ≤ c.toNat ∧ c.toNat ≤ 122 then some (c.toNat - 87)
  else if 65 ≤ c.toNat ∧ c.toNat ≤ 90 then some (c.toNat - 55)
  else none

/-- The leading digits of `cs` in the given radix, as values. -/
def leadingDigits (radix : Nat) : List Char → List Nat
  | [] => []
  | c :: cs =>
    match digitValue c with
    | some d => if d < radix then d :: leadingDigits radix cs else []
    | none => []

/-- The function `parseInt(string)` without a radix, on the string already converted; `none` is `NaN`.
The integer is exact, where JavaScript rounds beyond `2 ^ 53`. -/
def parseIntString (s : String) : Option Int :=
  let cs := s.data.dropWhile isStrWhiteSpace
  let signed : Bool × List Char :=
    match cs with
    | '-' :: rest => (true, rest)
    | '+' :: rest => (false, rest)
    | _ => (false, cs)
  let based : Nat × List Char :=
    match signed.2 with
    | '0' :: 'x' :: rest => (16, rest)
    | '0' :: 'X' :: rest => (16, rest)
    | _ => (10, signed.2)
  let digits := leadingDigits based.1 based.2
  if digits.isEmpty then none
  else
    let magnitude : Nat := digits.foldl (fun acc d => acc * based.1 + d) 0
    some (if signed.1 then -(magnitude : Int) else (magnitude : Int))

/-- The call `parseInt(v)`: the argument is converted with `ToString` first. -/
def parseInt (v : JsVal) : Except JsError (Option Int) := do
  pure (parseIntString (← v.toStr))

/-- The result of `parseInt` as a value. -/
def JsVal.ofParsedInt : Option Int → JsVal
  | none => .num "NaN"
  | some i => .ofInt i

/-- The call `xs.slice(0, end)`: `NaN` counts as 0, a negative `end` counts from the back. -/
def sliceFromStart {α : Type} (xs : List α) (stop : Option Int) : List α :=
  match stop with
  | none => []
  | some e => if e < 0 then xs.take (xs.length - e.natAbs) else xs.take e.toNat

/-- The method call `v.toUpperCase()`: defined on strings only. -/
def JsVal.toUpperCaseCall (rt : Runtime) : JsVal → Except JsError String
  | .str s => pure (rt.unicodeUpper s)
  | .undefined => throw (.typeError .readOfNullish)
  | .null => throw (.typeError .readOfNullish)
  | _ => throw (.typeError .notAFunction)

/-- The method `Array.prototype.filter` with a callback that may throw: the callback runs on the elements
in order. -/
def filterExcept {α : Type} (p : α → Except JsError Bool) : List α → Except JsError (List α)
  | [] => pure []
  | x :: xs => do
    let keep ← p x
    let rest ← filterExcept p xs
    pure (if keep then x :: rest else rest)

/-- Whether `v` is the string `s`: the comparison `v === s`. -/
def JsVal.isString (v : JsVal) (s : String) : Bool :=
  match v with
  | .str t => t == s
  | _ => false

/-- A log record as the object stored in `apiLogs`. -/
def LogEntry.toJs (e : LogEntry) : JsVal :=
  .obj [("id", .str e.id), ("timestamp", .str e.timestamp), ("type", .str e.type),
        ("method", .str e.method), ("url", .str e.url), ("status", .ofNat e.status),
        ("duration", .ofInt e.duration),
        ("request", .obj [("headers", e.requestHeaders), ("body", e.requestBody)]),
        ("response", .obj [("headers", e.responseHeaders), ("body", e.responseBody),
                           ("status", .ofNat e.responseStatus)])]

/-- The body of the handler of `GET /api/logs`, server.js lines 127-145; `query` is `req.query`. -/
def getLogsBody (rt : Runtime) (query : JsVal) (apiLogs : List LogEntry) : Except JsError JsVal := do
  let type ← query.getProp "type"
  let limit := (← query.getProp "limit").withDefault (.num "50")
  let filteredLogs ←
    if type.truthy && !type.isString "all" then
      filterExcept (fun log => do pure (log.type == (← type.toUpperCaseCall rt))) apiLogs
    else pure apiLogs
  let limitedLogs := sliceFromStart filteredLogs (← parseInt limit)
  pure (.obj [("success", .bool true),
    ("data", .obj [("logs", .arr (limitedLogs.map LogEntry.toJs)),
                   ("total", .ofNat filteredLogs.length),
                   ("limit", .ofParsedInt (← parseInt limit))])])

/-- The route `GET /api/logs`: the handler has no `try`, so what it throws reaches the error-handling
middleware.  The log is only read. -/
def getLogs (rt : Runtime) (query : JsVal) (apiLogs : List LogEntry) : Outcome :=
  match getLogsBody rt query apiLogs with
  | .ok body => { response := { status := 200, body := body }, apiLogs := apiLogs, sent := none }
  | .error e => { response := unhandledErrorResponse rt e, apiLogs := apiLogs, sent := none }

/-- The handler of `DELETE /api/logs`, server.js lines 148-154. -/
def deleteLogs (_apiLogs : List LogEntry) : Outcome :=
  { response :=
      { status := 200
        body := .obj [("success", .bool true), ("message", .str "API logs cleared successfully")] }
    apiLogs := []
    sent := none }

/-! ## `POST /api/qr/generate` -/

/-- The assignment `response.config = { startTime }` of lines 216 and 303. -/
def withStartTime (response : ProviderResponse) (startTime : Nat) : AxiosResponse :=
  { response with startTime := some startTime }

/-- The call `s.substring(0, n)`. -/
def substringFromStart (s : String) (n : Nat) : String := String.mk (s.data.take n)

/-- The headers both handlers send and log. -/
def jsonHeaders : JsVal := .obj [("Content-Type", .str "application/json")]

/-- The choice of line 168 and line 266: `customCredentials || FONEPAY_CONFIG.TEST_CREDENTIALS`. -/
def selectCredentials (customCredentials : JsVal) : JsVal :=
  customCredentials.or FONEPAY_CONFIG.TEST_CREDENTIALS

/-- The base URL of line 202 and line 289. -/
def baseUrl (isLive : JsVal) : String :=
  if isLive.truthy then FONEPAY_CONFIG.LIVE_BASE_URL else FONEPAY_CONFIG.DEV_BASE_URL

/-- The fields `POST /api/qr/generate` takes from `req.body`, defaults applied. -/
structure QrFields where
  amount : JsVal
  remarks1 : JsVal
  remarks2 : JsVal
  isLive : JsVal
  customCredentials : JsVal

/-- The destructuring of `req.body` in lines 159-165. -/
def qrFields (body : JsVal) : Except JsError QrFields := do
  let amount ← body.getProp "amount"
  let remarks1 := (← body.getProp "remarks1").withDefault (.str "Test Transaction")
  let remarks2 := (← body.getProp "remarks2").withDefault (.str "API Test")
  let isLive := (← body.getProp "isLive").withDefault (.bool false)
  let customCredentials ← body.getProp "customCredentials"
  pure { amount, remarks1, remarks2, isLive, customCredentials }

/-- The reference of line 171: `test-` and the first eight characters of a fresh UUID. -/
def qrPrn (rt : Runtime) : String := "test-" ++ substringFromStart rt.uuid 8

/-- The values `POST /api/qr/generate` has computed when it issues the POST. -/
structure QrPrepared where
  fields : QrFields
  credentials : JsVal
  prn : String
  dataValidation : String
  requestPayload : JsVal
  apiUrl : String

/-- Lines 167-203 of server.js: credentials, `prn`, signature, payload, URL. -/
def qrPrepare (rt : Runtime) (f : QrFields) : Except JsError QrPrepared := do
  let credentials := selectCredentials f.customCredentials
  let prn := qrPrn rt
  let dataValidation ← FonepayUtils.generateQRRequestSignature f.amount (.str prn)
    (← credentials.getProp "merchantCode") f.remarks1 f.remarks2
    (← credentials.getProp "secretKey")
  let requestPayload := JsVal.obj [
    ("amount", .str (← f.amount.toStringCall)),
    ("remarks1", f.remarks1),
    ("remarks2", f.remarks2),
    ("prn", .str prn),
    ("merchantCode", ← credentials.getProp "merchantCode"),
    ("dataValidation", .str dataValidation),
    ("username", ← credentials.getProp "username"),
    ("password", ← credentials.getProp "password")]
  let apiUrl := baseUrl f.isLive ++
    "/merchant/merchantDetailsForThirdParty/thirdPartyDynamicQrDownload"
  pure { fields := f, credentials, prn, dataValidation, requestPayload, apiUrl }

/-- The object passed to `res.json` on success, server.js lines 222-238. -/
def qrSuccessBody (p : QrPrepared) (response : ProviderResponse) : Except JsError JsVal := do
  let message := (← p.fields.amount.toStr) ++ "," ++ p.prn ++ "," ++
    (← (← p.credentials.getProp "merchantCode").toStr) ++ "," ++ (← p.fields.remarks1.toStr) ++
    "," ++ (← p.fields.remarks2.toStr)
  pure (.obj [("success", .bool true),
    ("data", .obj [
      ("request", .obj [("url", .str p.apiUrl), ("payload", p.requestPayload),
        ("signature", .obj [("message", .str message),
                            ("secretKey", ← p.credentials.getProp "secretKey"),
                            ("generated", .str p.dataValidation)])]),
      ("response", response.data),
      ("prn", .str p.prn),
      ("websocketUrl", ← response.data.getProp "thirdpartyQrWebSocketUrl")])])

/-- The handler of `POST /api/qr/generate`, server.js lines 157-252; `body` is `req.body`.  Whatever is thrown
inside `try` is answered by the `catch` block; `logApiCall` runs only after `axios.post` has
resolved. -/
def qrGenerate (rt : Runtime) (body : JsVal) (apiLogs : List LogEntry) : Outcome :=
  match qrFields body >>= qrPrepare rt with
  | .error e => { response := errorResponse rt e, apiLogs := apiLogs, sent := none }
  | .ok p =>
    let call : OutboundCall :=
      { url := p.apiUrl, payload := p.requestPayload, headers := jsonHeaders, timeout := 30000 }
    match axiosPost (rt.provider p.apiUrl p.requestPayload) with
    | .error e => { response := errorResponse rt e, apiLogs := apiLogs, sent := some call }
    | .ok response =>
      let apiLogs := FonepayUtils.logApiCall rt.logEnv "POST" p.apiUrl jsonHeaders p.requestPayload
        (some (withStartTime response rt.startTime)) apiLogs
      match qrSuccessBody p response with
      | .error e => { response := errorResponse rt e, apiLogs := apiLogs, sent := some call }
      | .ok json => { response := { status := 200, body := json }, apiLogs := apiLogs, sent := some call }

/-! ## `POST /api/qr/status` -/

/-- The fields `POST /api/qr/status` takes from `req.body`, defaults applied. -/
structure StatusFields where
  prn : JsVal
  isLive : JsVal
  customCredentials : JsVal

/-- The destructuring of `req.body` in line 257. -/
def statusFields (body : JsVal) : Except JsError StatusFields := do
  let prn ← body.getProp "prn"
  let isLive := (← body.getProp "isLive").withDefault (.bool false)
  let customCredentials ← body.getProp "customCredentials"
  pure { prn, isLive, customCredentials }

/-- The values `POST /api/qr/status` has computed when it issues the POST. -/
structure StatusPrepared where
  fields : StatusFields
  credentials : JsVal
  dataValidation : String
  requestPayload : JsVal
  apiUrl : String

/-- Lines 266-290 of server.js, for a `prn` that passed the check of line 259. -/
def statusPrepare (f : StatusFields) : Except JsError StatusPrepared := do
  let credentials := selectCredentials f.customCredentials
  let dataValidation ← FonepayUtils.generateCheckStatusSignature f.prn
    (← credentials.getProp "merchantCode") (← credentials.getProp "secretKey")
  let requestPayload := JsVal.obj [
    ("prn", f.prn),
    ("merchantCode", ← credentials.getProp "merchantCode"),
    ("dataValidation", .str dataValidation),
    ("username", ← credentials.getProp "username"),
    ("password", ← credentials.getProp "password")]
  let apiUrl := baseUrl f.isLive ++
    "/merchant/merchantDetailsForThirdParty/thirdPartyDynamicQrGetStatus"
  pure { fields := f, credentials, dataValidation, requestPayload, apiUrl }

/-- The object passed to `res.json` on success, server.js lines 308-322. -/
def statusSuccessBody (p : StatusPrepared) (response : ProviderResponse) : Except JsError JsVal := do
  let message := (← p.fields.prn.toStr) ++ "," ++
    (← (← p.credentials.getProp "merchantCode").toStr)
  pure (.obj [("success", .bool true),
    ("data", .obj [
      ("request", .obj [("url", .str p.apiUrl), ("payload", p.requestPayload),
        ("signature", .obj [("message", .str message),
                            ("secretKey", ← p.credentials.getProp "secretKey"),
                            ("generated", .str p.dataValidation)])]),
      ("response", response.data)])])

/-- The handler of `POST /api/qr/status`, server.js lines 255-336; `body` is `req.body`. -/
def qrStatus (rt : Runtime) (body : JsVal) (apiLogs : List LogEntry) : Outcome :=
  match statusFields body with
  | .error e => { response := errorResponse rt e, apiLogs := apiLogs, sent := none }
  | .ok f =>
    if !f.prn.truthy then
      { response :=
          { status := 400
            body := .obj [("success", .bool false), ("error", .str "PRN is required")] }
        apiLogs := apiLogs
        sent := none }
    else
      match statusPrepare f with
      | .error e => { response := errorResponse rt e, apiLogs := apiLogs, sent := none }
      | .ok p =>
        let call : OutboundCall :=
          { url := p.apiUrl, payload := p.requestPayload, headers := jsonHeaders, timeout := 30000 }
        match axiosPost (rt.provider p.apiUrl p.requestPayload) with
        | .error e => { response := errorResponse rt e, apiLogs := apiLogs, sent := some call }
        | .ok response =>
          let apiLogs := FonepayUtils.logApiCall rt.logEnv "POST" p.apiUrl jsonHeaders
            p.requestPayload (some (withStartTime response rt.startTime)) apiLogs
          match statusSuccessBody p response with
          | .error e => { response := errorResponse rt e, apiLogs := apiLogs, sent := some call }
          | .ok json =>
            { response := { status := 200, body := json }, apiLogs := apiLogs, sent := some call }

/-! ## Example surroundings -/

/-- A provider that answers every POST with status 200 and a QR body. -/
def exampleRuntime : Runtime :=
  { uuid := "0f8fad5b-d9cb-469f-a165-70867728950e"
    startTime := 1000
    provider := fun _ _ =>
      .answered { status := 200, headers := .obj [],
                  data := .obj [("thirdpartyQrWebSocketUrl", .str "wss://example.test/qr")] }
    logEnv := { timestamp := "2024-01-01T00:00:00.000Z", now := 1250, nowAgain := 1251,
                id := "7c9e6679-7425-40de-944b-e07fc1f90ae7" }
    typeErrorMessage := fun _ => "TypeError"
    unicodeUpper := fun s => String.mk (s.data.map Char.toUpper) }

/-- A provider that never answers: every POST runs into the timeout. -/
def timeoutRuntime : Runtime := { exampleRuntime with provider := fun _ _ => .timeout }

/-- A provider that answers every POST with status 404. -/
def notFoundRuntime : Runtime :=
  { exampleRuntime with
    provider := fun _ _ => .answered { status := 404, headers := .obj [], data := .str "Not Found" } }

/-! ## The API log as a sequence of calls -/

/-- The arguments and surroundings of one call of `logApiCall`. -/
structure LogCall where
  env : LogEnv
  method : String
  url : String
  headers : JsVal
  body : JsVal
  response : Option AxiosResponse

/-- The record a call inserts. -/
def LogCall.entry (c : LogCall) : LogEntry :=
  FonepayUtils.logEntry c.env c.method c.url c.headers c.body c.response

/-- The calls of `logApiCall` in `calls`, one after the other, starting from the log `apiLogs`. -/
def logApiCalls (calls : List LogCall) (apiLogs : List LogEntry) : List LogEntry :=
  calls.foldl (fun logs c => FonepayUtils.logApiCall c.env c.method c.url c.headers c.body c.response logs)
    apiLogs

/-- The sixteen characters of an upper-case hexadecimal rendering. -/
def upperHexChars : List Char := "0123456789ABCDEF".data

/-! ## The console of the server

What `server.js` writes with `console.log` and `console.error`, as the list of the calls in
order.  The access log line of the `morgan` middleware (method, path, status, not the body) is
not part of this model. -/

/-- One argument of a console call: a string literal of the program, a value, the text
`JSON.stringify(v, null, 2)`, or a caught error. -/
inductive ConsoleArg where
  | text (s : String)
  | value (v : JsVal)
  | json (v : JsVal)
  | error (e : JsError)

/-- One call of `console.log` (`isError` false) or `console.error` (`isError` true). -/
structure ConsoleCall where
  isError : Bool
  args : List ConsoleArg

/-- The call `console.log(...args)`. -/
def consoleLog (args : List ConsoleArg) : ConsoleCall := { isError := false, args := args }

/-- The call `console.error(...args)`. -/
def consoleError (args : List ConsoleArg) : ConsoleCall := { isError := true, args := args }

/-- The text of an argument that is printed as it is: a string.  Other values are printed by
`util.inspect`, which is not modelled. -/
def ConsoleArg.printed : ConsoleArg → Option String
  | .text s => some s
  | .value (.str s) => some s
  | _ => none

/-- The line a console call writes when all its arguments are strings (the first of them
without format specifiers, as all labels of `server.js` are): the strings, separated by single
spaces. -/
def ConsoleCall.line (call : ConsoleCall) : Option String :=
  (call.args.mapM ConsoleArg.printed).map fun parts => " ".intercalate parts

/-- The template literal of line 60. -/
def qrSignatureMessage (amount prn merchantCode remarks1 remarks2 : JsVal) :
    Except JsError String := do
  pure ((← amount.toStr) ++ "," ++ (← prn.toStr) ++ "," ++ (← merchantCode.toStr) ++ ","
    ++ (← remarks1.toStr) ++ "," ++ (← remarks2.toStr))

/-- The template literal of line 65. -/
def statusSignatureMessage (prn merchantCode : JsVal) : Except JsError String := do
  pure ((← prn.toStr) ++ "," ++ (← merchantCode.toStr))

namespace FonepayUtils

/-- The console calls of `generateHMACSignature`, server.js lines 43-54: three lines before
the digest is computed, then the signature, or the error the `catch` block reports. -/
def generateHMACSignatureConsole (secretKey message : JsVal) : List ConsoleCall :=
  [consoleLog [.text "🔐 Generating HMAC Signature:"],
   consoleLog [.text "   Secret Key:", .value secretKey],
   consoleLog [.text "   Message:", .value message]] ++
  match generateHMACSignature secretKey message with
  | .ok signature => [consoleLog [.text "   Generated Signature:", .value (.str signature)]]
  | .error e => [consoleError [.text "❌ HMAC Generation Error:", .error e]]

/-- The console calls of `generateQRRequestSignature`: those of `generateHMACSignature`, once
the message is built. -/
def generateQRRequestSignatureConsole
    (amount prn merchantCode remarks1 remarks2 secretKey : JsVal) : List ConsoleCall :=
  match qrSignatureMessage amount prn merchantCode remarks1 remarks2 with
  | .ok message => generateHMACSignatureConsole secretKey (.str message)
  | .error _ => []

/-- The console calls of `generateCheckStatusSignature`. -/
def generateCheckStatusSignatureConsole (prn merchantCode secretKey : JsVal) : List ConsoleCall :=
  match statusSignatureMessage prn merchantCode with
  | .ok message => generateHMACSignatureConsole secretKey (.str message)
  | .error _ => []

/-- The console calls of `logApiCall`, server.js lines 100-108. -/
def logApiCallConsole (method url : String) (headers body : JsVal)
    (response : Option AxiosResponse) : List ConsoleCall :=
  [consoleLog [.text "\n📡 API CALL LOG:"],
   consoleLog [.text "  Method:", .text method],
   consoleLog [.text "  URL:", .text url],
   consoleLog [.text "  Headers:", .json headers],
   consoleLog [.text "  Request Body:", .json body],
   consoleLog [.text "  Response Status:",
     .value ((response.map fun r => JsVal.ofNat r.status).getD JsVal.undefined)],
   consoleLog [.text "  Response Data:",
     .json ((response.map fun r => r.data).getD JsVal.undefined)],
   consoleLog [.text "  Response Headers:",
     .json ((response.map fun r => r.headers).getD JsVal.undefined)],
   consoleLog [.text (String.mk (List.replicate 80 '─'))]]

end FonepayUtils

/-- The console calls of `POST /api/qr/generate`, server.js lines 157-252, in order. -/
def qrGenerateConsole (rt : Runtime) (body : JsVal) : List ConsoleCall :=
  match qrFields body with
  | .error e => [consoleError [.text "❌ QR Generation Error:", .error e]]
  | .ok f =>
    let credentials := selectCredentials f.customCredentials
    let starting : List ConsoleCall :=
      [consoleLog [.text "\n🚀 Starting QR Generation Process"],
       consoleLog [.text "   Amount:", .value f.amount],
       consoleLog [.text "   PRN:", .value (.str (qrPrn rt))],
       consoleLog [.text "   Merchant Code:", .value (credentials.field "merchantCode")],
       consoleLog [.text "   Environment:", .text (if f.isLive.truthy then "LIVE" else "DEV")]]
    let signing := FonepayUtils.generateQRRequestSignatureConsole f.amount (.str (qrPrn rt))
      (credentials.field "merchantCode") f.remarks1 f.remarks2 (credentials.field "secretKey")
    match qrPrepare rt f with
    | .error e => starting ++ signing ++ [consoleError [.text "❌ QR Generation Error:", .error e]]
    | .ok p =>
      let sending : List ConsoleCall :=
        [consoleLog [.text "\n📤 Making QR Generation Request:"],
         consoleLog [.text "   URL:", .text p.apiUrl]]
      match axiosPost (rt.provider p.apiUrl p.requestPayload) with
      | .error e =>
        starting ++ signing ++ sending ++
          [consoleError [.text "❌ QR Generation Error:", .error e]]
      | .ok response =>
        starting ++ signing ++ sending ++
          FonepayUtils.logApiCallConsole "POST" p.apiUrl jsonHeaders p.requestPayload
            (some (withStartTime response rt.startTime)) ++
          match qrSuccessBody p response with
          | .error e => [consoleError [.text "❌ QR Generation Error:", .error e]]
          | .ok _ => []

/-- The console calls of `POST /api/qr/status`, server.js lines 255-336, in order. -/
def qrStatusConsole (rt : Runtime) (body : JsVal) : List ConsoleCall :=
  match statusFields body with
  | .error e => [consoleError [.text "❌ Status Check Error:", .error e]]
  | .ok f =>
    if !f.prn.truthy then []
    else
      let credentials := selectCredentials f.customCredentials
      let starting : List ConsoleCall :=
        [consoleLog [.text "\n🔍 Checking QR Status:"],
         consoleLog [.text "   PRN:", .value f.prn],
         consoleLog [.text "   Merchant Code:", .value (credentials.field "merchantCode")]]
      let signing := FonepayUtils.generateCheckStatusSignatureConsole f.prn
        (credentials.field "merchantCode") (credentials.field "secretKey")
      match statusPrepare f with
      | .error e => starting ++ signing ++ [consoleError [.text "❌ Status Check Error:", .error e]]
      | .ok p =>
        let sending : List ConsoleCall :=
          [consoleLog [.text "\n📤 Making Status Check Request:"],
           consoleLog [.text "   URL:", .text p.apiUrl]]
        match axiosPost (rt.provider p.apiUrl p.requestPayload) with
        | .error e =>
          starting ++ signing ++ sending ++
            [consoleError [.text "❌ Status Check Error:", .error e]]
        | .ok response =>
          starting ++ signing ++ sending ++
            FonepayUtils.logApiCallConsole "POST" p.apiUrl jsonHeaders p.requestPayload
              (some (withStartTime response rt.startTime)) ++
            match statusSuccessBody p response with
            | .error e => [consoleError [.text "❌ Status Check Error:", .error e]]
            | .ok _ => []

/-! ## Notions used to state the properties -/

/-- The text `s` contains the text `needle`. -/
def Contains (s needle : String) : Prop := ∃ before after, s = before ++ needle ++ after

/-- A query parameter: absent, or the string given. -/
def queryParam : Option String → JsVal
  | none => .undefined
  | some s => .str s

/-- The records `GET /api/logs` selects for a `type` parameter: all of them when the
parameter is absent, empty or `all`, and otherwise those whose type is the upper-cased
parameter. -/
def matchingLogs (rt : Runtime) (type : Option String) (apiLogs : List LogEntry) : List LogEntry :=
  match type with
  | none => apiLogs
  | some s =>
    if s = "" ∨ s = "all" then apiLogs
    else apiLogs.filter fun log => log.type == rt.unicodeUpper s

/-- A provider that answers with status 200 and the body `null`. -/
def nullBodyRuntime : Runtime :=
  { exampleRuntime with
    provider := fun _ _ => .answered { status := 200, headers := .obj [], data := .null } }

/-- The test credentials with another secret key, as `customCredentials` of a request. -/
def liveCredentials : JsVal :=
  .obj [("merchantCode", .str "NBQM"), ("secretKey", .str "s3cr3t-live-key"),
        ("username", .str "merchant"), ("password", .str "pw")]

/-! ## JSON text

`JSON.stringify` and `JSON.parse` of ECMAScript, on the values of `JsVal`.  The conversion of a
numeric literal to a number, and so to the text `JsVal.num` holds, is a parameter of the
parser (`numberText`). -/

/-- A lower-case hexadecimal digit of a `\u` escape. -/
def jsonHexDigit (n : Nat) : Char := "0123456789abcdef".data.getD n '0'

/-- One character of a quoted string (`QuoteJSONString`): the quote, the backslash and the
control characters are escaped, every other character stands for itself. -/
def quoteJSONChar (c : Char) : List Char :=
  if c.toNat = 34 then [Char.ofNat 92, Char.ofNat 34]
  else if c.toNat = 92 then [Char.ofNat 92, Char.ofNat 92]
  else if c.toNat = 8 then [Char.ofNat 92, 'b']
  else if c.toNat = 9 then [Char.ofNat 92, 't']
  else if c.toNat = 10 then [Char.ofNat 92, 'n']
  else if c.toNat = 12 then [Char.ofNat 92, 'f']
  else if c.toNat = 13 then [Char.ofNat 92, 'r']
  else if c.toNat < 32 then
    [Char.ofNat 92, 'u', '0', '0', jsonHexDigit (c.toNat / 16), jsonHexDigit (c.toNat % 16)]
  else [c]

/-- The quoted form of a string in JSON text. -/
def quoteJSONString (s : String) : String :=
  String.mk ([Char.ofNat 34] ++ s.data.flatMap quoteJSONChar ++ [Char.ofNat 34])

mutual
/-- The call `JSON.stringify(v)`; `none` is the result `undefined`.  A number that is not
finite is written `null`; in an array `undefined` is written `null`; a property whose value is
`undefined` is left out. -/
def jsonStringify : JsVal → Option String
  | .undefined => none
  | .null => some "null"
  | .bool true => some "true"
  | .bool false => some "false"
  | .num shown =>
    some (if shown = "NaN" ∨ shown = "Infinity" ∨ shown = "-Infinity" then "null" else shown)
  | .str s => some (quoteJSONString s)
  | .arr items => some ("[" ++ ",".intercalate (jsonStringifyItems items) ++ "]")
  | .obj fields => some ("\x7b" ++ ",".intercalate (jsonStringifyMembers fields) ++ "\x7d")
termination_by structural v => v
/-- The elements of an array, serialised. -/
def jsonStringifyItems : List JsVal → List String
  | [] => []
  | x :: xs => (jsonStringify x).getD "null" :: jsonStringifyItems xs
termination_by structural xs => xs
/-- The members of an object, serialised. -/
def jsonStringifyMembers : List (String × JsVal) → List String
  | [] => []
  | kv :: rest =>
    match jsonStringifyMember kv with
    | some member => member :: jsonStringifyMembers rest
    | none => jsonStringifyMembers rest
termination_by structural fields => fields
/-- One member of an object, serialised, unless its value is `undefined`. -/
def jsonStringifyMember : String × JsVal → Option String
  | (key, v) => (jsonStringify v).map fun text => quoteJSONString key ++ ":" ++ text
termination_by structural kv => kv
end

/-- The white space of JSON text: space, tab, line feed, carriage return. -/
def isJsonWhiteSpace (c : Char) : Bool :=
  c.toNat == 32 || c.toNat == 9 || c.toNat == 10 || c.toNat == 13

/-- The text after leading white space. -/
def skipJsonWhiteSpace (cs : List Char) : List Char := cs.dropWhile isJsonWhiteSpace

/-- The value of a hexadecimal digit, of either case. -/
def hexDigitValue (c : Char) : Option Nat :=
  if 48 ≤ c.toNat ∧ c.toNat ≤ 57 then some (c.toNat - 48)
  else if 97 ≤ c.toNat ∧ c.toNat ≤ 102 then some (c.toNat - 87)
  else if 65 ≤ c.toNat ∧ c.toNat ≤ 70 then some (c.toNat - 55)
  else none

/-- The four hexadecimal digits of a `\u` escape, as a code unit. -/
def parseHex4 : List Char → Option (Nat × List Char)
  | a :: b :: c :: d :: rest => do
    let x ← hexDigitValue a
    let y ← hexDigitValue b
    let z ← hexDigitValue c
    let w ← hexDigitValue d
    pure (((x * 16 + y) * 16 + z) * 16 + w, rest)
  | _ => none

/-- The escape `\uXXXX` of a low surrogate, at the head of the text. -/
def parseLowSurrogate (cs : List Char) : Option (Nat × List Char) :=
  match cs with
  | b :: u :: rest =>
    if b.toNat = 92 ∧ u = 'u' then
      match parseHex4 rest with
      | some (unit, rest) => if 0xDC00 ≤ unit ∧ unit ≤ 0xDFFF then some (unit, rest) else none
      | none => none
    else none
  | _ => none

/-- The character a one-letter escape stands for. -/
def simpleEscape (c : Char) : Option Char :=
  if c.toNat = 34 then some (Char.ofNat 34)
  else if c.toNat = 92 then some (Char.ofNat 92)
  else if c = '/' then some '/'
  else if c = 'b' then some (Char.ofNat 8)
  else if c = 'f' then some (Char.ofNat 12)
  else if c = 'n' then some (Char.ofNat 10)
  else if c = 'r' then some (Char.ofNat 13)
  else if c = 't' then some (Char.ofNat 9)
  else none

/-- The rest of a string literal after its opening quote: the characters up to the closing
quote, escapes decoded.  A surrogate pair of escapes is one character; a surrogate escape
without its partner, which a JavaScript string can hold and a `String` cannot, is read as
U+FFFD.  The first argument bounds the number of steps and is given the length of the text. -/
def parseStringBody : Nat → List Char → List Char → Option (String × List Char)
  | 0, _, _ => none
  | _ + 1, [], _ => none
  | n + 1, c :: rest, acc =>
    if c.toNat = 34 then some (String.mk acc, rest)
    else if c.toNat = 92 then
      match rest with
      | [] => none
      | e :: rest2 =>
        if e = 'u' then
          match parseHex4 rest2 with
          | none => none
          | some (unit, rest3) =>
            if 0xD800 ≤ unit ∧ unit ≤ 0xDBFF then
              match parseLowSurrogate rest3 with
              | some (low, rest4) =>
                parseStringBody n rest4
                  (acc ++ [Char.ofNat (0x10000 + (unit - 0xD800) * 0x400 + (low - 0xDC00))])
              | none => parseStringBody n rest3 (acc ++ [Char.ofNat 0xFFFD])
            else if 0xDC00 ≤ unit ∧ unit ≤ 0xDFFF then
              parseStringBody n rest3 (acc ++ [Char.ofNat 0xFFFD])
            else parseStringBody n rest3 (acc ++ [Char.ofNat unit])
        else
          match simpleEscape e with
          | some ch => parseStringBody n rest2 (acc ++ [ch])
          | none => none
    else if c.toNat < 32 then none
    else parseStringBody n rest (acc ++ [c])

/-- Whether a character is a decimal digit. -/
def isJsonDigit (c : Char) : Bool := 48 ≤ c.toNat && c.toNat ≤ 57

/-- The digits at the head of the text, which must be at least one. -/
def takeDigits (cs : List Char) : Option (List Char × List Char) :=
  if (cs.takeWhile isJsonDigit).isEmpty then none
  else some (cs.takeWhile isJsonDigit, cs.dropWhile isJsonDigit)

/-- A numeric literal at the head of the text: an optional minus, `0` or digits without a
leading zero, an optional fraction, an optional exponent. -/
def parseNumberToken (cs : List Char) : Option (List Char × List Char) := do
  let signed : List Char × List Char :=
    match cs with
    | '-' :: rest => (['-'], rest)
    | _ => ([], cs)
  let whole ←
    match signed.2 with
    | '0' :: rest => some (['0'], rest)
    | _ => takeDigits signed.2
  let fraction ←
    match whole.2 with
    | '.' :: rest => (takeDigits rest).map fun d => ('.' :: d.1, d.2)
    | _ => some ([], whole.2)
  let exponent ←
    match fraction.2 with
    | 'e' :: '-' :: rest => (takeDigits rest).map fun d => ('e' :: '-' :: d.1, d.2)
    | 'e' :: '+' :: rest => (takeDigits rest).map fun d => ('e' :: '+' :: d.1, d.2)
    | 'e' :: rest => (takeDigits rest).map fun d => ('e' :: d.1, d.2)
    | 'E' :: '-' :: rest => (takeDigits rest).map fun d => ('E' :: '-' :: d.1, d.2)
    | 'E' :: '+' :: rest => (takeDigits rest).map fun d => ('E' :: '+' :: d.1, d.2)
    | 'E' :: rest => (takeDigits rest).map fun d => ('E' :: d.1, d.2)
    | _ => some ([], fraction.2)
  pure (signed.1 ++ whole.1 ++ fraction.1 ++ exponent.1, exponent.2)

/-- The array index a property key denotes, if it is the decimal form of an integer up to
`2 ^ 32 - 2`: such keys come first in the order of an object's properties. -/
def arrayIndex (key : String) : Option Nat :=
  if key.data.isEmpty ∨ !key.data.all isJsonDigit then none
  else
    let value := key.data.foldl (fun acc c => acc * 10 + (c.toNat - 48)) 0
    if toString value = key ∧ value ≤ 4294967294 then some value else none

/-- The place of a new index property: before the first property that is not an index or is a
larger index. -/
def insertIndexProperty (index : Nat) (key : String) (v : JsVal) :
    List (String × JsVal) → List (String × JsVal)
  | [] => [(key, v)]
  | (k, w) :: rest =>
    match arrayIndex k with
    | some other =>
      if other < index then (k, w) :: insertIndexProperty index key v rest
      else (key, v) :: (k, w) :: rest
    | none => (key, v) :: (k, w) :: rest

/-- The definition of a property while an object literal is parsed (`CreateDataProperty`): a
key already present keeps its place and takes the new value; a new index key goes among the
index keys, in ascending order; any other new key goes to the end. -/
def setProperty (key : String) (v : JsVal) (fields : List (String × JsVal)) :
    List (String × JsVal) :=
  if fields.any (fun kv => kv.1 == key) then
    fields.map fun kv => if kv.1 == key then (kv.1, v) else kv
  else
    match arrayIndex key with
    | some index => insertIndexProperty index key v fields
    | none => fields ++ [(key, v)]

mutual
/-- A JSON value at the head of the text, after optional white space.  The first argument
bounds the depth and number of the recursive calls. -/
def parseJsonValue (numberText : String → String) : Nat → List Char → Option (JsVal × List Char)
  | 0, _ => none
  | n + 1, cs =>
    match skipJsonWhiteSpace cs with
    | 'n' :: 'u' :: 'l' :: 'l' :: rest => some (.null, rest)
    | 't' :: 'r' :: 'u' :: 'e' :: rest => some (.bool true, rest)
    | 'f' :: 'a' :: 'l' :: 's' :: 'e' :: rest => some (.bool false, rest)
    | '[' :: rest =>
      match skipJsonWhiteSpace rest with
      | ']' :: rest2 => some (.arr [], rest2)
      | _ => parseJsonElements numberText n rest []
    | c :: rest =>
      if c.toNat = 34 then
        (parseStringBody (rest.length + 1) rest []).map fun sr => (.str sr.1, sr.2)
      else if c.toNat = 123 then
        match skipJsonWhiteSpace rest with
        | [] => none
        | d :: rest2 =>
          if d.toNat = 125 then some (.obj [], rest2)
          else parseJsonMembers numberText n rest []
      else
        (parseNumberToken (c :: rest)).map fun tr => (.num (numberText (String.mk tr.1)), tr.2)
    | [] => none
/-- The elements of an array after the first bracket or a comma, up to the closing bracket. -/
def parseJsonElements (numberText : String → String) :
    Nat → List Char → List JsVal → Option (JsVal × List Char)
  | 0, _, _ => none
  | n + 1, cs, acc =>
    match parseJsonValue numberText n cs with
    | none => none
    | some (v, rest) =>
      match skipJsonWhiteSpace rest with
      | ',' :: rest2 => parseJsonElements numberText n rest2 (acc ++ [v])
      | ']' :: rest2 => some (.arr (acc ++ [v]), rest2)
      | _ => none
/-- The members of an object after the opening brace or a comma, up to the closing brace. -/
def parseJsonMembers (numberText : String → String) :
    Nat → List Char → List (String × JsVal) → Option (JsVal × List Char)
  | 0, _, _ => none
  | n + 1, cs, acc =>
    match skipJsonWhiteSpace cs with
    | [] => none
    | q :: rest =>
      if q.toNat = 34 then
        match parseStringBody (rest.length + 1) rest [] with
        | none => none
        | some (key, rest2) =>
          match skipJsonWhiteSpace rest2 with
          | ':' :: rest3 =>
            match parseJsonValue numberText n rest3 with
            | none => none
            | some (v, rest4) =>
              match skipJsonWhiteSpace rest4 with
              | [] => none
              | d :: rest5 =>
                if d = ',' then parseJsonMembers numberText n rest5 (setProperty key v acc)
                else if d.toNat = 125 then some (.obj (setProperty key v acc), rest5)
                else none
          | _ => none
      else none
end

/-- The call `JSON.parse(text)`; `none` is a thrown `SyntaxError`.  The whole text must be one
value between optional white space. -/
def jsonParse (numberText : String → String) (text : String) : Option JsVal :=
  match parseJsonValue numberText (2 * text.length + 2) text.data with
  | some (v, rest) => if (skipJsonWhiteSpace rest).isEmpty then some v else none
  | none => none

/-! ## The WebSocket tester (`WebSocketTester.js`) and the test endpoint of the server -/

/-- What a handler of the browser reads from its surroundings: `new Date().toISOString()`,
the number `Date.now() + Math.random()` (as its text) and the conversion of numeric literals
in `JSON.parse`. -/
structure BrowserEnv where
  timestamp : String
  messageId : String
  numberText : String → String

/-- A `WebSocket` of the browser: its `readyState` (0 connecting, 1 open, 2 closing,
3 closed) and the text frames handed to `send` so far. -/
structure Socket where
  readyState : Nat
  sent : List String

/-- The constant `WebSocket.OPEN`. -/
def Socket.OPEN : Nat := 1

/-- The call `ws.send(text)` on an open socket, the only state in which this program calls
it: the frame is queued for transmission. -/
def Socket.send (ws : Socket) (text : String) : Socket := { ws with sent := ws.sent ++ [text] }

/-- The three kinds of toast the components raise: `toast.error`, `toast.success`, `toast`. -/
inductive ToastKind where
  | error
  | success
  | plain
  deriving DecidableEq, Repr

/-- One toast: its kind, its text and the options object, `undefined` when none is given. -/
structure Toast where
  kind : ToastKind
  message : String
  options : JsVal

/-- The state of the `WebSocketTester` component, `wsRef.current` included, and the toasts
raised so far. -/
structure TesterState where
  wsUrl : String
  isConnected : Bool
  isConnecting : Bool
  messages : List JsVal
  connectionInfo : JsVal
  ws : Option Socket
  toasts : List Toast

/-- The test `typeof v === 'object'`: true of `null`, arrays and objects. -/
def JsVal.typeofObject : JsVal → Bool
  | .null => true
  | .arr _ => true
  | .obj _ => true
  | _ => false

/-- The function `addMessage`, WebSocketTester.js lines 179-181: the message, with an `id`,
goes to the end of the list. -/
def addMessage (env : BrowserEnv) (message : List (String × JsVal)) (st : TesterState) :
    TesterState :=
  { st with messages := st.messages ++ [.obj (setProperty "id" (.num env.messageId) message)] }

/-- The value `messageToSend` of line 160: the JSON text of an object, any other value as it
is. -/
def messageToSend (message : JsVal) : JsVal :=
  if message.typeofObject then
    match jsonStringify message with
    | some text => .str text
    | none => .undefined
  else message

/-- The function `sendMessage`, WebSocketTester.js lines 153-177.  `send` transmits the text
of its argument. -/
def sendMessage (env : BrowserEnv) (message : JsVal) (st : TesterState) : TesterState :=
  match st.ws with
  | none =>
    { st with toasts := st.toasts ++ [⟨.error, "WebSocket is not connected", .undefined⟩] }
  | some ws =>
    if ws.readyState ≠ Socket.OPEN then
      { st with toasts := st.toasts ++ [⟨.error, "WebSocket is not connected", .undefined⟩] }
    else
      match (messageToSend message).toStr with
      | .error _ =>
        { st with toasts := st.toasts ++ [⟨.error, "Failed to send message", .undefined⟩] }
      | .ok text =>
        addMessage env
          [("type", .str "message"), ("direction", .str "outgoing"), ("data", message),
           ("raw", messageToSend message), ("timestamp", .str env.timestamp),
           ("event", .str "send")]
          { st with ws := some (ws.send text) }

/-- Lines 83-98 of WebSocketTester.js: the second-level decode of `transactionStatus` and the
two notifications; whatever is thrown inside is ignored. -/
def notifyPayment (env : BrowserEnv) (transactionStatus : JsVal) (st : TesterState) :
    TesterState :=
  match transactionStatus.toStr with
  | .error _ => st
  | .ok text =>
    match jsonParse env.numberText text with
    | none => st
    | some decoded =>
      match decoded.getProp "paymentSuccess" with
      | .error _ => st
      | .ok paymentSuccess =>
        if paymentSuccess.truthy then
          { st with toasts := st.toasts ++ [⟨.success, "Payment notification received!",
              .obj [("duration", .num "6000"), ("icon", .str "💳")]⟩] }
        else if (decoded.field "QRVerified").truthy then
          { st with toasts := st.toasts ++ [⟨.plain, "QR Code verified!",
              .obj [("duration", .num "4000"), ("icon", .str "✅")]⟩] }
        else st

/-- The handler `onmessage` of the tester, WebSocketTester.js lines 62-100, for a text frame
`data`: the state afterwards and the exception that escapes the handler, if one does. -/
def onMessage (env : BrowserEnv) (data : String) (st : TesterState) :
    TesterState × Option JsError :=
  let parsedData : JsVal :=
    match jsonParse env.numberText data with
    | some v => v
    | none => .str data
  let st := addMessage env
    [("type", .str "message"), ("direction", .str "incoming"), ("data", parsedData),
     ("raw", .str data), ("timestamp", .str env.timestamp), ("event", .str "onmessage")] st
  if parsedData.typeofObject then
    match parsedData.getProp "transactionStatus" with
    | .error e => (st, some e)
    | .ok transactionStatus =>
      if transactionStatus.truthy then (notifyPayment env transactionStatus st, none)
      else (st, none)
  else (st, none)

/-- The object `connectionResult` of `POST /api/websocket/test`, server.js lines 354-358. -/
structure ConnectionResult where
  connected : Bool
  messages : List JsVal
  error : JsVal

/-- The handler `ws.on('message')` of the test endpoint, server.js lines 371-389; `message` is
`data.toString()` and `timestamp` is `new Date().toISOString()`. -/
def wsTestOnMessage (numberText : String → String) (timestamp message : String)
    (connectionResult : ConnectionResult) : ConnectionResult :=
  match jsonParse numberText message with
  | some parsedMessage =>
    { connectionResult with
      messages := connectionResult.messages ++
        [.obj [("timestamp", .str timestamp), ("data", parsedMessage), ("raw", .str message)]] }
  | none =>
    { connectionResult with
      messages := connectionResult.messages ++
        [.obj [("timestamp", .str timestamp), ("data", .str message), ("raw", .str message)]] }

/-- Surroundings of the browser for the examples: numeric literals in canonical form stand
for themselves. -/
def exampleBrowser : BrowserEnv :=
  { timestamp := "2024-01-01T00:00:01.000Z", messageId := "1704067201000.25", numberText := id }

/-- A tester connected to an open socket. -/
def openTester : TesterState :=
  { wsUrl := "wss://example.test/qr", isConnected := true, isConnecting := false,
    messages := [], connectionInfo := .null, ws := some { readyState := 1, sent := [] },
    toasts := [] }

/-- A tester whose socket is closed. -/
def closedTester : TesterState :=
  { openTester with isConnected := false, ws := some { readyState := 3, sent := [] } }

/-! ## The QR generator (`QRCodeGenerator.js`) and `localStorage` -/

/-- The optional property read `v?.key`: `undefined` on `undefined` and `null`, the property
otherwise. -/
def JsVal.optProp (v : JsVal) (key : String) : JsVal :=
  match v with
  | .undefined => .undefined
  | .null => .undefined
  | _ => v.field key

/-- The `localStorage` of the browser: keys and their values, both strings. -/
structure Storage where
  items : List (String × String)

/-- The call `localStorage.getItem(key)`; `none` is `null`. -/
def Storage.getItem (storage : Storage) (key : String) : Option String :=
  (storage.items.find? fun kv => kv.1 == key).map fun kv => kv.2

/-- The call `localStorage.setItem(key, value)` with the value already converted to a string. -/
def Storage.setItem (storage : Storage) (key value : String) : Storage :=
  if storage.items.any (fun kv => kv.1 == key) then
    { items := storage.items.map fun kv => if kv.1 == key then (key, value) else kv }
  else { items := storage.items ++ [(key, value)] }

/-- The state of the `QRCodeGenerator` component that the handlers below write (the form and
`wsConnection` are not among it), and the toasts raised so far. -/
structure GeneratorState where
  loading : Bool
  result : JsVal
  activeTab : String
  wsStatus : String
  wsMessages : List JsVal
  transactionActive : Bool
  toasts : List Toast

/-- The property `error.message` of what a handler of the browser catches. -/
def caughtMessage (typeErrorMessage : TypeErrorKind → String) : JsError → String
  | .typeError kind => typeErrorMessage kind
  | .axiosError message _ => message

/-- The text a toast shows for a value. -/
def toastText (v : JsVal) : String :=
  match v.toStr with
  | .ok text => text
  | .error _ => ""

/-- What `generateQR` leaves behind once the answer of `/api/qr/generate` is in: the state,
the storage, and the URL the timer of line 203 hands to `connectWebSocket` one second later,
if it was set. -/
structure GenerateOutcome where
  state : GeneratorState
  storage : Storage
  connectAfter : Option JsVal

/-- The `catch` block of `generateQR`, lines 213-218, followed by `finally`. -/
def generateQRCaught (message : String) (st : GeneratorState) (storage : Storage) :
    GenerateOutcome :=
  { state :=
      { st with
        toasts := st.toasts ++ [⟨.error, "Network error occurred", .undefined⟩]
        result := .obj [("error", .obj [("message", .str message)])]
        activeTab := "result"
        transactionActive := false
        loading := false }
    storage := storage
    connectAfter := none }

/-- Lines 190-221 of `generateQR`, QRCodeGenerator.js: what the function does with the answer
of `/api/qr/generate`.  `fetched` is the value of `await response.json()`, or the message of
the error `fetch` or `json()` rejected with; `typeErrorMessage` is the text the engine puts in
a `TypeError`. -/
def generateQRSettled (typeErrorMessage : TypeErrorKind → String) (fetched : Except String JsVal)
    (st : GeneratorState) (storage : Storage) : GenerateOutcome :=
  match fetched with
  | .error message => generateQRCaught message st storage
  | .ok data =>
    match data.getProp "success" with
    | .error e => generateQRCaught (caughtMessage typeErrorMessage e) st storage
    | .ok success =>
      if success.truthy then
        let st := { st with
          result := data.field "data"
          activeTab := "result"
          toasts := st.toasts ++ [⟨.success, "QR Code generated successfully!", .undefined⟩] }
        match (data.field "data").getProp "prn" >>= JsVal.toStr with
        | .error e => generateQRCaught (caughtMessage typeErrorMessage e) st storage
        | .ok prn =>
          let storage := storage.setItem "lastPRN" prn
          let wsUrl := ((data.field "data").field "websocketUrl").or
            (((data.field "data").field "response").optProp "thirdpartyQrWebSocketUrl")
          { state := { st with loading := false }
            storage := storage
            connectAfter := if wsUrl.truthy then some wsUrl else none }
      else
        { state :=
            { st with
              toasts := st.toasts ++ [⟨.error,
                toastText (((data.field "error").optProp "message").or (.str "QR generation failed")),
                .undefined⟩]
              result := .obj [("error", data.field "error")]
              activeTab := "result"
              transactionActive := false
              loading := false }
          storage := storage
          connectAfter := none }

/-- The handler `ws.onopen` that `connectWebSocket` installs, QRCodeGenerator.js lines 81-104,
on the socket that has just opened.  `result` is the value of the state variable `result` that
the handler reads: the one of the render whose `connectWebSocket` created the socket. -/
def connectWebSocket.onopen (env : BrowserEnv) (result : JsVal) (ws : Socket)
    (st : GeneratorState) : Socket × GeneratorState :=
  let st := { st with
    wsStatus := "connected"
    toasts := st.toasts ++
      [⟨.success, "WebSocket connected for transaction tracking", .undefined⟩] }
  if (result.optProp "prn").truthy then
    let initMessage := JsVal.obj [
      ("prn", result.field "prn"),
      ("merchantCode",
        (((result.field "request").optProp "payload").optProp "merchantCode").or
          (.str "fonepay123"))]
    let text :=
      match jsonStringify initMessage with
      | some json => json
      | none => "undefined"
    (ws.send text,
      { st with
        wsMessages := st.wsMessages ++ [.obj [("type", .str "sent"),
          ("timestamp", .str env.timestamp), ("data", initMessage)]] })
  else (ws, st)

/-- The handler `ws.onmessage` that `connectWebSocket` installs, QRCodeGenerator.js lines
106-131, for a text frame `data`.  What the `try` block throws after it has recorded the
frame is caught by the same `catch` block that records a frame that is not JSON;
`catchTimestamp` is the time that block reads when the `try` block has read the time
before. -/
def connectWebSocket.onmessage (env : BrowserEnv) (catchTimestamp : String) (data : String)
    (st : GeneratorState) : GeneratorState :=
  match jsonParse env.numberText data with
  | none =>
    { st with
      wsMessages := st.wsMessages ++ [.obj [("type", .str "received"),
        ("timestamp", .str env.timestamp), ("data", .obj [("message", .str data)])]] }
  | some parsed =>
    let st := { st with
      wsMessages := st.wsMessages ++ [.obj [("type", .str "received"),
        ("timestamp", .str env.timestamp), ("data", parsed)]] }
    match parsed.getProp "status" with
    | .error _ =>
      { st with
        wsMessages := st.wsMessages ++ [.obj [("type", .str "received"),
          ("timestamp", .str catchTimestamp), ("data", .obj [("message", .str data)])]] }
    | .ok status =>
      if status.isString "SUCCESS" || (parsed.field "transactionStatus").isString "SUCCESS" then
        { st with
          toasts := st.toasts ++ [⟨.success, "Transaction completed successfully!", .undefined⟩] }
      else if status.isString "FAILED" || (parsed.field "transactionStatus").isString "FAILED" then
        { st with toasts := st.toasts ++ [⟨.error, "Transaction failed", .undefined⟩] }
      else st

/-- The function `loadWebSocketFromQR` of the tester, WebSocketTester.js lines 188-197. -/
def loadWebSocketFromQR (storage : Storage) (st : TesterState) : TesterState :=
  match storage.getItem "lastWebSocketUrl" with
  | some lastWebSocketUrl =>
    if lastWebSocketUrl ≠ "" then
      { st with
        wsUrl := lastWebSocketUrl
        toasts := st.toasts ++
          [⟨.success, "WebSocket URL loaded from last QR generation", .undefined⟩] }
    else
      { st with
        toasts := st.toasts ++
          [⟨.error, "No WebSocket URL found from recent QR generation", .undefined⟩] }
  | none =>
    { st with
      toasts := st.toasts ++
        [⟨.error, "No WebSocket URL found from recent QR generation", .undefined⟩] }

/-- A generator that has submitted its form and waits for the answer. -/
def waitingGenerator : GeneratorState :=
  { loading := true, result := .null, activeTab := "form", wsStatus := "disconnected",
    wsMessages := [], transactionActive := true, toasts := [] }

/-- A tester that has no URL yet. -/
def freshTester : TesterState :=
  { wsUrl := "", isConnected := false, isConnecting := false, messages := [],
    connectionInfo := .null, ws := none, toasts := [] }

/-! ## The signature generator of the browser (`SignatureGenerator.js`) -/

/-- The call `n.toString(16)` on a non-negative integer: lower-case digits, no leading zero. -/
def toString16 (n : Nat) : String := String.mk (Nat.toDigits 16 n)

/-- The call `s.padStart(targetLength, pad)` with a pad of one character. -/
def padStart (s : String) (targetLength : Nat) (pad : Char) : String :=
  String.mk (List.replicate (targetLength - s.length) pad ++ s.data)

/-- The call `s.trim()`: white space and line terminators go at both ends. -/
def trim (s : String) : String :=
  String.mk ((s.data.dropWhile isStrWhiteSpace).reverse.dropWhile isStrWhiteSpace).reverse

namespace SignatureGenerator

/-- The state variable `formData`, lines 6-18: the text of the eight inputs. -/
structure FormData where
  amount : String
  prn : String
  merchantCode : String
  remarks1 : String
  remarks2 : String
  statusPrn : String
  statusMerchantCode : String
  secretKey : String

/-- The read `formData[field]` for the field names of `requiredFields`. -/
def FormData.get (formData : FormData) (field : String) : String :=
  if field = "amount" then formData.amount
  else if field = "prn" then formData.prn
  else if field = "merchantCode" then formData.merchantCode
  else if field = "remarks1" then formData.remarks1
  else if field = "remarks2" then formData.remarks2
  else if field = "statusPrn" then formData.statusPrn
  else if field = "statusMerchantCode" then formData.statusMerchantCode
  else formData.secretKey

/-- The object `generateSignature` stores with `setResult`, lines 143-150. -/
structure Result where
  type : String
  message : String
  secretKey : String
  signature : String
  algorithm : String
  timestamp : String

/-- The state variable `result` of the component and the toasts raised so far; the steps shown
next to the result (`steps`) are left out. -/
structure State where
  result : Option Result
  toasts : List Toast

/-- The function `generateHMACSignature` of the component, SignatureGenerator.js lines 43-66, on Web
Crypto: `TextEncoder` gives the UTF-8 bytes, `importKey` rejects a key of no bytes (with an error
whose message is `importKeyMessage`), `sign` computes HMAC-SHA-512.  The result is the digest,
or the message of the error thrown. -/
def generateHMACSignature (importKeyMessage : String) (secretKey message : String) :
    Except String String :=
  let keyData := utf8Encode secretKey
  let messageData := utf8Encode message
  if keyData.isEmpty then throw ("Failed to generate HMAC signature: " ++ importKeyMessage)
  else
    let hashArray := hmacSha512 keyData messageData
    let hashHex := toUpperCase (String.join (hashArray.map fun b => padStart (toString16 b) 2 '0'))
    pure hashHex

/-- The function `generateSignature`, SignatureGenerator.js lines 68-158, for the selected `signatureType`. -/
def generateSignature (env : BrowserEnv) (importKeyMessage : String) (signatureType : String)
    (formData : FormData) (st : State) : State :=
  let signed (message description : String) : State :=
    match generateHMACSignature importKeyMessage formData.secretKey message with
    | .error errorMessage =>
      { st with
        toasts := st.toasts ++
          [⟨.error, "Failed to generate signature: " ++ errorMessage, .undefined⟩] }
    | .ok signature =>
      { result := some
          { type := description, message := message, secretKey := formData.secretKey,
            signature := signature, algorithm := "HMAC-SHA512", timestamp := env.timestamp }
        toasts := st.toasts ++ [⟨.success, "Signature generated successfully!", .undefined⟩] }
  if signatureType = "qr" then
    let requiredFields := ["amount", "prn", "merchantCode", "remarks1", "remarks2", "secretKey"]
    let missing := requiredFields.filter fun field => trim (formData.get field) == ""
    if missing.length > 0 then
      { st with
        toasts := st.toasts ++
          [⟨.error, "Missing required fields: " ++ ", ".intercalate missing, .undefined⟩] }
    else
      signed
        (formData.amount ++ "," ++ formData.prn ++ "," ++ formData.merchantCode ++ "," ++
          formData.remarks1 ++ "," ++ formData.remarks2)
        "QR Request Signature"
  else
    let requiredFields := ["statusPrn", "statusMerchantCode", "secretKey"]
    let missing := requiredFields.filter fun field => trim (formData.get field) == ""
    if missing.length > 0 then
      { st with
        toasts := st.toasts ++
          [⟨.error, "Missing required fields: " ++ ", ".intercalate missing, .undefined⟩] }
    else
      signed (formData.statusPrn ++ "," ++ formData.statusMerchantCode) "Status Check Signature"

end SignatureGenerator

/-! ## The configuration page (`Configuration.js`) and `GET /api/config` -/

/-- The body `GET /api/config` answers with, server.js lines 428-443. -/
def getConfigBody : JsVal :=
  .obj [("success", .bool true),
    ("data", .obj [
      ("endpoints", .obj [("dev", .str FONEPAY_CONFIG.DEV_BASE_URL),
                          ("live", .str FONEPAY_CONFIG.LIVE_BASE_URL)]),
      ("websocket", .obj [("dev", .str FONEPAY_CONFIG.DEV_WEBSOCKET_URL),
                          ("live", .str FONEPAY_CONFIG.LIVE_WEBSOCKET_URL)]),
      ("testCredentials", FONEPAY_CONFIG.TEST_CREDENTIALS)])]

/-- The property `length` of a string: the number of UTF-16 code units. -/
def utf16Length (s : String) : Nat :=
  (s.data.map fun c => if c.toNat < 0x10000 then 1 else 2).sum

namespace Configuration

/-- The comparison `v.length < n` for a truthy credential `v`: on the length of a string and of
an array; a number and `true` have no `length`, and an object is taken to have none, so
that the comparison with `undefined` is false. -/
def lengthBelow (v : JsVal) (n : Nat) : Bool :=
  match v with
  | .str s => utf16Length s < n
  | .arr items => items.length < n
  | _ => false

/-- The list `issues` of `validateCredentials`, lines 53-62, for the object `testCredentials`. -/
def issues (testCredentials : JsVal) : List String :=
  let merchantCode := testCredentials.field "merchantCode"
  let secretKey := testCredentials.field "secretKey"
  let username := testCredentials.field "username"
  let password := testCredentials.field "password"
  (if !merchantCode.truthy then ["Merchant Code is missing"] else []) ++
  (if !secretKey.truthy then ["Secret Key is missing"] else []) ++
  (if !username.truthy then ["Username is missing"] else []) ++
  (if !password.truthy then ["Password is missing"] else []) ++
  (if merchantCode.truthy && lengthBelow merchantCode 3 then ["Merchant Code seems too short"]
    else []) ++
  (if secretKey.truthy && lengthBelow secretKey 8 then ["Secret Key seems too short"] else [])

/-- The function `validateCredentials`, Configuration.js lines 47-69, for the property `config` of the
component: the toast it raises. -/
def validateCredentials (config : JsVal) : Toast :=
  if !(config.optProp "testCredentials").truthy then
    ⟨.error, "No credentials available to validate", .undefined⟩
  else if (issues (config.field "testCredentials")).length = 0 then
    ⟨.success, "✅ Credentials validation passed!", .undefined⟩
  else
    ⟨.error, "❌ Validation issues: " ++ ", ".intercalate (issues (config.field "testCredentials")),
      .undefined⟩

end Configuration

/-! ## More notions used to state the properties -/

/-- A lower-case hexadecimal digit. -/
def isLowerHexDigit (c : Char) : Bool := "0123456789abcdef".data.contains c

/-- The shape of the text `uuidv4()` returns (RFC 4122, version 4): 36 characters in groups of
8, 4, 4, 4 and 12 lower-case hexadecimal digits with hyphens between them, where the third
group starts with the version digit `4` and the fourth with a variant digit among 8, 9, a, b. -/
def isUuidV4 (s : String) : Bool :=
  s.data.length == 36 &&
  (s.data.take 8).all isLowerHexDigit &&
  (s.data.drop 8).take 1 == ['-'] &&
  ((s.data.drop 9).take 4).all isLowerHexDigit &&
  (s.data.drop 13).take 1 == ['-'] &&
  (s.data.drop 14).take 1 == ['4'] &&
  ((s.data.drop 15).take 3).all isLowerHexDigit &&
  (s.data.drop 18).take 1 == ['-'] &&
  ((s.data.drop 19).take 1).all "89ab".data.contains &&
  ((s.data.drop 20).take 3).all isLowerHexDigit &&
  (s.data.drop 23).take 1 == ['-'] &&
  ((s.data.drop 24).take 12).all isLowerHexDigit

/-- A provider that answers with status 200 and an empty body. -/
def emptyBodyRuntime : Runtime :=
  { exampleRuntime with
    provider := fun _ _ => .answered { status := 200, headers := .obj [], data := .str "" } }

/-- The fields of a request with the amount "100.50" and nothing else. -/
def exampleQrFields : QrFields :=
  { amount := .str "100.50", remarks1 := .str "Test Transaction", remarks2 := .str "API Test",
    isLive := .bool false, customCredentials := .undefined }

/-- What `qrGenerate` prepares for `exampleQrFields` in `exampleRuntime`. -/
def exampleQrPrepared : QrPrepared :=
  { fields := exampleQrFields
    credentials := FONEPAY_CONFIG.TEST_CREDENTIALS
    prn := "test-0f8fad5b"
    dataValidation := "3B55A08C8416BED1DA0E8B8D5105AA635C9DAE097048BC74FEA096C80328B71BCC27FE63BBA34C589BAED73860F0B613CF76D25120672179459CD2DEAB456F73"
    requestPayload := .obj [
      ("amount", .str "100.50"),
      ("remarks1", .str "Test Transaction"),
      ("remarks2", .str "API Test"),
      ("prn", .str "test-0f8fad5b"),
      ("merchantCode", .str "fonepay123"),
      ("dataValidation", .str "3B55A08C8416BED1DA0E8B8D5105AA635C9DAE097048BC74FEA096C80328B71BCC27FE63BBA34C589BAED73860F0B613CF76D25120672179459CD2DEAB456F73"),
      ("username", .str "bijayk"),
      ("password", .str "password")]
    apiUrl := "https://uat-new-merchant-api.fonepay.com/api/merchant/merchantDetailsForThirdParty/thirdPartyDynamicQrDownload" }

/-- The fields of a request whose amount is the number 100.5. -/
def numberAmountFields : QrFields :=
  { amount := .num "100.5", remarks1 := .str "Test Transaction", remarks2 := .str "API Test",
    isLive := .bool false, customCredentials := .undefined }

/-- What `qrGenerate` prepares for `numberAmountFields` in `exampleRuntime`. -/
def numberAmountPrepared : QrPrepared :=
  { fields := numberAmountFields
    credentials := FONEPAY_CONFIG.TEST_CREDENTIALS
    prn := "test-0f8fad5b"
    dataValidation := "691F8D44B55531D51DC88B3DA4EBE8D3590C80112A4D734396BA03E3BAD780EE3554CF85F5B375D6F2D6C607BC6B5C47A17435876FFC54F81A35ACA9F1C42D74"
    requestPayload := .obj [
      ("amount", .str "100.5"),
      ("remarks1", .str "Test Transaction"),
      ("remarks2", .str "API Test"),
      ("prn", .str "test-0f8fad5b"),
      ("merchantCode", .str "fonepay123"),
      ("dataValidation", .str "691F8D44B55531D51DC88B3DA4EBE8D3590C80112A4D734396BA03E3BAD780EE3554CF85F5B375D6F2D6C607BC6B5C47A17435876FFC54F81A35ACA9F1C42D74"),
      ("username", .str "bijayk"),
      ("password", .str "password")]
    apiUrl := "https://uat-new-merchant-api.fonepay.com/api/merchant/merchantDetailsForThirdParty/thirdPartyDynamicQrDownload" }

/-- The fields of a status request for the reference `test-abc123`. -/
def exampleStatusFields : StatusFields :=
  { prn := .str "test-abc123", isLive := .bool false, customCredentials := .undefined }

/-- What `qrStatus` prepares for `exampleStatusFields`. -/
def exampleStatusPrepared : StatusPrepared :=
  { fields := exampleStatusFields
    credentials := FONEPAY_CONFIG.TEST_CREDENTIALS
    dataValidation := "50B791A3EBDA8823AF8408C4E1AF6489D8A3314475039045B5A7D9E31C6E69EAE6FB7C91753B05B02D8C7C598D2AD43D4519D688220E0BD5B229501631BE4088"
    requestPayload := .obj [
      ("prn", .str "test-abc123"),
      ("merchantCode", .str "fonepay123"),
      ("dataValidation", .str "50B791A3EBDA8823AF8408C4E1AF6489D8A3314475039045B5A7D9E31C6E69EAE6FB7C91753B05B02D8C7C598D2AD43D4519D688220E0BD5B229501631BE4088"),
      ("username", .str "bijayk"),
      ("password", .str "password")]
    apiUrl := "https://uat-new-merchant-api.fonepay.com/api/merchant/merchantDetailsForThirdParty/thirdPartyDynamicQrGetStatus" }

/-- What the provider of `exampleRuntime` answers. -/
def exampleProviderResponse : ProviderResponse :=
  { status := 200, headers := .obj [],
    data := .obj [("thirdpartyQrWebSocketUrl", .str "wss://example.test/qr")] }

/-- A generator whose tracking socket is connecting, with a result on display. -/
def trackingGenerator : GeneratorState :=
  { loading := false, result := .null, activeTab := "result", wsStatus := "connecting",
    wsMessages := [], transactionActive := true, toasts := [] }

/-- A request with the amount "100.50" whose custom credentials have an empty merchant
code. -/
def emptyMerchantBody : JsVal :=
  .obj [("amount", .str "100.50"),
    ("customCredentials", .obj [("merchantCode", .str ""), ("secretKey", .str "fonepay"),
      ("username", .str "bijayk"), ("password", .str "password")])]

/-- The value `data.data` of the answer of `/api/qr/generate` to `body` in `exampleRuntime`,
which `generateQR` stores in `result`. -/
def exampleResult (body : JsVal) : JsVal :=
  (qrGenerate exampleRuntime body []).response.body.field "data"

/-- The form of the signature generator, filled with the fields of the known-vector test. -/
def exampleForm : SignatureGenerator.FormData :=
  { amount := "100.50", prn := "test-abc123", merchantCode := "fonepay123",
    remarks1 := "Test Transaction", remarks2 := "API Test", statusPrn := "test-abc123",
    statusMerchantCode := "fonepay123", secretKey := "fonepay" }

/-- The signature generator before its first signature. -/
def emptySignatureState : SignatureGenerator.State := { result := none, toasts := [] }

/-- The handler `onopen` of the socket that the timer of `generateQR` opens (lines 203-205).
The timer calls the `connectWebSocket` of the render in which `generateQR` ran, and the handler
which that function installs reads the `result` of that same render: the result the component
had `before` the answer was stored with `setResult`. -/
def autoConnectOnOpen (env : BrowserEnv) (before : GeneratorState) (ws : Socket)
    (st : GeneratorState) : Socket × GeneratorState :=
  connectWebSocket.onopen env before.result ws st

/-! ## Lemmas on the digest -/

theorem beBytes_length (n x : Nat) : (beBytes n x).length = n := by
  induction n with
  | zero => rfl
  | succ k ih => simp [beBytes, ih]

theorem sha512_length (msg : List Nat) : (sha512 msg).length = 64 := by
  simp [sha512, Sha512State.bytes, beBytes_length]

theorem hmacSha512_length (key text : List Nat) : (hmacSha512 key text).length = 64 := by
  simp [hmacSha512, sha512_length]

theorem hexEncode_length (bytes : List Nat) : (hexEncode bytes).length = 2 * bytes.length := by
  induction bytes with
  | nil => rfl
  | cons b bs ih =>
    simp only [hexEncode, String.length, List.flatMap_cons, List.length_append, List.length_cons,
      List.length_nil] at ih ⊢
    omega

theorem toUpperCase_length (s : String) : (toUpperCase s).length = s.length := by
  show (s.data.map Char.toUpper).length = s.data.length
  exact List.length_map _ _

theorem hexDigit_toUpper_mem : ∀ n, n < 16 → (hexDigit n).toUpper ∈ upperHexChars := by
  decide

theorem toUpperCase_hexEncode_chars (bytes : List Nat) :
    ∀ c ∈ (toUpperCase (hexEncode bytes)).data, c ∈ upperHexChars := by
  intro c hc
  simp only [toUpperCase, hexEncode, List.mem_map, List.mem_flatMap] at hc
  obtain ⟨d, ⟨b, _, hd⟩, rfl⟩ := hc
  simp only [List.mem_cons, List.mem_singleton, List.not_mem_nil, or_false] at hd
  rcases hd with rfl | rfl
  · exact hexDigit_toUpper_mem _ (Nat.mod_lt _ (by decide))
  · exact hexDigit_toUpper_mem _ (Nat.mod_lt _ (by decide))

/-- With a string key and a string message nothing throws: the result is the upper-cased hex
digest. -/
theorem generateHMACSignature_str (secretKey message : String) :
    FonepayUtils.generateHMACSignature (.str secretKey) (.str message) =
      .ok (toUpperCase (hexEncode (hmacSha512 (utf8Encode secretKey) (utf8Encode message)))) :=
  rfl

set_option maxRecDepth 1000000

/-- Known answer: SHA-512 of the empty message. -/
theorem sha512_empty : hexEncode (sha512 []) =
    "cf83e1357eefb8bdf1542850d66d8007d620e4050b5715dc83f4a921d36ce9ce47d0d13c5d85f2b0ff8318d2877eec2f63b931bd47417a81a538327af927da3e" := by
  decide

/-- Known answer: SHA-512 of `abc` (FIPS 180-4 example). -/
theorem sha512_abc : hexEncode (sha512 (utf8Encode "abc")) =
    "ddaf35a193617abacc417349ae20413112e6fa4e89a97ea20a9eeee64b55d39a2192992a274fc1a836ba3c23a3feebbd454d4423643ce80e2a9ac94fa54ca49f" := by
  decide

/-- Known answer: RFC 4231 test case 2 for HMAC-SHA-512. -/
theorem hmacSha512_rfc4231_case2 :
    hexEncode (hmacSha512 (utf8Encode "Jefe") (utf8Encode "what do ya want for nothing?")) =
    "164b7a7bfcf819e2e395fbe73b56e0a387bd64222e831fd610270cd7ea2505549758bf75c05a994a6d034f65f8f0e6fdcaeab1a34d4a6b4b636e070a38bce737" := by
  decide

/-! ## Signatures (C1 to C4, C7) -/

/-- With string fields and a string key nothing throws in `generateQRRequestSignature`. -/
theorem generateQRRequestSignature_str (amount prn merchantCode remarks1 remarks2 secretKey : String) :
    FonepayUtils.generateQRRequestSignature (.str amount) (.str prn) (.str merchantCode)
        (.str remarks1) (.str remarks2) (.str secretKey) =
      .ok (toUpperCase (hexEncode (hmacSha512 (utf8Encode secretKey)
        (utf8Encode (amount ++ "," ++ prn ++ "," ++ merchantCode ++ "," ++ remarks1 ++ "," ++
          remarks2))))) :=
  rfl

/-- With string fields and a string key nothing throws in `generateCheckStatusSignature`. -/
theorem generateCheckStatusSignature_str (prn merchantCode secretKey : String) :
    FonepayUtils.generateCheckStatusSignature (.str prn) (.str merchantCode) (.str secretKey) =
      .ok (toUpperCase (hexEncode (hmacSha512 (utf8Encode secretKey)
        (utf8Encode (prn ++ "," ++ merchantCode))))) :=
  rfl

/-- A key that is not a string makes `generateHMACSignature` throw. -/
theorem generateHMACSignature_ok_key (secretKey message : JsVal) (digest : String)
    (h : FonepayUtils.generateHMACSignature secretKey message = .ok digest) :
    ∃ k, secretKey = .str k := by
  cases secretKey with
  | str k => exact ⟨k, rfl⟩
  | undefined => cases h
  | null => cases h
  | bool b => cases h
  | num n => cases h
  | arr xs => cases h
  | obj fs => cases h

/-- C1: for all values whose `ToString` conversions are `a`, `p`, `m`, `r1`, `r2` (a string
converts to itself), `generateQRRequestSignature(amount, prn, merchantCode, remarks1, remarks2,
secretKey)` is `generateHMACSignature(secretKey, message)` for the message `a,p,m,r1,r2`: the
five texts in that order, joined by single commas, nothing added and nothing escaped. -/
theorem generateQRRequestSignature_signs_joined_fields
    (amount prn merchantCode remarks1 remarks2 secretKey : JsVal) (a p m r1 r2 : String)
    (ha : amount.toStr = .ok a) (hp : prn.toStr = .ok p) (hm : merchantCode.toStr = .ok m)
    (h1 : remarks1.toStr = .ok r1) (h2 : remarks2.toStr = .ok r2) :
    FonepayUtils.generateQRRequestSignature amount prn merchantCode remarks1 remarks2 secretKey =
      FonepayUtils.generateHMACSignature secretKey
        (.str (a ++ "," ++ p ++ "," ++ m ++ "," ++ r1 ++ "," ++ r2)) := by
  unfold FonepayUtils.generateQRRequestSignature
  rw [ha, hp, hm, h1, h2]
  rfl

/-- C1, at the fields of the known vector: the signed message is
`100.50,test-abc123,fonepay123,Test Transaction,API Test`. -/
theorem generateQRRequestSignature_signs_joined_fields_witness :
    FonepayUtils.generateQRRequestSignature (.str "100.50") (.str "test-abc123")
        (.str "fonepay123") (.str "Test Transaction") (.str "API Test") (.str "fonepay") =
      FonepayUtils.generateHMACSignature (.str "fonepay")
        (.str "100.50,test-abc123,fonepay123,Test Transaction,API Test") :=
  generateQRRequestSignature_signs_joined_fields (.str "100.50") (.str "test-abc123")
    (.str "fonepay123") (.str "Test Transaction") (.str "API Test") (.str "fonepay")
    "100.50" "test-abc123" "fonepay123" "Test Transaction" "API Test" rfl rfl rfl rfl rfl

/-- C2: for all values whose `ToString` conversions are `p` and `m`,
`generateCheckStatusSignature(prn, merchantCode, secretKey)` is
`generateHMACSignature(secretKey, message)` for the message `p,m`: prn first, merchantCode
second, one comma between them and nothing else. -/
theorem generateCheckStatusSignature_signs_prn_merchantCode
    (prn merchantCode secretKey : JsVal) (p m : String)
    (hp : prn.toStr = .ok p) (hm : merchantCode.toStr = .ok m) :
    FonepayUtils.generateCheckStatusSignature prn merchantCode secretKey =
      FonepayUtils.generateHMACSignature secretKey (.str (p ++ "," ++ m)) := by
  unfold FonepayUtils.generateCheckStatusSignature
  rw [hp, hm]
  rfl

/-- C2, at the fields of the known vector: the signed message is `test-abc123,fonepay123`. -/
theorem generateCheckStatusSignature_signs_prn_merchantCode_witness :
    FonepayUtils.generateCheckStatusSignature (.str "test-abc123") (.str "fonepay123")
        (.str "fonepay") =
      FonepayUtils.generateHMACSignature (.str "fonepay") (.str "test-abc123,fonepay123") :=
  generateCheckStatusSignature_signs_prn_merchantCode (.str "test-abc123") (.str "fonepay123")
    (.str "fonepay") "test-abc123" "fonepay123" rfl rfl

/-- C3: for every string `secretKey` and string `message`, `generateHMACSignature` returns the
upper-cased hexadecimal rendering of HMAC-SHA512 with the UTF-8 bytes of `secretKey` as the key
and the UTF-8 bytes of `message` as the data. -/
theorem generateHMACSignature_is_upper_hex_hmac (secretKey message : String) :
    FonepayUtils.generateHMACSignature (.str secretKey) (.str message) =
      .ok (toUpperCase (hexEncode (hmacSha512 (utf8Encode secretKey) (utf8Encode message)))) :=
  generateHMACSignature_str secretKey message

/-- C4: for every string `secretKey` and string `message`, the empty ones included,
`generateHMACSignature` returns a string of exactly 128 characters, each one of
`0123456789ABCDEF`. -/
theorem generateHMACSignature_128_upper_hex (secretKey message : String) :
    ∃ signature, FonepayUtils.generateHMACSignature (.str secretKey) (.str message) = .ok signature ∧
      signature.length = 128 ∧ ∀ c ∈ signature.data, c ∈ upperHexChars := by
  refine ⟨_, generateHMACSignature_str secretKey message, ?_, toUpperCase_hexEncode_chars _⟩
  rw [toUpperCase_length, hexEncode_length, hmacSha512_length]

/-- C7, refuted: with the empty key (and the empty message) `generateHMACSignature` returns a
digest, the HMAC-SHA512 keyed with no bytes. -/
theorem generateHMACSignature_empty_key_digest :
    FonepayUtils.generateHMACSignature (.str "") (.str "") =
      .ok "B936CEE86C9F87AA5D3C6F2E84CB5A4239A5FE50480A6EC66B70AB5B1F4AC6730C6C515421B327EC1D69402E53DFB49AD7381EB067B338FD7B0CB22247225D47" :=
  (generateHMACSignature_str "" "").trans (congrArg Except.ok (by decide))

/-- C7, amended: `generateHMACSignature` returns a digest for a string message exactly when
`secretKey` is a string; the empty string is accepted as a key, and the digest is then the
HMAC-SHA512 keyed with no bytes, so that `generateQRRequestSignature` and
`generateCheckStatusSignature` return a digest under the empty key too. -/
theorem signature_fails_only_without_string_key (secretKey : JsVal) (message : String)
    (amount prn merchantCode remarks1 remarks2 : String) :
    ((∃ digest, FonepayUtils.generateHMACSignature secretKey (.str message) = .ok digest) ↔
        ∃ k, secretKey = .str k) ∧
      FonepayUtils.generateHMACSignature (.str "") (.str message) =
        .ok (toUpperCase (hexEncode (hmacSha512 [] (utf8Encode message)))) ∧
      (∃ digest, FonepayUtils.generateQRRequestSignature (.str amount) (.str prn)
        (.str merchantCode) (.str remarks1) (.str remarks2) (.str "") = .ok digest) ∧
      (∃ digest, FonepayUtils.generateCheckStatusSignature (.str prn) (.str merchantCode)
        (.str "") = .ok digest) := by
  refine ⟨⟨?_, ?_⟩, generateHMACSignature_str "" message,
    ⟨_, generateQRRequestSignature_str amount prn merchantCode remarks1 remarks2 ""⟩,
    ⟨_, generateCheckStatusSignature_str prn merchantCode ""⟩⟩
  · rintro ⟨digest, h⟩
    exact generateHMACSignature_ok_key _ _ _ h
  · rintro ⟨k, rfl⟩
    exact ⟨_, generateHMACSignature_str k message⟩

/-! ## Payloads and the provider call (C5, C6, C8) -/

theorem selectCredentials_truthy (customCredentials : JsVal) :
    (selectCredentials customCredentials).truthy = true := by
  unfold selectCredentials JsVal.or
  split
  · assumption
  · rfl

theorem getProp_of_truthy (v : JsVal) (key : String) (h : v.truthy = true) :
    v.getProp key = .ok (v.field key) := by
  cases v <;> first | rfl | cases h

theorem credentials_getProp (customCredentials : JsVal) (key : String) :
    (selectCredentials customCredentials).getProp key =
      .ok ((selectCredentials customCredentials).field key) :=
  getProp_of_truthy _ _ (selectCredentials_truthy _)

/-- What `qrFields` returns holds the properties of the body. -/
theorem qrFields_amount (body : JsVal) (f : QrFields) (h : qrFields body = .ok f) :
    f.amount = body.field "amount" := by
  cases body <;> first | (cases h; rfl) | cases h

/-- What `statusFields` returns holds the properties of the body. -/
theorem statusFields_prn (body : JsVal) (f : StatusFields) (h : statusFields body = .ok f) :
    f.prn = body.field "prn" := by
  cases body <;> first | (cases h; rfl) | cases h

/-- The POST of `qrGenerate` is issued exactly when the preparation does not throw. -/
theorem qrGenerate_sent (rt : Runtime) (body : JsVal) (apiLogs : List LogEntry) :
    (qrGenerate rt body apiLogs).sent =
      match qrFields body >>= qrPrepare rt with
      | .error _ => none
      | .ok p => some { url := p.apiUrl, payload := p.requestPayload, headers := jsonHeaders,
                        timeout := 30000 } := by
  unfold qrGenerate
  cases qrFields body >>= qrPrepare rt with
  | error e => rfl
  | ok p =>
    dsimp only
    cases axiosPost (rt.provider p.apiUrl p.requestPayload) with
    | error e => rfl
    | ok r =>
      dsimp only
      cases qrSuccessBody p r <;> rfl

/-- The log after `qrGenerate`: one more call of `logApiCall` when the POST resolved. -/
theorem qrGenerate_apiLogs (rt : Runtime) (body : JsVal) (apiLogs : List LogEntry) :
    (qrGenerate rt body apiLogs).apiLogs =
      match qrFields body >>= qrPrepare rt with
      | .error _ => apiLogs
      | .ok p =>
        match axiosPost (rt.provider p.apiUrl p.requestPayload) with
        | .error _ => apiLogs
        | .ok response =>
          FonepayUtils.logApiCall rt.logEnv "POST" p.apiUrl jsonHeaders p.requestPayload
            (some (withStartTime response rt.startTime)) apiLogs := by
  unfold qrGenerate
  cases qrFields body >>= qrPrepare rt with
  | error e => rfl
  | ok p =>
    dsimp only
    cases axiosPost (rt.provider p.apiUrl p.requestPayload) with
    | error e => rfl
    | ok r =>
      dsimp only
      cases qrSuccessBody p r <;> rfl

/-- The preparation of `qrGenerate`, when the signature and `amount.toString()` succeed. -/
theorem qrPrepare_ok (rt : Runtime) (f : QrFields) (amountText dataValidation : String)
    (hsig : FonepayUtils.generateQRRequestSignature f.amount (.str (qrPrn rt))
      ((selectCredentials f.customCredentials).field "merchantCode") f.remarks1 f.remarks2
      ((selectCredentials f.customCredentials).field "secretKey") = .ok dataValidation)
    (hamount : f.amount.toStringCall = .ok amountText) :
    qrPrepare rt f = .ok
      { fields := f
        credentials := selectCredentials f.customCredentials
        prn := qrPrn rt
        dataValidation := dataValidation
        requestPayload := .obj [
          ("amount", .str amountText),
          ("remarks1", f.remarks1),
          ("remarks2", f.remarks2),
          ("prn", .str (qrPrn rt)),
          ("merchantCode", (selectCredentials f.customCredentials).field "merchantCode"),
          ("dataValidation", .str dataValidation),
          ("username", (selectCredentials f.customCredentials).field "username"),
          ("password", (selectCredentials f.customCredentials).field "password")]
        apiUrl := baseUrl f.isLive ++
          "/merchant/merchantDetailsForThirdParty/thirdPartyDynamicQrDownload" } := by
  unfold qrPrepare
  simp only [credentials_getProp]
  show (FonepayUtils.generateQRRequestSignature f.amount (.str (qrPrn rt))
      ((selectCredentials f.customCredentials).field "merchantCode") f.remarks1 f.remarks2
      ((selectCredentials f.customCredentials).field "secretKey") >>= _) = _
  rw [hsig]
  show (f.amount.toStringCall >>= _) = _
  rw [hamount]
  rfl

/-- The preparation of `qrStatus`, when the signature succeeds. -/
theorem statusPrepare_ok (f : StatusFields) (dataValidation : String)
    (hsig : FonepayUtils.generateCheckStatusSignature f.prn
      ((selectCredentials f.customCredentials).field "merchantCode")
      ((selectCredentials f.customCredentials).field "secretKey") = .ok dataValidation) :
    statusPrepare f = .ok
      { fields := f
        credentials := selectCredentials f.customCredentials
        dataValidation := dataValidation
        requestPayload := .obj [
          ("prn", f.prn),
          ("merchantCode", (selectCredentials f.customCredentials).field "merchantCode"),
          ("dataValidation", .str dataValidation),
          ("username", (selectCredentials f.customCredentials).field "username"),
          ("password", (selectCredentials f.customCredentials).field "password")]
        apiUrl := baseUrl f.isLive ++
          "/merchant/merchantDetailsForThirdParty/thirdPartyDynamicQrGetStatus" } := by
  unfold statusPrepare
  simp only [credentials_getProp]
  show (FonepayUtils.generateCheckStatusSignature f.prn
      ((selectCredentials f.customCredentials).field "merchantCode")
      ((selectCredentials f.customCredentials).field "secretKey") >>= _) = _
  rw [hsig]
  rfl

/-- The POST of `qrStatus` is issued exactly when the `prn` is truthy and the preparation does
not throw. -/
theorem qrStatus_sent (rt : Runtime) (body : JsVal) (apiLogs : List LogEntry) :
    (qrStatus rt body apiLogs).sent =
      match statusFields body with
      | .error _ => none
      | .ok f =>
        if !f.prn.truthy then none
        else
          match statusPrepare f with
          | .error _ => none
          | .ok p => some { url := p.apiUrl, payload := p.requestPayload, headers := jsonHeaders,
                            timeout := 30000 } := by
  unfold qrStatus
  cases statusFields body with
  | error e => rfl
  | ok f =>
    dsimp only
    split
    · rfl
    · cases statusPrepare f with
      | error e => rfl
      | ok p =>
        dsimp only
        cases axiosPost (rt.provider p.apiUrl p.requestPayload) with
        | error e => rfl
        | ok r =>
          dsimp only
          cases statusSuccessBody p r <;> rfl

/-- The log after `qrStatus`: one more call of `logApiCall` when the POST resolved. -/
theorem qrStatus_apiLogs (rt : Runtime) (body : JsVal) (apiLogs : List LogEntry) :
    (qrStatus rt body apiLogs).apiLogs =
      match statusFields body with
      | .error _ => apiLogs
      | .ok f =>
        if !f.prn.truthy then apiLogs
        else
          match statusPrepare f with
          | .error _ => apiLogs
          | .ok p =>
            match axiosPost (rt.provider p.apiUrl p.requestPayload) with
            | .error _ => apiLogs
            | .ok response =>
              FonepayUtils.logApiCall rt.logEnv "POST" p.apiUrl jsonHeaders p.requestPayload
                (some (withStartTime response rt.startTime)) apiLogs := by
  unfold qrStatus
  cases statusFields body with
  | error e => rfl
  | ok f =>
    dsimp only
    split
    · rfl
    · cases statusPrepare f with
      | error e => rfl
      | ok p =>
        dsimp only
        cases axiosPost (rt.provider p.apiUrl p.requestPayload) with
        | error e => rfl
        | ok r =>
          dsimp only
          cases statusSuccessBody p r <;> rfl

theorem logApiCall_length (env : LogEnv) (method url : String) (headers body : JsVal)
    (response : Option AxiosResponse) (apiLogs : List LogEntry) :
    (FonepayUtils.logApiCall env method url headers body response apiLogs).length =
      min (apiLogs.length + 1) 100 := by
  unfold FonepayUtils.logApiCall logCapacity
  dsimp only
  split
  · next h =>
    rw [List.length_take]
    simp only [List.length_cons] at h ⊢
    omega
  · next h =>
    simp only [List.length_cons] at h ⊢
    omega

theorem logApiCall_head (env : LogEnv) (method url : String) (headers body : JsVal)
    (response : Option AxiosResponse) (apiLogs : List LogEntry) :
    (FonepayUtils.logApiCall env method url headers body response apiLogs).head? =
      some (FonepayUtils.logEntry env method url headers body response) := by
  unfold FonepayUtils.logApiCall logCapacity
  dsimp only
  split <;> rfl

/-- C5: for every QR-generation request whose body destructures to the fields `f`, whose
signature is computed (`dataValidation`) and whose `amount.toString()` is `amountText`, the
payload sent to the provider has the keys amount, remarks1, remarks2, prn, merchantCode,
dataValidation, username, password in that order: amount is the string form of the request's
amount, remarks1, remarks2 and prn are the values that were signed, merchantCode, username and
password are those of the selected credentials, and dataValidation is the signature. -/
theorem qrGenerate_payload (rt : Runtime) (body : JsVal) (apiLogs : List LogEntry) (f : QrFields)
    (amountText dataValidation : String)
    (hfields : qrFields body = .ok f)
    (hsig : FonepayUtils.generateQRRequestSignature f.amount (.str (qrPrn rt))
      ((selectCredentials f.customCredentials).field "merchantCode") f.remarks1 f.remarks2
      ((selectCredentials f.customCredentials).field "secretKey") = .ok dataValidation)
    (hamount : f.amount.toStringCall = .ok amountText) :
    (qrGenerate rt body apiLogs).sent = some
      { url := baseUrl f.isLive ++
          "/merchant/merchantDetailsForThirdParty/thirdPartyDynamicQrDownload"
        payload := .obj [
          ("amount", .str amountText),
          ("remarks1", f.remarks1),
          ("remarks2", f.remarks2),
          ("prn", .str (qrPrn rt)),
          ("merchantCode", (selectCredentials f.customCredentials).field "merchantCode"),
          ("dataValidation", .str dataValidation),
          ("username", (selectCredentials f.customCredentials).field "username"),
          ("password", (selectCredentials f.customCredentials).field "password")]
        headers := jsonHeaders
        timeout := 30000 } ∧
      f.amount = body.field "amount" := by
  refine ⟨?_, qrFields_amount body f hfields⟩
  rw [qrGenerate_sent, hfields]
  have hprep : (Except.ok f >>= qrPrepare rt) = qrPrepare rt f := rfl
  rw [hprep, qrPrepare_ok rt f amountText dataValidation hsig hamount]

/-- C5, at a request with amount "100.50" and the built-in test credentials. -/
theorem qrGenerate_payload_witness :
    (qrGenerate exampleRuntime (.obj [("amount", .str "100.50")]) []).sent = some
      { url := "https://uat-new-merchant-api.fonepay.com/api/merchant/merchantDetailsForThirdParty/thirdPartyDynamicQrDownload"
        payload := .obj [
          ("amount", .str "100.50"),
          ("remarks1", .str "Test Transaction"),
          ("remarks2", .str "API Test"),
          ("prn", .str "test-0f8fad5b"),
          ("merchantCode", .str "fonepay123"),
          ("dataValidation", .str "3B55A08C8416BED1DA0E8B8D5105AA635C9DAE097048BC74FEA096C80328B71BCC27FE63BBA34C589BAED73860F0B613CF76D25120672179459CD2DEAB456F73"),
          ("username", .str "bijayk"),
          ("password", .str "password")]
        headers := .obj [("Content-Type", .str "application/json")]
        timeout := 30000 } ∧
      JsVal.str "100.50" = (JsVal.obj [("amount", .str "100.50")]).field "amount" :=
  qrGenerate_payload exampleRuntime (.obj [("amount", .str "100.50")]) []
    { amount := .str "100.50", remarks1 := .str "Test Transaction", remarks2 := .str "API Test",
      isLive := .bool false, customCredentials := .undefined }
    "100.50"
    "3B55A08C8416BED1DA0E8B8D5105AA635C9DAE097048BC74FEA096C80328B71BCC27FE63BBA34C589BAED73860F0B613CF76D25120672179459CD2DEAB456F73"
    rfl
    ((generateQRRequestSignature_str "100.50" "test-0f8fad5b" "fonepay123" "Test Transaction"
      "API Test" "fonepay").trans (congrArg Except.ok (by decide)))
    rfl

/-- C6: for every status-check request whose body destructures to the fields `f` with a
non-empty (truthy) `prn` and whose signature is computed (`dataValidation`), the payload sent
to the provider has the keys prn, merchantCode, dataValidation, username, password in that
order: prn is the caller's prn unchanged, merchantCode, username and password are those of the
selected credentials, and dataValidation is the signature. -/
theorem qrStatus_payload (rt : Runtime) (body : JsVal) (apiLogs : List LogEntry) (f : StatusFields)
    (dataValidation : String)
    (hfields : statusFields body = .ok f)
    (hprn : f.prn.truthy = true)
    (hsig : FonepayUtils.generateCheckStatusSignature f.prn
      ((selectCredentials f.customCredentials).field "merchantCode")
      ((selectCredentials f.customCredentials).field "secretKey") = .ok dataValidation) :
    (qrStatus rt body apiLogs).sent = some
      { url := baseUrl f.isLive ++
          "/merchant/merchantDetailsForThirdParty/thirdPartyDynamicQrGetStatus"
        payload := .obj [
          ("prn", f.prn),
          ("merchantCode", (selectCredentials f.customCredentials).field "merchantCode"),
          ("dataValidation", .str dataValidation),
          ("username", (selectCredentials f.customCredentials).field "username"),
          ("password", (selectCredentials f.customCredentials).field "password")]
        headers := jsonHeaders
        timeout := 30000 } ∧
      f.prn = body.field "prn" := by
  refine ⟨?_, statusFields_prn body f hfields⟩
  rw [qrStatus_sent, hfields]
  simp only [hprn, Bool.not_true, Bool.false_eq_true, if_false]
  rw [statusPrepare_ok f dataValidation hsig]

/-- C6, at a request with prn "test-abc123" and the built-in test credentials. -/
theorem qrStatus_payload_witness :
    (qrStatus exampleRuntime (.obj [("prn", .str "test-abc123")]) []).sent = some
      { url := "https://uat-new-merchant-api.fonepay.com/api/merchant/merchantDetailsForThirdParty/thirdPartyDynamicQrGetStatus"
        payload := .obj [
          ("prn", .str "test-abc123"),
          ("merchantCode", .str "fonepay123"),
          ("dataValidation", .str "50B791A3EBDA8823AF8408C4E1AF6489D8A3314475039045B5A7D9E31C6E69EAE6FB7C91753B05B02D8C7C598D2AD43D4519D688220E0BD5B229501631BE4088"),
          ("username", .str "bijayk"),
          ("password", .str "password")]
        headers := .obj [("Content-Type", .str "application/json")]
        timeout := 30000 } ∧
      JsVal.str "test-abc123" = (JsVal.obj [("prn", .str "test-abc123")]).field "prn" :=
  qrStatus_payload exampleRuntime (.obj [("prn", .str "test-abc123")]) []
    { prn := .str "test-abc123", isLive := .bool false, customCredentials := .undefined }
    "50B791A3EBDA8823AF8408C4E1AF6489D8A3314475039045B5A7D9E31C6E69EAE6FB7C91753B05B02D8C7C598D2AD43D4519D688220E0BD5B229501631BE4088"
    rfl rfl
    ((generateCheckStatusSignature_str "test-abc123" "fonepay123" "fonepay").trans
      (congrArg Except.ok (by decide)))

/-- C8, refuted: a QR-generation POST that times out and a status-check POST answered with
404 are both issued, and the log, empty before, is empty afterwards. -/
theorem failed_call_leaves_log_empty :
    ((qrGenerate timeoutRuntime (.obj [("amount", .str "100.50")]) []).sent.isSome = true ∧
      (qrGenerate timeoutRuntime (.obj [("amount", .str "100.50")]) []).apiLogs.length = 0) ∧
    ((qrStatus notFoundRuntime (.obj [("prn", .str "test-abc123")]) []).sent.isSome = true ∧
      (qrStatus notFoundRuntime (.obj [("prn", .str "test-abc123")]) []).apiLogs.length = 0) := by
  decide

/-- C8, amended: the log after a QR-generation or status-check request is the log before when
no POST was issued or when the POST failed (timeout, network failure or a status outside 2xx);
when the POST resolved it is the log after one call of `logApiCall` for that POST, which puts
the record of the call at the front and leaves `min (n + 1) 100` records. -/
theorem provider_call_logged_only_when_resolved (rt : Runtime) (body : JsVal)
    (apiLogs : List LogEntry) :
    ((qrGenerate rt body apiLogs).apiLogs =
      match (qrGenerate rt body apiLogs).sent with
      | none => apiLogs
      | some call =>
        match axiosPost (rt.provider call.url call.payload) with
        | .error _ => apiLogs
        | .ok response =>
          FonepayUtils.logApiCall rt.logEnv "POST" call.url jsonHeaders call.payload
            (some (withStartTime response rt.startTime)) apiLogs) ∧
    ((qrStatus rt body apiLogs).apiLogs =
      match (qrStatus rt body apiLogs).sent with
      | none => apiLogs
      | some call =>
        match axiosPost (rt.provider call.url call.payload) with
        | .error _ => apiLogs
        | .ok response =>
          FonepayUtils.logApiCall rt.logEnv "POST" call.url jsonHeaders call.payload
            (some (withStartTime response rt.startTime)) apiLogs) ∧
    (∀ (call : OutboundCall) (response : ProviderResponse),
      (FonepayUtils.logApiCall rt.logEnv "POST" call.url jsonHeaders call.payload
          (some (withStartTime response rt.startTime)) apiLogs).length =
        min (apiLogs.length + 1) 100 ∧
      (FonepayUtils.logApiCall rt.logEnv "POST" call.url jsonHeaders call.payload
          (some (withStartTime response rt.startTime)) apiLogs).head? =
        some (FonepayUtils.logEntry rt.logEnv "POST" call.url jsonHeaders call.payload
          (some (withStartTime response rt.startTime)))) ∧
    (axiosPost .timeout = .error (.axiosError "timeout of 30000ms exceeded" none) ∧
      (∀ message, axiosPost (.networkFailure message) = .error (.axiosError message none)) ∧
      ∀ response : ProviderResponse,
        axiosPost (.answered response) =
          if 200 ≤ response.status ∧ response.status < 300 then .ok response
          else .error (.axiosError
            ("Request failed with status code " ++ toString response.status) (some response))) := by
  refine ⟨?_, ?_, fun call response => ⟨logApiCall_length _ _ _ _ _ _ _, logApiCall_head _ _ _ _ _ _ _⟩,
    rfl, fun _ => rfl, fun _ => rfl⟩
  · rw [qrGenerate_apiLogs, qrGenerate_sent]
    cases qrFields body >>= qrPrepare rt <;> rfl
  · rw [qrStatus_apiLogs, qrStatus_sent]
    cases statusFields body with
    | error e => rfl
    | ok f =>
      dsimp only
      split
      · rfl
      · cases statusPrepare f <;> rfl

/-! ## The bounded log (C9, C10) -/

theorem take_append_take {α : Type} (n : Nat) (xs ys : List α) :
    (xs ++ ys.take n).take n = (xs ++ ys).take n := by
  rw [List.take_append_eq_append_take, List.take_append_eq_append_take, List.take_take]
  congr 2
  omega

/-- One call of `logApiCall` puts the record in front and keeps the first 100. -/
theorem logApiCall_eq_take (env : LogEnv) (method url : String) (headers body : JsVal)
    (response : Option AxiosResponse) (apiLogs : List LogEntry) :
    FonepayUtils.logApiCall env method url headers body response apiLogs =
      (FonepayUtils.logEntry env method url headers body response :: apiLogs).take 100 := by
  unfold FonepayUtils.logApiCall logCapacity
  dsimp only
  split
  · rfl
  · next h => exact (List.take_of_length_le (by omega)).symm

theorem logApiCalls_eq_take (calls : List LogCall) (apiLogs : List LogEntry)
    (hlen : apiLogs.length ≤ 100) :
    logApiCalls calls apiLogs = ((calls.map LogCall.entry).reverse ++ apiLogs).take 100 := by
  induction calls generalizing apiLogs with
  | nil => exact (List.take_of_length_le hlen).symm
  | cons c cs ih =>
    have hstep : logApiCalls (c :: cs) apiLogs =
        logApiCalls cs ((c.entry :: apiLogs).take 100) := by
      unfold logApiCalls
      rw [List.foldl_cons, logApiCall_eq_take]
      rfl
    rw [hstep, ih _ (List.length_take_le _ _), take_append_take]
    simp [List.map_cons, List.reverse_cons, List.append_assoc]

/-- C9: starting from an empty log, after the calls `calls` of `logApiCall` (any number of
them) the log is the list of their records, newest first, cut to its first 100; it holds
`min n 100` records, and after at least one call the record at index 0 is the one inserted
last. -/
theorem logApiCalls_keeps_newest_hundred (calls : List LogCall) (last : LogCall) :
    logApiCalls calls [] = ((calls.map LogCall.entry).reverse).take 100 ∧
      (logApiCalls calls []).length = min calls.length 100 ∧
      (logApiCalls (calls ++ [last]) []).head? = some last.entry := by
  have h : ∀ cs : List LogCall, logApiCalls cs [] = ((cs.map LogCall.entry).reverse).take 100 := by
    intro cs
    simpa using logApiCalls_eq_take cs [] (Nat.zero_le _)
  refine ⟨h calls, ?_, ?_⟩
  · rw [h calls, List.length_take, List.length_reverse, List.length_map]
    exact Nat.min_comm _ _
  · rw [h]
    simp

/-- C10: after `DELETE /api/logs`, whatever the log held, `GET /api/logs` answers success with
an empty `logs` list and `total` 0, for every query: every `type` value, and every `limit`
value (50 when absent) that converts to text, as every string, number and list of strings
does; `text` is that conversion. -/
theorem getLogs_after_delete_is_empty (rt : Runtime) (query : List (String × JsVal))
    (apiLogs : List LogEntry) (text : String)
    (hlimit : ((lookupField "limit" query).withDefault (.num "50")).toStr = .ok text) :
    (getLogs rt (.obj query) (deleteLogs apiLogs).apiLogs).response =
      { status := 200
        body := .obj [("success", .bool true),
          ("data", .obj [("logs", .arr []), ("total", .num "0"),
                         ("limit", .ofParsedInt (parseIntString text))])] } := by
  have hbody : getLogsBody rt (.obj query) [] = .ok (.obj [("success", .bool true),
      ("data", .obj [("logs", .arr []), ("total", .num "0"),
                     ("limit", .ofParsedInt (parseIntString text))])]) := by
    unfold getLogsBody
    have hparse : parseInt ((lookupField "limit" query).withDefault (.num "50")) =
        .ok (parseIntString text) := by
      unfold parseInt
      rw [hlimit]
      rfl
    have hslice : ∀ stop : Option Int, sliceFromStart ([] : List LogEntry) stop = [] := by
      intro stop
      cases stop with
      | none => rfl
      | some e => simp [sliceFromStart]
    simp only [JsVal.getProp, JsVal.field, bind, Except.bind, pure, Except.pure]
    simp only [hparse, filterExcept, pure, Except.pure, hslice, List.map_nil, List.length_nil]
    split <;> rfl
  show (getLogs rt (.obj query) []).response = _
  unfold getLogs
  rw [hbody]

/-- C10, at a log of one record and the query `type=qr_generation&limit=10`. -/
theorem getLogs_after_delete_is_empty_witness :
    (getLogs exampleRuntime (.obj [("type", .str "qr_generation"), ("limit", .str "10")])
        (deleteLogs (qrGenerate exampleRuntime (.obj [("amount", .str "100.50")]) []).apiLogs).apiLogs).response =
      { status := 200
        body := .obj [("success", .bool true),
          ("data", .obj [("logs", .arr []), ("total", .num "0"), ("limit", .num "10")])] } :=
  getLogs_after_delete_is_empty exampleRuntime [("type", .str "qr_generation"), ("limit", .str "10")]
    (qrGenerate exampleRuntime (.obj [("amount", .str "100.50")]) []).apiLogs "10" rfl

/-! ## Reading the log (C11) -/

theorem filterExcept_pure {α : Type} (p : α → Bool) (xs : List α) :
    filterExcept (fun x => (pure (p x) : Except JsError Bool)) xs = .ok (xs.filter p) := by
  induction xs with
  | nil => rfl
  | cons x xs ih =>
    unfold filterExcept
    rw [ih]
    cases h : p x <;> simp [List.filter, h, bind, Except.bind, pure, Except.pure]

/-- The records the handler filters are those of `matchingLogs`. -/
theorem getLogs_filtered (rt : Runtime) (type : Option String) (apiLogs : List LogEntry) :
    (if (queryParam type).truthy && !(queryParam type).isString "all" then
        filterExcept (fun log => do
          pure (log.type == (← (queryParam type).toUpperCaseCall rt))) apiLogs
      else pure apiLogs) = (.ok (matchingLogs rt type apiLogs) : Except JsError (List LogEntry)) := by
  cases type with
  | none => rfl
  | some s =>
    by_cases hempty : s = ""
    · subst hempty
      rfl
    · by_cases hall : s = "all"
      · subst hall
        rfl
      · have htruthy : (queryParam (some s)).truthy = true := by
          simp [queryParam, JsVal.truthy, hempty]
        have hnot : (queryParam (some s)).isString "all" = false := by
          simp [queryParam, JsVal.isString, hall]
        have hmatch : matchingLogs rt (some s) apiLogs =
            apiLogs.filter fun log => log.type == rt.unicodeUpper s := by
          simp [matchingLogs, hempty, hall]
        rw [htruthy, hnot, hmatch]
        exact filterExcept_pure (fun log => log.type == rt.unicodeUpper s) apiLogs

theorem sliceFromStart_natCast {α : Type} (xs : List α) (n : Nat) :
    sliceFromStart xs (some (n : Int)) = xs.take n := by
  simp [sliceFromStart]

theorem ofParsedInt_natCast (n : Nat) : JsVal.ofParsedInt (some (n : Int)) = JsVal.ofNat n := rfl

/-- C11: for every log, every `type` parameter (absent or a string) and every `limit`
parameter that `parseInt` reads as the non-negative integer `n` (50 when the parameter is
absent), `GET /api/logs` answers with `logs` = the first `n` of the records whose type is the
upper-cased parameter (all records when it is absent, empty or `all`), in stored order, and
`total` = the number of those records before the limit; `logs` has `min n total` elements and
is a prefix of the filtered log; the log itself is left as it is. -/
theorem getLogs_filters_then_limits (rt : Runtime) (query : List (String × JsVal))
    (apiLogs : List LogEntry) (type : Option String) (n : Nat)
    (htype : lookupField "type" query = queryParam type)
    (hlimit : parseInt ((lookupField "limit" query).withDefault (.num "50")) = .ok (some (n : Int))) :
    getLogs rt (.obj query) apiLogs =
      { response :=
          { status := 200
            body := .obj [("success", .bool true),
              ("data", .obj [
                ("logs", .arr (((matchingLogs rt type apiLogs).take n).map LogEntry.toJs)),
                ("total", .ofNat (matchingLogs rt type apiLogs).length),
                ("limit", .ofNat n)])] }
        apiLogs := apiLogs
        sent := none } ∧
      ((matchingLogs rt type apiLogs).take n).length = min n (matchingLogs rt type apiLogs).length ∧
      (matchingLogs rt type apiLogs).take n <+: matchingLogs rt type apiLogs ∧
      (matchingLogs rt type apiLogs).Sublist apiLogs ∧
      parseInt (JsVal.undefined.withDefault (.num "50")) = .ok (some 50) := by
  refine ⟨?_, List.length_take _ _, List.take_prefix _ _, ?_, rfl⟩
  · have hbody : getLogsBody rt (.obj query) apiLogs = .ok (.obj [("success", .bool true),
        ("data", .obj [
          ("logs", .arr (((matchingLogs rt type apiLogs).take n).map LogEntry.toJs)),
          ("total", .ofNat (matchingLogs rt type apiLogs).length),
          ("limit", .ofNat n)])]) := by
      have hfilter := getLogs_filtered rt type apiLogs
      unfold getLogsBody
      simp only [JsVal.getProp, JsVal.field, bind, Except.bind, pure, Except.pure, htype] at hfilter ⊢
      split
      · next hc =>
        rw [if_pos hc] at hfilter
        rw [hfilter, hlimit]
        simp only [sliceFromStart_natCast, ofParsedInt_natCast]
      · next hc =>
        rw [if_neg hc] at hfilter
        rw [← Except.ok.inj hfilter, hlimit]
        simp only [sliceFromStart_natCast, ofParsedInt_natCast]
    unfold getLogs
    rw [hbody]
  · unfold matchingLogs
    cases type with
    | none => exact List.Sublist.refl _
    | some s =>
      dsimp only
      split
      · exact List.Sublist.refl _
      · exact List.filter_sublist _

/-- C11, at a log of two records (a QR generation, then a status check) and the query
`type=status_check&limit=5`. -/
theorem getLogs_filters_then_limits_witness :
    getLogs exampleRuntime (.obj [("type", .str "status_check"), ("limit", .str "5")])
        (qrStatus exampleRuntime (.obj [("prn", .str "test-abc123")])
          (qrGenerate exampleRuntime (.obj [("amount", .str "100.50")]) []).apiLogs).apiLogs =
      { response :=
          { status := 200
            body := .obj [("success", .bool true),
              ("data", .obj [
                ("logs", .arr (((matchingLogs exampleRuntime (some "status_check")
                  (qrStatus exampleRuntime (.obj [("prn", .str "test-abc123")])
                    (qrGenerate exampleRuntime (.obj [("amount", .str "100.50")]) []).apiLogs).apiLogs).take 5).map
                  LogEntry.toJs)),
                ("total", .ofNat (matchingLogs exampleRuntime (some "status_check")
                  (qrStatus exampleRuntime (.obj [("prn", .str "test-abc123")])
                    (qrGenerate exampleRuntime (.obj [("amount", .str "100.50")]) []).apiLogs).apiLogs).length),
                ("limit", .ofNat 5)])] }
        apiLogs := (qrStatus exampleRuntime (.obj [("prn", .str "test-abc123")])
          (qrGenerate exampleRuntime (.obj [("amount", .str "100.50")]) []).apiLogs).apiLogs
        sent := none } ∧
      ((matchingLogs exampleRuntime (some "status_check")
        (qrStatus exampleRuntime (.obj [("prn", .str "test-abc123")])
          (qrGenerate exampleRuntime (.obj [("amount", .str "100.50")]) []).apiLogs).apiLogs).take 5).length =
        min 5 (matchingLogs exampleRuntime (some "status_check")
          (qrStatus exampleRuntime (.obj [("prn", .str "test-abc123")])
            (qrGenerate exampleRuntime (.obj [("amount", .str "100.50")]) []).apiLogs).apiLogs).length ∧
      (matchingLogs exampleRuntime (some "status_check")
        (qrStatus exampleRuntime (.obj [("prn", .str "test-abc123")])
          (qrGenerate exampleRuntime (.obj [("amount", .str "100.50")]) []).apiLogs).apiLogs).take 5 <+:
        matchingLogs exampleRuntime (some "status_check")
          (qrStatus exampleRuntime (.obj [("prn", .str "test-abc123")])
            (qrGenerate exampleRuntime (.obj [("amount", .str "100.50")]) []).apiLogs).apiLogs ∧
      (matchingLogs exampleRuntime (some "status_check")
        (qrStatus exampleRuntime (.obj [("prn", .str "test-abc123")])
          (qrGenerate exampleRuntime (.obj [("amount", .str "100.50")]) []).apiLogs).apiLogs).Sublist
        (qrStatus exampleRuntime (.obj [("prn", .str "test-abc123")])
          (qrGenerate exampleRuntime (.obj [("amount", .str "100.50")]) []).apiLogs).apiLogs ∧
      parseInt (JsVal.undefined.withDefault (.num "50")) = .ok (some 50) :=
  getLogs_filters_then_limits exampleRuntime [("type", .str "status_check"), ("limit", .str "5")]
    (qrStatus exampleRuntime (.obj [("prn", .str "test-abc123")])
      (qrGenerate exampleRuntime (.obj [("amount", .str "100.50")]) []).apiLogs).apiLogs
    (some "status_check") 5 rfl rfl

/-! ## Classification and URL (C12, C13) -/

theorem includesChars_iff (needle l : List Char) :
    includesChars needle l = true ↔ ∃ before after, l = before ++ needle ++ after := by
  induction l with
  | nil =>
    simp only [includesChars, List.isEmpty_iff]
    constructor
    · rintro rfl
      exact ⟨[], [], rfl⟩
    · rintro ⟨before, after, h⟩
      have h2 := congrArg List.length h
      simp only [List.length_nil, List.length_append] at h2
      exact List.length_eq_zero.mp (by omega)
  | cons c cs ih =>
    simp only [includesChars, Bool.or_eq_true, List.isPrefixOf_iff_prefix, ih]
    constructor
    · rintro (⟨after, h⟩ | ⟨before, after, h⟩)
      · exact ⟨[], after, by simpa using h.symm⟩
      · exact ⟨c :: before, after, by simp [h]⟩
    · rintro ⟨before, after, h⟩
      cases before with
      | nil => exact Or.inl ⟨after, by simpa using h.symm⟩
      | cons b bs =>
        simp only [List.cons_append, List.cons.injEq] at h
        exact Or.inr ⟨bs, after, h.2⟩

theorem includes_iff (s needle : String) : includes s needle = true ↔ Contains s needle := by
  unfold includes Contains
  rw [includesChars_iff]
  constructor
  · rintro ⟨before, after, h⟩
    exact ⟨⟨before⟩, ⟨after⟩, String.ext (by simpa [String.data_append] using h)⟩
  · rintro ⟨before, after, h⟩
    exact ⟨before.data, after.data, by simp [h, String.data_append]⟩

/-- The preparation of `qrGenerate`, with the property reads of the credentials resolved. -/
theorem qrPrepare_eq (rt : Runtime) (f : QrFields) :
    qrPrepare rt f =
      (FonepayUtils.generateQRRequestSignature f.amount (.str (qrPrn rt))
        ((selectCredentials f.customCredentials).field "merchantCode") f.remarks1 f.remarks2
        ((selectCredentials f.customCredentials).field "secretKey") >>= fun dataValidation =>
      f.amount.toStringCall >>= fun amountText =>
      pure
        { fields := f
          credentials := selectCredentials f.customCredentials
          prn := qrPrn rt
          dataValidation := dataValidation
          requestPayload := .obj [
            ("amount", .str amountText),
            ("remarks1", f.remarks1),
            ("remarks2", f.remarks2),
            ("prn", .str (qrPrn rt)),
            ("merchantCode", (selectCredentials f.customCredentials).field "merchantCode"),
            ("dataValidation", .str dataValidation),
            ("username", (selectCredentials f.customCredentials).field "username"),
            ("password", (selectCredentials f.customCredentials).field "password")]
          apiUrl := baseUrl f.isLive ++
            "/merchant/merchantDetailsForThirdParty/thirdPartyDynamicQrDownload" }) := by
  unfold qrPrepare
  simp only [credentials_getProp]
  rfl

/-- The preparation of `qrStatus`, with the property reads of the credentials resolved. -/
theorem statusPrepare_eq (f : StatusFields) :
    statusPrepare f =
      (FonepayUtils.generateCheckStatusSignature f.prn
        ((selectCredentials f.customCredentials).field "merchantCode")
        ((selectCredentials f.customCredentials).field "secretKey") >>= fun dataValidation =>
      pure
        { fields := f
          credentials := selectCredentials f.customCredentials
          dataValidation := dataValidation
          requestPayload := .obj [
            ("prn", f.prn),
            ("merchantCode", (selectCredentials f.customCredentials).field "merchantCode"),
            ("dataValidation", .str dataValidation),
            ("username", (selectCredentials f.customCredentials).field "username"),
            ("password", (selectCredentials f.customCredentials).field "password")]
          apiUrl := baseUrl f.isLive ++
            "/merchant/merchantDetailsForThirdParty/thirdPartyDynamicQrGetStatus" }) := by
  unfold statusPrepare
  simp only [credentials_getProp]
  rfl

theorem qrPrepare_apiUrl (rt : Runtime) (f : QrFields) (p : QrPrepared)
    (h : qrPrepare rt f = .ok p) :
    p.apiUrl = baseUrl f.isLive ++
      "/merchant/merchantDetailsForThirdParty/thirdPartyDynamicQrDownload" := by
  rw [qrPrepare_eq] at h
  cases hsig : FonepayUtils.generateQRRequestSignature f.amount (.str (qrPrn rt))
      ((selectCredentials f.customCredentials).field "merchantCode") f.remarks1 f.remarks2
      ((selectCredentials f.customCredentials).field "secretKey") with
  | error e => rw [hsig] at h; cases h
  | ok dataValidation =>
    rw [hsig] at h
    cases hamount : f.amount.toStringCall with
    | error e =>
      have h2 : (f.amount.toStringCall >>= fun amountText => (pure _ : Except JsError QrPrepared)) =
          .ok p := h
      rw [hamount] at h2
      cases h2
    | ok amountText =>
      have h2 : (f.amount.toStringCall >>= fun amountText => (pure _ : Except JsError QrPrepared)) =
          .ok p := h
      rw [hamount] at h2
      cases h2
      rfl

theorem statusPrepare_apiUrl (f : StatusFields) (p : StatusPrepared)
    (h : statusPrepare f = .ok p) :
    p.apiUrl = baseUrl f.isLive ++
      "/merchant/merchantDetailsForThirdParty/thirdPartyDynamicQrGetStatus" := by
  rw [statusPrepare_eq] at h
  cases hsig : FonepayUtils.generateCheckStatusSignature f.prn
      ((selectCredentials f.customCredentials).field "merchantCode")
      ((selectCredentials f.customCredentials).field "secretKey") with
  | error e => rw [hsig] at h; cases h
  | ok dataValidation =>
    rw [hsig] at h
    cases h
    rfl

theorem qrFields_isLive (body : JsVal) (f : QrFields) (h : qrFields body = .ok f) :
    f.isLive = (body.field "isLive").withDefault (.bool false) := by
  cases body <;> first | (cases h; rfl) | cases h

theorem statusFields_isLive (body : JsVal) (f : StatusFields) (h : statusFields body = .ok f) :
    f.isLive = (body.field "isLive").withDefault (.bool false) := by
  cases body <;> first | (cases h; rfl) | cases h

/-- The URL of the POST of `qrGenerate`. -/
theorem qrGenerate_sent_url (rt : Runtime) (body : JsVal) (apiLogs : List LogEntry)
    (call : OutboundCall) (h : (qrGenerate rt body apiLogs).sent = some call) :
    call.url = baseUrl ((body.field "isLive").withDefault (.bool false)) ++
      "/merchant/merchantDetailsForThirdParty/thirdPartyDynamicQrDownload" := by
  rw [qrGenerate_sent] at h
  cases hf : qrFields body with
  | error e => rw [hf] at h; cases h
  | ok f =>
    rw [hf] at h
    have hbind : (Except.ok f >>= qrPrepare rt) = qrPrepare rt f := rfl
    rw [hbind] at h
    cases hp : qrPrepare rt f with
    | error e => rw [hp] at h; cases h
    | ok p =>
      rw [hp] at h
      cases h
      rw [← qrFields_isLive body f hf]
      exact qrPrepare_apiUrl rt f p hp

/-- The URL of the POST of `qrStatus`. -/
theorem qrStatus_sent_url (rt : Runtime) (body : JsVal) (apiLogs : List LogEntry)
    (call : OutboundCall) (h : (qrStatus rt body apiLogs).sent = some call) :
    call.url = baseUrl ((body.field "isLive").withDefault (.bool false)) ++
      "/merchant/merchantDetailsForThirdParty/thirdPartyDynamicQrGetStatus" := by
  rw [qrStatus_sent] at h
  cases hf : statusFields body with
  | error e => rw [hf] at h; cases h
  | ok f =>
    rw [hf] at h
    dsimp only at h
    split at h
    · cases h
    · cases hp : statusPrepare f with
      | error e => rw [hp] at h; cases h
      | ok p =>
        rw [hp] at h
        cases h
        rw [← statusFields_isLive body f hf]
        exact statusPrepare_apiUrl f p hp

theorem baseUrl_cases (isLive : JsVal) :
    baseUrl isLive = FONEPAY_CONFIG.LIVE_BASE_URL ∨ baseUrl isLive = FONEPAY_CONFIG.DEV_BASE_URL := by
  unfold baseUrl
  split
  · exact Or.inl rfl
  · exact Or.inr rfl

theorem logEntry_type_download (env : LogEnv) (method : String) (headers body : JsVal)
    (response : Option AxiosResponse) (isLive : JsVal) :
    (FonepayUtils.logEntry env method (baseUrl isLive ++
      "/merchant/merchantDetailsForThirdParty/thirdPartyDynamicQrDownload") headers body
      response).type = "QR_GENERATION" := by
  have hlive : includes (FONEPAY_CONFIG.LIVE_BASE_URL ++
      "/merchant/merchantDetailsForThirdParty/thirdPartyDynamicQrDownload")
      "thirdPartyDynamicQrDownload" = true := by decide
  have hdev : includes (FONEPAY_CONFIG.DEV_BASE_URL ++
      "/merchant/merchantDetailsForThirdParty/thirdPartyDynamicQrDownload")
      "thirdPartyDynamicQrDownload" = true := by decide
  rcases baseUrl_cases isLive with hb | hb <;> rw [hb] <;> unfold FonepayUtils.logEntry <;>
    simp only [hlive, hdev, if_true]

theorem logEntry_type_getStatus (env : LogEnv) (method : String) (headers body : JsVal)
    (response : Option AxiosResponse) (isLive : JsVal) :
    (FonepayUtils.logEntry env method (baseUrl isLive ++
      "/merchant/merchantDetailsForThirdParty/thirdPartyDynamicQrGetStatus") headers body
      response).type = "STATUS_CHECK" := by
  have hlive : includes (FONEPAY_CONFIG.LIVE_BASE_URL ++
      "/merchant/merchantDetailsForThirdParty/thirdPartyDynamicQrGetStatus")
      "thirdPartyDynamicQrGetStatus" = true := by decide
  have hdev : includes (FONEPAY_CONFIG.DEV_BASE_URL ++
      "/merchant/merchantDetailsForThirdParty/thirdPartyDynamicQrGetStatus")
      "thirdPartyDynamicQrGetStatus" = true := by decide
  have hlive2 : includes (FONEPAY_CONFIG.LIVE_BASE_URL ++
      "/merchant/merchantDetailsForThirdParty/thirdPartyDynamicQrGetStatus")
      "thirdPartyDynamicQrDownload" = false := by decide
  have hdev2 : includes (FONEPAY_CONFIG.DEV_BASE_URL ++
      "/merchant/merchantDetailsForThirdParty/thirdPartyDynamicQrGetStatus")
      "thirdPartyDynamicQrDownload" = false := by decide
  rcases baseUrl_cases isLive with hb | hb <;> rw [hb] <;> unfold FonepayUtils.logEntry <;>
    simp only [hlive, hdev, hlive2, hdev2, if_true, if_false, Bool.false_eq_true]

/-- C12: the record `logApiCall` builds for a url has type `QR_GENERATION` exactly when the
url contains `thirdPartyDynamicQrDownload`, `STATUS_CHECK` exactly when it does not but
contains `thirdPartyDynamicQrGetStatus`, and `OTHER` exactly when it contains neither; the
URL that the QR-generation handler posts to is classified `QR_GENERATION` and the URL that the
status-check handler posts to `STATUS_CHECK`, in either environment. -/
theorem logEntry_type_classifies_url (env : LogEnv) (method url : String) (headers body : JsVal)
    (response : Option AxiosResponse)
    (rt : Runtime) (qrBody statusBody : JsVal) (qrLogs statusLogs : List LogEntry)
    (qrCall statusCall : OutboundCall)
    (hqr : (qrGenerate rt qrBody qrLogs).sent = some qrCall)
    (hstatus : (qrStatus rt statusBody statusLogs).sent = some statusCall) :
    ((FonepayUtils.logEntry env method url headers body response).type = "QR_GENERATION" ↔
        Contains url "thirdPartyDynamicQrDownload") ∧
      ((FonepayUtils.logEntry env method url headers body response).type = "STATUS_CHECK" ↔
        ¬ Contains url "thirdPartyDynamicQrDownload" ∧
          Contains url "thirdPartyDynamicQrGetStatus") ∧
      ((FonepayUtils.logEntry env method url headers body response).type = "OTHER" ↔
        ¬ Contains url "thirdPartyDynamicQrDownload" ∧
          ¬ Contains url "thirdPartyDynamicQrGetStatus") ∧
      (FonepayUtils.logEntry env method qrCall.url headers body response).type =
        "QR_GENERATION" ∧
      (FonepayUtils.logEntry env method statusCall.url headers body response).type =
        "STATUS_CHECK" := by
  refine ⟨?_, ?_, ?_, ?_, ?_⟩
  · rw [← includes_iff]
    unfold FonepayUtils.logEntry
    dsimp only
    split
    · simp [*]
    · split <;> simp [*]
  · rw [← includes_iff, ← includes_iff]
    unfold FonepayUtils.logEntry
    dsimp only
    split
    · simp [*]
    · split <;> simp [*]
  · rw [← includes_iff, ← includes_iff]
    unfold FonepayUtils.logEntry
    dsimp only
    split
    · simp [*]
    · split <;> simp [*]
  · rw [qrGenerate_sent_url rt qrBody qrLogs qrCall hqr]
    exact logEntry_type_download _ _ _ _ _ _
  · rw [qrStatus_sent_url rt statusBody statusLogs statusCall hstatus]
    exact logEntry_type_getStatus _ _ _ _ _ _

/-- C12, at the requests `amount = "100.50"` and `prn = "test-abc123"` and a live URL. -/
theorem logEntry_type_classifies_url_witness :
    ((FonepayUtils.logEntry exampleRuntime.logEnv "POST"
          "https://merchantapi.fonepay.com/api/other" jsonHeaders .null none).type =
          "QR_GENERATION" ↔
        Contains "https://merchantapi.fonepay.com/api/other" "thirdPartyDynamicQrDownload") ∧
      ((FonepayUtils.logEntry exampleRuntime.logEnv "POST"
          "https://merchantapi.fonepay.com/api/other" jsonHeaders .null none).type =
          "STATUS_CHECK" ↔
        ¬ Contains "https://merchantapi.fonepay.com/api/other" "thirdPartyDynamicQrDownload" ∧
          Contains "https://merchantapi.fonepay.com/api/other" "thirdPartyDynamicQrGetStatus") ∧
      ((FonepayUtils.logEntry exampleRuntime.logEnv "POST"
          "https://merchantapi.fonepay.com/api/other" jsonHeaders .null none).type = "OTHER" ↔
        ¬ Contains "https://merchantapi.fonepay.com/api/other" "thirdPartyDynamicQrDownload" ∧
          ¬ Contains "https://merchantapi.fonepay.com/api/other" "thirdPartyDynamicQrGetStatus") ∧
      (FonepayUtils.logEntry exampleRuntime.logEnv "POST"
        "https://uat-new-merchant-api.fonepay.com/api/merchant/merchantDetailsForThirdParty/thirdPartyDynamicQrDownload"
        jsonHeaders .null none).type = "QR_GENERATION" ∧
      (FonepayUtils.logEntry exampleRuntime.logEnv "POST"
        "https://merchantapi.fonepay.com/api/merchant/merchantDetailsForThirdParty/thirdPartyDynamicQrGetStatus"
        jsonHeaders .null none).type = "STATUS_CHECK" :=
  logEntry_type_classifies_url exampleRuntime.logEnv "POST"
    "https://merchantapi.fonepay.com/api/other" jsonHeaders .null none
    exampleRuntime (.obj [("amount", .str "100.50")])
    (.obj [("prn", .str "test-abc123"), ("isLive", .bool true)]) [] []
    { url := "https://uat-new-merchant-api.fonepay.com/api/merchant/merchantDetailsForThirdParty/thirdPartyDynamicQrDownload"
      payload := .obj [
        ("amount", .str "100.50"),
        ("remarks1", .str "Test Transaction"),
        ("remarks2", .str "API Test"),
        ("prn", .str "test-0f8fad5b"),
        ("merchantCode", .str "fonepay123"),
        ("dataValidation", .str (toUpperCase (hexEncode (hmacSha512 (utf8Encode "fonepay")
          (utf8Encode "100.50,test-0f8fad5b,fonepay123,Test Transaction,API Test"))))),
        ("username", .str "bijayk"),
        ("password", .str "password")]
      headers := jsonHeaders
      timeout := 30000 }
    { url := "https://merchantapi.fonepay.com/api/merchant/merchantDetailsForThirdParty/thirdPartyDynamicQrGetStatus"
      payload := .obj [
        ("prn", .str "test-abc123"),
        ("merchantCode", .str "fonepay123"),
        ("dataValidation", .str (toUpperCase (hexEncode (hmacSha512 (utf8Encode "fonepay")
          (utf8Encode "test-abc123,fonepay123"))))),
        ("username", .str "bijayk"),
        ("password", .str "password")]
      headers := jsonHeaders
      timeout := 30000 }
    rfl rfl

/-- C13: the URL each handler posts to is the base URL of the environment followed by the
handler's fixed path: the live base when `isLive` (false when absent) is truthy and the UAT
base otherwise, then `/merchant/merchantDetailsForThirdParty/thirdPartyDynamicQrDownload` for
QR generation and `/merchant/merchantDetailsForThirdParty/thirdPartyDynamicQrGetStatus` for the
status check; nothing else of the request enters the URL. -/
theorem provider_url_is_base_and_path (rt : Runtime) (qrBody statusBody : JsVal)
    (qrLogs statusLogs : List LogEntry) (qrCall statusCall : OutboundCall)
    (hqr : (qrGenerate rt qrBody qrLogs).sent = some qrCall)
    (hstatus : (qrStatus rt statusBody statusLogs).sent = some statusCall) :
    qrCall.url =
        (if ((qrBody.field "isLive").withDefault (.bool false)).truthy then
          "https://merchantapi.fonepay.com/api"
        else "https://uat-new-merchant-api.fonepay.com/api") ++
          "/merchant/merchantDetailsForThirdParty/thirdPartyDynamicQrDownload" ∧
      statusCall.url =
        (if ((statusBody.field "isLive").withDefault (.bool false)).truthy then
          "https://merchantapi.fonepay.com/api"
        else "https://uat-new-merchant-api.fonepay.com/api") ++
          "/merchant/merchantDetailsForThirdParty/thirdPartyDynamicQrGetStatus" ∧
      (JsVal.undefined.withDefault (.bool false)).truthy = false ∧
      ((JsVal.bool false).withDefault (.bool false)).truthy = false ∧
      ((JsVal.bool true).withDefault (.bool false)).truthy = true :=
  ⟨qrGenerate_sent_url rt qrBody qrLogs qrCall hqr,
    qrStatus_sent_url rt statusBody statusLogs statusCall hstatus, rfl, rfl, rfl⟩

/-- C13, at a QR generation without `isLive` and a status check with `isLive` true. -/
theorem provider_url_is_base_and_path_witness :
    (OutboundCall.mk
        "https://uat-new-merchant-api.fonepay.com/api/merchant/merchantDetailsForThirdParty/thirdPartyDynamicQrDownload"
        (.obj [
          ("amount", .str "100.50"),
          ("remarks1", .str "Test Transaction"),
          ("remarks2", .str "API Test"),
          ("prn", .str "test-0f8fad5b"),
          ("merchantCode", .str "fonepay123"),
          ("dataValidation", .str (toUpperCase (hexEncode (hmacSha512 (utf8Encode "fonepay")
            (utf8Encode "100.50,test-0f8fad5b,fonepay123,Test Transaction,API Test"))))),
          ("username", .str "bijayk"),
          ("password", .str "password")])
        jsonHeaders 30000).url =
        (if (((JsVal.obj [("amount", .str "100.50")]).field "isLive").withDefault
            (.bool false)).truthy then
          "https://merchantapi.fonepay.com/api"
        else "https://uat-new-merchant-api.fonepay.com/api") ++
          "/merchant/merchantDetailsForThirdParty/thirdPartyDynamicQrDownload" ∧
      (OutboundCall.mk
        "https://merchantapi.fonepay.com/api/merchant/merchantDetailsForThirdParty/thirdPartyDynamicQrGetStatus"
        (.obj [
          ("prn", .str "test-abc123"),
          ("merchantCode", .str "fonepay123"),
          ("dataValidation", .str (toUpperCase (hexEncode (hmacSha512 (utf8Encode "fonepay")
            (utf8Encode "test-abc123,fonepay123"))))),
          ("username", .str "bijayk"),
          ("password", .str "password")])
        jsonHeaders 30000).url =
        (if (((JsVal.obj [("prn", .str "test-abc123"), ("isLive", .bool true)]).field
            "isLive").withDefault (.bool false)).truthy then
          "https://merchantapi.fonepay.com/api"
        else "https://uat-new-merchant-api.fonepay.com/api") ++
          "/merchant/merchantDetailsForThirdParty/thirdPartyDynamicQrGetStatus" ∧
      (JsVal.undefined.withDefault (.bool false)).truthy = false ∧
      ((JsVal.bool false).withDefault (.bool false)).truthy = false ∧
      ((JsVal.bool true).withDefault (.bool false)).truthy = true :=
  provider_url_is_base_and_path exampleRuntime (.obj [("amount", .str "100.50")])
    (.obj [("prn", .str "test-abc123"), ("isLive", .bool true)]) [] [] _ _ rfl rfl

/-! ## Validation and failures (C14, C15, C16) -/

/-- The status check, for a request whose `prn` is falsy: the 400 answer of line 260. -/
theorem qrStatus_of_falsy_prn (rt : Runtime) (body : JsVal) (apiLogs : List LogEntry)
    (f : StatusFields) (hfields : statusFields body = .ok f) (hprn : f.prn.truthy = false) :
    qrStatus rt body apiLogs =
      { response :=
          { status := 400
            body := .obj [("success", .bool false), ("error", .str "PRN is required")] }
        apiLogs := apiLogs
        sent := none } := by
  unfold qrStatus
  rw [hfields]
  simp only [hprn, Bool.not_false, if_true]

/-- The status check, for a request whose `prn` is truthy, never answers 400. -/
theorem qrStatus_of_truthy_prn (rt : Runtime) (body : JsVal) (apiLogs : List LogEntry)
    (f : StatusFields) (hfields : statusFields body = .ok f) (hprn : f.prn.truthy = true) :
    (qrStatus rt body apiLogs).response.status ≠ 400 := by
  unfold qrStatus
  rw [hfields]
  simp only [hprn, Bool.not_true, Bool.false_eq_true, if_false]
  cases statusPrepare f with
  | error e => simp [errorResponse]
  | ok p =>
    dsimp only
    cases axiosPost (rt.provider p.apiUrl p.requestPayload) with
    | error e => simp [errorResponse]
    | ok r =>
      dsimp only
      cases statusSuccessBody p r <;> simp [errorResponse]

theorem qrStatusConsole_of_falsy_prn (rt : Runtime) (body : JsVal) (f : StatusFields)
    (hfields : statusFields body = .ok f) (hprn : f.prn.truthy = false) :
    qrStatusConsole rt body = [] := by
  unfold qrStatusConsole
  rw [hfields]
  simp only [hprn, Bool.not_false, if_true]

/-- C14: for every status-check request whose body destructures (to `f`): when `prn` is
missing (absent, null, the empty string; any falsy value) the handler answers 400 with success
false and error `PRN is required`, issues no POST, leaves the log as it is and writes nothing
to the console, so that no signature is computed; when `prn` is non-empty (truthy) the answer
is not 400. -/
theorem qrStatus_requires_prn (rt : Runtime) (body : JsVal) (apiLogs : List LogEntry)
    (f : StatusFields) (hfields : statusFields body = .ok f) :
    (if f.prn.truthy then (qrStatus rt body apiLogs).response.status ≠ 400
      else
        qrStatus rt body apiLogs =
          { response :=
              { status := 400
                body := .obj [("success", .bool false), ("error", .str "PRN is required")] }
            apiLogs := apiLogs
            sent := none } ∧
        qrStatusConsole rt body = []) ∧
      f.prn = body.field "prn" ∧
      JsVal.undefined.truthy = false ∧ JsVal.null.truthy = false ∧
      (JsVal.str "").truthy = false ∧
      ∀ s : String, (JsVal.str s).truthy = true ↔ s ≠ "" := by
  refine ⟨?_, statusFields_prn body f hfields, rfl, rfl, rfl, ?_⟩
  · cases hprn : f.prn.truthy with
    | true =>
      simp only [if_true]
      exact qrStatus_of_truthy_prn rt body apiLogs f hfields hprn
    | false =>
      simp only [Bool.false_eq_true, if_false]
      exact ⟨qrStatus_of_falsy_prn rt body apiLogs f hfields hprn,
        qrStatusConsole_of_falsy_prn rt body f hfields hprn⟩
  · intro s
    simp [JsVal.truthy]

/-- C14, at the request body `{}`: no `prn`. -/
theorem qrStatus_requires_prn_witness :
    (qrStatus exampleRuntime (.obj []) [] =
          { response :=
              { status := 400
                body := .obj [("success", .bool false), ("error", .str "PRN is required")] }
            apiLogs := []
            sent := none } ∧
        qrStatusConsole exampleRuntime (.obj []) = []) ∧
      JsVal.undefined = (JsVal.obj []).field "prn" ∧
      JsVal.undefined.truthy = false ∧ JsVal.null.truthy = false ∧
      (JsVal.str "").truthy = false ∧
      ∀ s : String, (JsVal.str s).truthy = true ↔ s ≠ "" :=
  qrStatus_requires_prn exampleRuntime (.obj []) []
    { prn := .undefined, isLive := .bool false, customCredentials := .undefined } rfl

/-- C15, refuted: requests whose amount is the non-numeric text `abc`, the negative `-5` or
the text `0` are signed and posted to the provider. -/
theorem qrGenerate_posts_malformed_amount :
    (qrGenerate exampleRuntime (.obj [("amount", .str "abc")]) []).sent.isSome = true ∧
      (qrGenerate exampleRuntime (.obj [("amount", .str "-5")]) []).sent.isSome = true ∧
      (qrGenerate exampleRuntime (.obj [("amount", .str "0")]) []).sent.isSome = true := by
  decide

/-- The QR generation, when the preparation throws: the 500 answer of the `catch` block and
no POST. -/
theorem qrGenerate_of_prepare_error (rt : Runtime) (body : JsVal) (apiLogs : List LogEntry)
    (e : JsError) (h : (qrFields body >>= qrPrepare rt) = .error e) :
    qrGenerate rt body apiLogs =
      { response := errorResponse rt e, apiLogs := apiLogs, sent := none } := by
  unfold qrGenerate
  rw [h]

theorem qrPrepare_of_nullish_amount (rt : Runtime) (f : QrFields)
    (h : f.amount = .undefined ∨ f.amount = .null) : ∃ e, qrPrepare rt f = .error e := by
  rw [qrPrepare_eq]
  have hcall : f.amount.toStringCall = .error (.typeError .readOfNullish) := by
    rcases h with h | h <;> rw [h] <;> rfl
  rw [hcall]
  cases FonepayUtils.generateQRRequestSignature f.amount (.str (qrPrn rt))
      ((selectCredentials f.customCredentials).field "merchantCode") f.remarks1 f.remarks2
      ((selectCredentials f.customCredentials).field "secretKey") with
  | error e => exact ⟨e, rfl⟩
  | ok d => exact ⟨_, rfl⟩

/-- C15, amended: a QR-generation request whose amount is absent or null is answered with
HTTP 500 and success false, without a POST and with the log unchanged; the format of the
amount is not validated: for every amount given as a non-empty text, whatever the text, a
request with the built-in credentials is signed and posted to the provider. -/
theorem qrGenerate_rejects_only_missing_amount (rt : Runtime) (body : JsVal)
    (apiLogs : List LogEntry) (f : QrFields)
    (hfields : qrFields body = .ok f)
    (hamount : f.amount = .undefined ∨ f.amount = .null) :
    (∃ e : JsError, qrGenerate rt body apiLogs =
      { response :=
          { status := 500
            body := .obj [("success", .bool false),
              ("error", .obj [("message", .str (e.message rt)),
                              ("response", e.responseData),
                              ("status", e.responseStatus)])] }
        apiLogs := apiLogs
        sent := none }) ∧
      f.amount = body.field "amount" ∧
      ∀ (c : Char) (rest : List Char),
        (qrGenerate rt (.obj [("amount", .str (String.mk (c :: rest)))]) apiLogs).sent.isSome =
          true := by
  refine ⟨?_, qrFields_amount body f hfields, ?_⟩
  · obtain ⟨e, he⟩ := qrPrepare_of_nullish_amount rt f hamount
    refine ⟨e, ?_⟩
    have h : (qrFields body >>= qrPrepare rt) = .error e := by
      rw [hfields]
      exact he
    exact qrGenerate_of_prepare_error rt body apiLogs e h
  · intro c rest
    generalize String.mk (c :: rest) = amount
    rw [qrGenerate_sent]
    have hf : qrFields (.obj [("amount", .str amount)]) =
        .ok { amount := .str amount, remarks1 := .str "Test Transaction",
              remarks2 := .str "API Test", isLive := .bool false,
              customCredentials := .undefined } := by
      unfold qrFields
      simp [JsVal.getProp, JsVal.field, lookupField, JsVal.withDefault, bind, Except.bind, pure,
        Except.pure]
    rw [hf]
    have hbind : ∀ g : QrFields, (Except.ok g >>= qrPrepare rt) = qrPrepare rt g := fun _ => rfl
    rw [hbind, qrPrepare_ok rt
      { amount := .str amount, remarks1 := .str "Test Transaction",
        remarks2 := .str "API Test", isLive := .bool false, customCredentials := .undefined }
      amount _
      (generateQRRequestSignature_str amount (qrPrn rt) "fonepay123" "Test Transaction"
        "API Test" "fonepay") rfl]
    rfl

/-- C15, amended, at the request body `{}`: no amount. -/
theorem qrGenerate_rejects_only_missing_amount_witness :
    (∃ e : JsError, qrGenerate exampleRuntime (.obj []) [] =
      { response :=
          { status := 500
            body := .obj [("success", .bool false),
              ("error", .obj [("message", .str (e.message exampleRuntime)),
                              ("response", e.responseData),
                              ("status", e.responseStatus)])] }
        apiLogs := []
        sent := none }) ∧
      JsVal.undefined = (JsVal.obj []).field "amount" ∧
      ∀ (c : Char) (rest : List Char),
        (qrGenerate exampleRuntime (.obj [("amount", .str (String.mk (c :: rest)))]) []).sent.isSome =
          true :=
  qrGenerate_rejects_only_missing_amount exampleRuntime (.obj []) []
    { amount := .undefined, remarks1 := .str "Test Transaction", remarks2 := .str "API Test",
      isLive := .bool false, customCredentials := .undefined }
    rfl (Or.inl rfl)

/-- The answer of `qrGenerate` when the POST was issued and rejected. -/
theorem qrGenerate_of_post_error (rt : Runtime) (body : JsVal) (apiLogs : List LogEntry)
    (call : OutboundCall) (e : JsError)
    (hsent : (qrGenerate rt body apiLogs).sent = some call)
    (hfail : axiosPost (rt.provider call.url call.payload) = .error e) :
    (qrGenerate rt body apiLogs).response = errorResponse rt e := by
  rw [qrGenerate_sent] at hsent
  unfold qrGenerate
  cases hp : qrFields body >>= qrPrepare rt with
  | error e2 => rw [hp] at hsent; cases hsent
  | ok p =>
    rw [hp] at hsent
    cases hsent
    dsimp only at hfail ⊢
    rw [hfail]

/-- The answer of `qrStatus` when the POST was issued and rejected. -/
theorem qrStatus_of_post_error (rt : Runtime) (body : JsVal) (apiLogs : List LogEntry)
    (call : OutboundCall) (e : JsError)
    (hsent : (qrStatus rt body apiLogs).sent = some call)
    (hfail : axiosPost (rt.provider call.url call.payload) = .error e) :
    (qrStatus rt body apiLogs).response = errorResponse rt e := by
  rw [qrStatus_sent] at hsent
  unfold qrStatus
  cases hf : statusFields body with
  | error e2 => rw [hf] at hsent; cases hsent
  | ok f =>
    rw [hf] at hsent
    dsimp only at hsent ⊢
    split
    · next hprn => rw [if_pos hprn] at hsent; cases hsent
    · next hprn =>
      rw [if_neg hprn] at hsent
      cases hp : statusPrepare f with
      | error e2 => rw [hp] at hsent; cases hsent
      | ok p =>
        rw [hp] at hsent
        cases hsent
        dsimp only at hfail ⊢
        rw [hfail]

/-- C16: when the POST of the QR-generation handler, or of the status-check handler, is
rejected with the error `e`, the handler answers HTTP 500 with success false and error
`{message, response, status}`: message is the message of `e`, response and status are the body
and the HTTP status of the provider's answer when `e` carries one and undefined (absent from
the JSON) when it does not.  A timeout and a network failure carry no answer; an answer with a
status outside 2xx is carried by the error. -/
theorem provider_failure_answered_500 (rt : Runtime) (body : JsVal) (apiLogs : List LogEntry)
    (call : OutboundCall) (e : JsError)
    (hsent : (qrGenerate rt body apiLogs).sent = some call)
    (hfail : axiosPost (rt.provider call.url call.payload) = .error e)
    (statusRt : Runtime) (statusBody : JsVal) (statusLogs : List LogEntry)
    (statusCall : OutboundCall) (statusError : JsError)
    (hstatusSent : (qrStatus statusRt statusBody statusLogs).sent = some statusCall)
    (hstatusFail : axiosPost (statusRt.provider statusCall.url statusCall.payload) =
      .error statusError) :
    (qrGenerate rt body apiLogs).response =
        { status := 500
          body := .obj [("success", .bool false),
            ("error", .obj [("message", .str (e.message rt)),
                            ("response", e.responseData),
                            ("status", e.responseStatus)])] } ∧
      (qrStatus statusRt statusBody statusLogs).response =
        { status := 500
          body := .obj [("success", .bool false),
            ("error", .obj [("message", .str (statusError.message statusRt)),
                            ("response", statusError.responseData),
                            ("status", statusError.responseStatus)])] } ∧
      (∀ message : String,
        (JsError.axiosError message none).message rt = message ∧
        (JsError.axiosError message none).responseData = .undefined ∧
        (JsError.axiosError message none).responseStatus = .undefined) ∧
      (∀ (message : String) (answer : ProviderResponse),
        (JsError.axiosError message (some answer)).message rt = message ∧
        (JsError.axiosError message (some answer)).responseData = answer.data ∧
        (JsError.axiosError message (some answer)).responseStatus = .ofNat answer.status) ∧
      axiosPost .timeout = .error (.axiosError "timeout of 30000ms exceeded" none) ∧
      (∀ message, axiosPost (.networkFailure message) = .error (.axiosError message none)) ∧
      ∀ answer : ProviderResponse,
        axiosPost (.answered answer) =
          if 200 ≤ answer.status ∧ answer.status < 300 then .ok answer
          else .error (.axiosError
            ("Request failed with status code " ++ toString answer.status) (some answer)) :=
  ⟨qrGenerate_of_post_error rt body apiLogs call e hsent hfail,
    qrStatus_of_post_error statusRt statusBody statusLogs statusCall statusError hstatusSent
      hstatusFail,
    fun _ => ⟨rfl, rfl, rfl⟩, fun _ _ => ⟨rfl, rfl, rfl⟩, rfl, fun _ => rfl, fun _ => rfl⟩

/-- C16, at a QR generation that times out and a status check answered with 404. -/
theorem provider_failure_answered_500_witness :
    (qrGenerate timeoutRuntime (.obj [("amount", .str "100.50")]) []).response =
        { status := 500
          body := .obj [("success", .bool false),
            ("error", .obj [("message", .str "timeout of 30000ms exceeded"),
                            ("response", .undefined),
                            ("status", .undefined)])] } ∧
      (qrStatus notFoundRuntime (.obj [("prn", .str "test-abc123")]) []).response =
        { status := 500
          body := .obj [("success", .bool false),
            ("error", .obj [("message", .str "Request failed with status code 404"),
                            ("response", .str "Not Found"),
                            ("status", .num "404")])] } ∧
      (∀ message : String,
        (JsError.axiosError message none).message timeoutRuntime = message ∧
        (JsError.axiosError message none).responseData = .undefined ∧
        (JsError.axiosError message none).responseStatus = .undefined) ∧
      (∀ (message : String) (answer : ProviderResponse),
        (JsError.axiosError message (some answer)).message timeoutRuntime = message ∧
        (JsError.axiosError message (some answer)).responseData = answer.data ∧
        (JsError.axiosError message (some answer)).responseStatus = .ofNat answer.status) ∧
      axiosPost .timeout = .error (.axiosError "timeout of 30000ms exceeded" none) ∧
      (∀ message, axiosPost (.networkFailure message) = .error (.axiosError message none)) ∧
      ∀ answer : ProviderResponse,
        axiosPost (.answered answer) =
          if 200 ≤ answer.status ∧ answer.status < 300 then .ok answer
          else .error (.axiosError
            ("Request failed with status code " ++ toString answer.status) (some answer)) :=
  provider_failure_answered_500 timeoutRuntime (.obj [("amount", .str "100.50")]) []
    { url := "https://uat-new-merchant-api.fonepay.com/api/merchant/merchantDetailsForThirdParty/thirdPartyDynamicQrDownload"
      payload := .obj [
        ("amount", .str "100.50"),
        ("remarks1", .str "Test Transaction"),
        ("remarks2", .str "API Test"),
        ("prn", .str "test-0f8fad5b"),
        ("merchantCode", .str "fonepay123"),
        ("dataValidation", .str (toUpperCase (hexEncode (hmacSha512 (utf8Encode "fonepay")
          (utf8Encode "100.50,test-0f8fad5b,fonepay123,Test Transaction,API Test"))))),
        ("username", .str "bijayk"),
        ("password", .str "password")]
      headers := jsonHeaders
      timeout := 30000 }
    (.axiosError "timeout of 30000ms exceeded" none) rfl rfl
    notFoundRuntime (.obj [("prn", .str "test-abc123")]) []
    { url := "https://uat-new-merchant-api.fonepay.com/api/merchant/merchantDetailsForThirdParty/thirdPartyDynamicQrGetStatus"
      payload := .obj [
        ("prn", .str "test-abc123"),
        ("merchantCode", .str "fonepay123"),
        ("dataValidation", .str (toUpperCase (hexEncode (hmacSha512 (utf8Encode "fonepay")
          (utf8Encode "test-abc123,fonepay123"))))),
        ("username", .str "bijayk"),
        ("password", .str "password")]
      headers := jsonHeaders
      timeout := 30000 }
    (.axiosError "Request failed with status code 404"
      (some { status := 404, headers := .obj [], data := .str "Not Found" })) rfl rfl

/-! ## Determinism and the console (C17, C18) -/

theorem qrPrepare_congr_uuid (rt other : Runtime) (f : QrFields) (huuid : rt.uuid = other.uuid) :
    qrPrepare rt f = qrPrepare other f := by
  have hprn : qrPrn rt = qrPrn other := by
    unfold qrPrn
    rw [huuid]
  rw [qrPrepare_eq, qrPrepare_eq, hprn]

/-- C17: two runs of `generateQRRequestSignature`, and of `generateCheckStatusSignature`, on
equal arguments give equal results; and the signature a handler computes and sends does not
depend on the API log, the clock or the provider: two runs of a handler on the same request
body issue the same POST (for QR generation: when the UUID generator gives the same `prn`),
whatever the log holds and whatever the rest of the surroundings is. -/
theorem signature_is_deterministic
    (amount prn merchantCode remarks1 remarks2 secretKey : JsVal)
    (amount2 prn2 merchantCode2 remarks12 remarks22 secretKey2 : JsVal)
    (hargs : (amount, prn, merchantCode, remarks1, remarks2, secretKey) =
      (amount2, prn2, merchantCode2, remarks12, remarks22, secretKey2))
    (rt other : Runtime) (body : JsVal) (apiLogs otherLogs : List LogEntry)
    (huuid : rt.uuid = other.uuid) :
    FonepayUtils.generateQRRequestSignature amount prn merchantCode remarks1 remarks2 secretKey =
        FonepayUtils.generateQRRequestSignature amount2 prn2 merchantCode2 remarks12 remarks22
          secretKey2 ∧
      FonepayUtils.generateCheckStatusSignature prn merchantCode secretKey =
        FonepayUtils.generateCheckStatusSignature prn2 merchantCode2 secretKey2 ∧
      (qrGenerate rt body apiLogs).sent = (qrGenerate other body otherLogs).sent ∧
      (qrStatus rt body apiLogs).sent = (qrStatus other body otherLogs).sent := by
  simp only [Prod.mk.injEq] at hargs
  obtain ⟨rfl, rfl, rfl, rfl, rfl, rfl⟩ := hargs
  refine ⟨rfl, rfl, ?_, ?_⟩
  · rw [qrGenerate_sent, qrGenerate_sent]
    cases qrFields body with
    | error e => rfl
    | ok f =>
      have hbind : ∀ r : Runtime, (Except.ok f >>= qrPrepare r) = qrPrepare r f := fun _ => rfl
      rw [hbind, hbind, qrPrepare_congr_uuid rt other f huuid]
  · rw [qrStatus_sent, qrStatus_sent]

/-- C17, at the known vector, and at two runs of the handlers with different logs, clocks
and providers. -/
theorem signature_is_deterministic_witness :
    FonepayUtils.generateQRRequestSignature (.str "100.50") (.str "test-abc123")
          (.str "fonepay123") (.str "Test Transaction") (.str "API Test") (.str "fonepay") =
        FonepayUtils.generateQRRequestSignature (.str "100.50") (.str "test-abc123")
          (.str "fonepay123") (.str "Test Transaction") (.str "API Test") (.str "fonepay") ∧
      FonepayUtils.generateCheckStatusSignature (.str "test-abc123") (.str "fonepay123")
          (.str "fonepay") =
        FonepayUtils.generateCheckStatusSignature (.str "test-abc123") (.str "fonepay123")
          (.str "fonepay") ∧
      (qrGenerate exampleRuntime (.obj [("amount", .str "100.50"), ("prn", .str "test-abc123")])
          []).sent =
        (qrGenerate { timeoutRuntime with startTime := 2000 }
          (.obj [("amount", .str "100.50"), ("prn", .str "test-abc123")])
          (qrGenerate exampleRuntime (.obj [("amount", .str "1")]) []).apiLogs).sent ∧
      (qrStatus exampleRuntime (.obj [("amount", .str "100.50"), ("prn", .str "test-abc123")])
          []).sent =
        (qrStatus { timeoutRuntime with startTime := 2000 }
          (.obj [("amount", .str "100.50"), ("prn", .str "test-abc123")])
          (qrGenerate exampleRuntime (.obj [("amount", .str "1")]) []).apiLogs).sent :=
  signature_is_deterministic (.str "100.50") (.str "test-abc123") (.str "fonepay123")
    (.str "Test Transaction") (.str "API Test") (.str "fonepay")
    (.str "100.50") (.str "test-abc123") (.str "fonepay123")
    (.str "Test Transaction") (.str "API Test") (.str "fonepay") rfl
    exampleRuntime { timeoutRuntime with startTime := 2000 }
    (.obj [("amount", .str "100.50"), ("prn", .str "test-abc123")]) []
    (qrGenerate exampleRuntime (.obj [("amount", .str "1")]) []).apiLogs rfl

theorem secretKey_line_mem_hmac (secretKey message : JsVal) :
    consoleLog [.text "   Secret Key:", .value secretKey] ∈
      FonepayUtils.generateHMACSignatureConsole secretKey message := by
  unfold FonepayUtils.generateHMACSignatureConsole
  simp

theorem secretKey_line_text (secretKey : String) :
    (consoleLog [.text "   Secret Key:", .value (.str secretKey)]).line =
      some ("   Secret Key: " ++ secretKey) := by
  show some (" ".intercalate ["   Secret Key:", secretKey]) = _
  congr 1

/-- The signing lines are part of what `qrGenerate` writes, once the request body
destructures. -/
theorem qrGenerateConsole_signing (rt : Runtime) (body : JsVal) (f : QrFields)
    (hfields : qrFields body = .ok f) (call : ConsoleCall)
    (hcall : call ∈ FonepayUtils.generateQRRequestSignatureConsole f.amount (.str (qrPrn rt))
      ((selectCredentials f.customCredentials).field "merchantCode") f.remarks1 f.remarks2
      ((selectCredentials f.customCredentials).field "secretKey")) :
    call ∈ qrGenerateConsole rt body := by
  unfold qrGenerateConsole
  rw [hfields]
  dsimp only
  cases qrPrepare rt f with
  | error e => simp [hcall]
  | ok p =>
    dsimp only
    cases axiosPost (rt.provider p.apiUrl p.requestPayload) with
    | error e => simp [hcall]
    | ok r => simp [hcall]

/-- The signing lines are part of what `qrStatus` writes, once the `prn` passed the check. -/
theorem qrStatusConsole_signing (rt : Runtime) (body : JsVal) (f : StatusFields)
    (hfields : statusFields body = .ok f) (hprn : f.prn.truthy = true) (call : ConsoleCall)
    (hcall : call ∈ FonepayUtils.generateCheckStatusSignatureConsole f.prn
      ((selectCredentials f.customCredentials).field "merchantCode")
      ((selectCredentials f.customCredentials).field "secretKey")) :
    call ∈ qrStatusConsole rt body := by
  unfold qrStatusConsole
  rw [hfields]
  simp only [hprn, Bool.not_true, Bool.false_eq_true, if_false]
  cases statusPrepare f with
  | error e => simp [hcall]
  | ok p =>
    dsimp only
    cases axiosPost (rt.provider p.apiUrl p.requestPayload) with
    | error e => simp [hcall]
    | ok r => simp [hcall]

/-- C18, refuted: a QR-generation request and a status-check request with `isLive` true and
the secret key `s3cr3t-live-key` are posted to the live URL, and the seventh, respectively the
fifth, line the server writes is `   Secret Key: s3cr3t-live-key`. -/
theorem live_request_logs_secret_key :
    ((qrGenerate exampleRuntime (.obj [("amount", .str "100.50"), ("isLive", .bool true),
        ("customCredentials", liveCredentials)]) []).sent.map OutboundCall.url =
        some "https://merchantapi.fonepay.com/api/merchant/merchantDetailsForThirdParty/thirdPartyDynamicQrDownload" ∧
      ((qrGenerateConsole exampleRuntime (.obj [("amount", .str "100.50"),
        ("isLive", .bool true), ("customCredentials", liveCredentials)])).map
          ConsoleCall.line)[6]? = some (some "   Secret Key: s3cr3t-live-key")) ∧
    ((qrStatus exampleRuntime (.obj [("prn", .str "test-abc123"), ("isLive", .bool true),
        ("customCredentials", liveCredentials)]) []).sent.map OutboundCall.url =
        some "https://merchantapi.fonepay.com/api/merchant/merchantDetailsForThirdParty/thirdPartyDynamicQrGetStatus" ∧
      ((qrStatusConsole exampleRuntime (.obj [("prn", .str "test-abc123"),
        ("isLive", .bool true), ("customCredentials", liveCredentials)])).map
          ConsoleCall.line)[4]? = some (some "   Secret Key: s3cr3t-live-key")) ∧
    includes "   Secret Key: s3cr3t-live-key" "s3cr3t-live-key" = true := by
  decide

/-- C18, amended: in every mode, `isLive` true or not, a request that reaches signing has its
secret key written to the console in cleartext: `generateHMACSignature` always writes the
line `   Secret Key: ` followed by the key, and both handlers write the lines of the
signature they compute. -/
theorem secret_key_logged_in_every_mode (secretKey : String) (message : JsVal)
    (rt : Runtime) (body : JsVal) (f : QrFields) (qrMessage : String)
    (hfields : qrFields body = .ok f)
    (hmessage : qrSignatureMessage f.amount (.str (qrPrn rt))
      ((selectCredentials f.customCredentials).field "merchantCode") f.remarks1 f.remarks2 =
      .ok qrMessage)
    (hkey : (selectCredentials f.customCredentials).field "secretKey" = .str secretKey)
    (statusRt : Runtime) (statusBody : JsVal) (g : StatusFields) (statusMessage : String)
    (hstatusFields : statusFields statusBody = .ok g)
    (hprn : g.prn.truthy = true)
    (hstatusMessage : statusSignatureMessage g.prn
      ((selectCredentials g.customCredentials).field "merchantCode") = .ok statusMessage)
    (hstatusKey : (selectCredentials g.customCredentials).field "secretKey" = .str secretKey) :
    consoleLog [.text "   Secret Key:", .value (.str secretKey)] ∈
        FonepayUtils.generateHMACSignatureConsole (.str secretKey) message ∧
      (consoleLog [.text "   Secret Key:", .value (.str secretKey)]).line =
        some ("   Secret Key: " ++ secretKey) ∧
      Contains ("   Secret Key: " ++ secretKey) secretKey ∧
      consoleLog [.text "   Secret Key:", .value (.str secretKey)] ∈ qrGenerateConsole rt body ∧
      consoleLog [.text "   Secret Key:", .value (.str secretKey)] ∈
        qrStatusConsole statusRt statusBody := by
  refine ⟨secretKey_line_mem_hmac _ _, secretKey_line_text _,
    ⟨"   Secret Key: ", "", by simp⟩, ?_, ?_⟩
  · apply qrGenerateConsole_signing rt body f hfields
    unfold FonepayUtils.generateQRRequestSignatureConsole
    rw [hmessage, hkey]
    exact secretKey_line_mem_hmac _ _
  · apply qrStatusConsole_signing statusRt statusBody g hstatusFields hprn
    unfold FonepayUtils.generateCheckStatusSignatureConsole
    rw [hstatusMessage, hstatusKey]
    exact secretKey_line_mem_hmac _ _

/-- C18, amended, at a live and a sandbox request with the secret key `s3cr3t-live-key`. -/
theorem secret_key_logged_in_every_mode_witness :
    consoleLog [.text "   Secret Key:", .value (.str "s3cr3t-live-key")] ∈
        FonepayUtils.generateHMACSignatureConsole (.str "s3cr3t-live-key") (.str "m") ∧
      (consoleLog [.text "   Secret Key:", .value (.str "s3cr3t-live-key")]).line =
        some ("   Secret Key: " ++ "s3cr3t-live-key") ∧
      Contains ("   Secret Key: " ++ "s3cr3t-live-key") "s3cr3t-live-key" ∧
      consoleLog [.text "   Secret Key:", .value (.str "s3cr3t-live-key")] ∈
        qrGenerateConsole exampleRuntime (.obj [("amount", .str "100.50"),
          ("isLive", .bool true), ("customCredentials", liveCredentials)]) ∧
      consoleLog [.text "   Secret Key:", .value (.str "s3cr3t-live-key")] ∈
        qrStatusConsole exampleRuntime (.obj [("prn", .str "test-abc123"),
          ("customCredentials", liveCredentials)]) :=
  secret_key_logged_in_every_mode "s3cr3t-live-key" (.str "m")
    exampleRuntime
    (.obj [("amount", .str "100.50"), ("isLive", .bool true),
      ("customCredentials", liveCredentials)])
    { amount := .str "100.50", remarks1 := .str "Test Transaction", remarks2 := .str "API Test",
      isLive := .bool true, customCredentials := liveCredentials }
    "100.50,test-0f8fad5b,NBQM,Test Transaction,API Test" rfl rfl rfl
    exampleRuntime
    (.obj [("prn", .str "test-abc123"), ("customCredentials", liveCredentials)])
    { prn := .str "test-abc123", isLive := .bool false, customCredentials := liveCredentials }
    "test-abc123,NBQM" rfl rfl rfl rfl

/-! ## The WebSocket tester (C19, C20) -/

/-- The call `JSON.stringify` returns a text for `null`, for an array and for an object. -/
theorem jsonStringify_of_typeofObject (v : JsVal) (h : v.typeofObject = true) :
    ∃ json, jsonStringify v = some json := by
  cases v with
  | null => exact ⟨_, by rw [jsonStringify]⟩
  | arr items => exact ⟨_, by rw [jsonStringify]⟩
  | obj fields => exact ⟨_, by rw [jsonStringify]⟩
  | undefined => cases h
  | bool b => cases h
  | num n => cases h
  | str s => cases h

/-- C19: `sendMessage` transmits and records exactly when the connection is open.  Without a
socket, or with a socket whose `readyState` is not `OPEN`, nothing is handed to `send` and the
message list is unchanged (an error toast is raised); on an open socket the text of
`messageToSend` (`text`) is handed to `send` once and one outgoing event with `data` = the
message and `raw` = `messageToSend` goes to the end of the message list.  `messageToSend` is
the JSON text of an object and the message itself otherwise, so that for an object and for a
string `raw` is the transmitted text. -/
theorem sendMessage_only_when_open (env : BrowserEnv) (message : JsVal) (st : TesterState)
    (text : String) (htext : (messageToSend message).toStr = .ok text) :
    sendMessage env message st =
        (match st.ws with
          | none =>
            { st with toasts := st.toasts ++ [⟨.error, "WebSocket is not connected", .undefined⟩] }
          | some ws =>
            if ws.readyState = 1 then
              { st with
                ws := some { ws with sent := ws.sent ++ [text] }
                messages := st.messages ++ [.obj [
                  ("type", .str "message"), ("direction", .str "outgoing"), ("data", message),
                  ("raw", messageToSend message), ("timestamp", .str env.timestamp),
                  ("event", .str "send"), ("id", .num env.messageId)]] }
            else
              { st with
                toasts := st.toasts ++ [⟨.error, "WebSocket is not connected", .undefined⟩] }) ∧
      (if message.typeofObject then
          ∃ json, jsonStringify message = some json ∧ messageToSend message = .str json ∧
            text = json
        else messageToSend message = message) ∧
      ∀ s : String, messageToSend (.str s) = .str s ∧ (messageToSend (.str s)).toStr = .ok s := by
  refine ⟨?_, ?_, fun s => ⟨rfl, rfl⟩⟩
  · unfold sendMessage
    cases hws : st.ws with
    | none => rfl
    | some ws =>
      dsimp only
      by_cases hopen : ws.readyState = 1
      · have hne : ¬ ws.readyState ≠ Socket.OPEN := fun h => h hopen
        rw [if_neg hne, if_pos hopen, htext]
        rfl
      · have hne : ws.readyState ≠ Socket.OPEN := hopen
        rw [if_pos hne, if_neg hopen]
  · cases hobj : message.typeofObject with
    | false =>
      simp only [Bool.false_eq_true, if_false]
      unfold messageToSend
      rw [hobj]
      rfl
    | true =>
      simp only [if_true]
      unfold messageToSend at htext ⊢
      rw [hobj] at htext ⊢
      simp only [if_true] at htext ⊢
      obtain ⟨json, hjson⟩ := jsonStringify_of_typeofObject message hobj
      rw [hjson] at htext ⊢
      refine ⟨json, rfl, rfl, ?_⟩
      cases htext
      rfl

/-- C19, at the ping the component sends, on a tester whose socket is open. -/
theorem sendMessage_only_when_open_witness :
    sendMessage exampleBrowser
        (.obj [("type", .str "ping"), ("timestamp", .str "2024-01-01T00:00:01.000Z")])
        openTester =
        { openTester with
          ws := some { readyState := 1
                       sent := ["\x7b\"type\":\"ping\",\"timestamp\":\"2024-01-01T00:00:01.000Z\"\x7d"] }
          messages := [.obj [
            ("type", .str "message"), ("direction", .str "outgoing"),
            ("data", .obj [("type", .str "ping"),
              ("timestamp", .str "2024-01-01T00:00:01.000Z")]),
            ("raw", .str "\x7b\"type\":\"ping\",\"timestamp\":\"2024-01-01T00:00:01.000Z\"\x7d"),
            ("timestamp", .str "2024-01-01T00:00:01.000Z"),
            ("event", .str "send"), ("id", .num "1704067201000.25")]] } ∧
      (∃ json, jsonStringify (.obj [("type", .str "ping"),
            ("timestamp", .str "2024-01-01T00:00:01.000Z")]) = some json ∧
          messageToSend (.obj [("type", .str "ping"),
            ("timestamp", .str "2024-01-01T00:00:01.000Z")]) = .str json ∧
          "\x7b\"type\":\"ping\",\"timestamp\":\"2024-01-01T00:00:01.000Z\"\x7d" = json) ∧
      ∀ s : String, messageToSend (.str s) = .str s ∧ (messageToSend (.str s)).toStr = .ok s :=
  sendMessage_only_when_open exampleBrowser
    (.obj [("type", .str "ping"), ("timestamp", .str "2024-01-01T00:00:01.000Z")]) openTester
    "\x7b\"type\":\"ping\",\"timestamp\":\"2024-01-01T00:00:01.000Z\"\x7d" rfl

/-- C20: for every text frame that is not valid JSON, the `onmessage` handler of the tester
appends exactly one incoming message event whose `data` and `raw` are the frame text, lets no
exception escape and changes nothing else of the state (socket, connection flags, toasts);
the `message` handler of the server's test endpoint appends one entry with `data` = `raw` =
the frame text. -/
theorem invalid_json_frame_recorded_raw (env : BrowserEnv) (data : String) (st : TesterState)
    (numberText : String → String) (timestamp : String) (connectionResult : ConnectionResult)
    (hinvalid : jsonParse env.numberText data = none)
    (hinvalidServer : jsonParse numberText data = none) :
    onMessage env data st =
        ({ st with
            messages := st.messages ++ [.obj [
              ("type", .str "message"), ("direction", .str "incoming"), ("data", .str data),
              ("raw", .str data), ("timestamp", .str env.timestamp),
              ("event", .str "onmessage"), ("id", .num env.messageId)]] },
          none) ∧
      wsTestOnMessage numberText timestamp data connectionResult =
        { connectionResult with
          messages := connectionResult.messages ++
            [.obj [("timestamp", .str timestamp), ("data", .str data), ("raw", .str data)]] } := by
  constructor
  · unfold onMessage
    rw [hinvalid]
    rfl
  · unfold wsTestOnMessage
    rw [hinvalidServer]

/-- C20, at the frame `hello`. -/
theorem invalid_json_frame_recorded_raw_witness :
    onMessage exampleBrowser "hello" openTester =
        ({ openTester with
            messages := [.obj [
              ("type", .str "message"), ("direction", .str "incoming"), ("data", .str "hello"),
              ("raw", .str "hello"), ("timestamp", .str "2024-01-01T00:00:01.000Z"),
              ("event", .str "onmessage"), ("id", .num "1704067201000.25")]] },
          none) ∧
      wsTestOnMessage id "2024-01-01T00:00:02.000Z" "hello"
          { connected := true, messages := [], error := .null } =
        { connected := true
          messages := [.obj [("timestamp", .str "2024-01-01T00:00:02.000Z"),
            ("data", .str "hello"), ("raw", .str "hello")]]
          error := .null } :=
  invalid_json_frame_recorded_raw exampleBrowser "hello" openTester id
    "2024-01-01T00:00:02.000Z" { connected := true, messages := [], error := .null } rfl rfl

/-! ## The signed message and its fields (C28) -/

/-- Two texts that agree up to their first comma: the parts before it and after it agree. -/
theorem comma_split (x y rest rest' : List Char) (hx : ',' ∉ x) (hy : ',' ∉ y)
    (h : x ++ ',' :: rest = y ++ ',' :: rest') : x = y ∧ rest = rest' := by
  induction x generalizing y with
  | nil =>
    cases y with
    | nil =>
      simp only [List.nil_append, List.cons.injEq, true_and] at h
      exact ⟨rfl, h⟩
    | cons c cs =>
      simp only [List.nil_append, List.cons_append, List.cons.injEq] at h
      exact absurd (by rw [h.1]; exact List.mem_cons_self _ _) hy
  | cons a as ih =>
    cases y with
    | nil =>
      simp only [List.nil_append, List.cons_append, List.cons.injEq] at h
      exact absurd (by rw [← h.1]; exact List.mem_cons_self _ _) hx
    | cons c cs =>
      simp only [List.cons_append, List.cons.injEq] at h
      obtain ⟨hac, ht⟩ := h
      obtain ⟨h1, h2⟩ := ih cs (fun hm => hx (List.mem_cons_of_mem _ hm))
        (fun hm => hy (List.mem_cons_of_mem _ hm)) ht
      exact ⟨by rw [hac, h1], h2⟩

/-- The message of five comma-free texts determines them. -/
theorem qrMessage_injective (a p m r1 r2 a' p' m' r1' r2' : String)
    (ha : ',' ∉ a.data) (hp : ',' ∉ p.data) (hm : ',' ∉ m.data) (hr1 : ',' ∉ r1.data)
    (ha' : ',' ∉ a'.data) (hp' : ',' ∉ p'.data) (hm' : ',' ∉ m'.data) (hr1' : ',' ∉ r1'.data)
    (h : a ++ "," ++ p ++ "," ++ m ++ "," ++ r1 ++ "," ++ r2 =
      a' ++ "," ++ p' ++ "," ++ m' ++ "," ++ r1' ++ "," ++ r2') :
    a = a' ∧ p = p' ∧ m = m' ∧ r1 = r1' ∧ r2 = r2' := by
  have hd := congrArg String.data h
  simp only [String.data_append, List.append_assoc] at hd
  have hc : (",": String).data = [','] := rfl
  simp only [hc, List.singleton_append] at hd
  obtain ⟨e1, hd⟩ := comma_split _ _ _ _ ha ha' hd
  obtain ⟨e2, hd⟩ := comma_split _ _ _ _ hp hp' hd
  obtain ⟨e3, hd⟩ := comma_split _ _ _ _ hm hm' hd
  obtain ⟨e4, hd⟩ := comma_split _ _ _ _ hr1 hr1' hd
  exact ⟨String.ext e1, String.ext e2, String.ext e3, String.ext e4, String.ext hd⟩

/-- The message of two texts, the first comma-free, determines them. -/
theorem statusMessage_injective (p m p' m' : String)
    (hp : ',' ∉ p.data) (hp' : ',' ∉ p'.data)
    (h : p ++ "," ++ m = p' ++ "," ++ m') : p = p' ∧ m = m' := by
  have hd := congrArg String.data h
  simp only [String.data_append, List.append_assoc] at hd
  have hc : (",": String).data = [','] := rfl
  simp only [hc, List.singleton_append] at hd
  obtain ⟨e1, hd⟩ := comma_split _ _ _ _ hp hp' hd
  exact ⟨String.ext e1, String.ext hd⟩

/-- With string fields the QR signature is the signature of the joined message, whatever the
key is. -/
theorem generateQRRequestSignature_message (a p m r1 r2 : String) (secretKey : JsVal) :
    FonepayUtils.generateQRRequestSignature (.str a) (.str p) (.str m) (.str r1) (.str r2)
        secretKey =
      FonepayUtils.generateHMACSignature secretKey
        (.str (a ++ "," ++ p ++ "," ++ m ++ "," ++ r1 ++ "," ++ r2)) := rfl

/-- With string fields the status signature is the signature of the joined message, whatever
the key is. -/
theorem generateCheckStatusSignature_message (p m : String) (secretKey : JsVal) :
    FonepayUtils.generateCheckStatusSignature (.str p) (.str m) secretKey =
      FonepayUtils.generateHMACSignature secretKey (.str (p ++ "," ++ m)) := rfl

/-- C28: the signed message does not determine the fields.  The tuples
`(100, test-1, fonepay123, "a,b", c)` and `(100, test-1, fonepay123, a, "b,c")` differ and have
the same signature under every secret key, and so have the status tuples `("a,b", c)` and
`(a, "b,c")`; on fields that contain no comma the message is injective: two tuples of
comma-free strings with the same message are the same tuple, for the QR message and for the
status message. -/
theorem signed_message_injective_without_commas
    (a p m r1 r2 a' p' m' r1' r2' : String)
    (hcommas : ∀ s ∈ [a, p, m, r1, r2, a', p', m', r1', r2'], ',' ∉ s.data) :
    ((∀ secretKey : JsVal,
        FonepayUtils.generateQRRequestSignature (.str "100") (.str "test-1") (.str "fonepay123")
            (.str "a,b") (.str "c") secretKey =
          FonepayUtils.generateQRRequestSignature (.str "100") (.str "test-1") (.str "fonepay123")
            (.str "a") (.str "b,c") secretKey) ∧
      ("a,b", "c") ≠ ("a", "b,c") ∧
      (∀ secretKey : JsVal,
        FonepayUtils.generateCheckStatusSignature (.str "a,b") (.str "c") secretKey =
          FonepayUtils.generateCheckStatusSignature (.str "a") (.str "b,c") secretKey)) ∧
    (qrSignatureMessage (.str a) (.str p) (.str m) (.str r1) (.str r2) =
        qrSignatureMessage (.str a') (.str p') (.str m') (.str r1') (.str r2') ↔
      (a, p, m, r1, r2) = (a', p', m', r1', r2')) ∧
    (statusSignatureMessage (.str a) (.str p) = statusSignatureMessage (.str a') (.str p') ↔
      (a, p) = (a', p')) := by
  have hc : ∀ s ∈ [a, p, m, r1, r2, a', p', m', r1', r2'], ',' ∉ s.data := hcommas
  simp only [List.mem_cons, List.mem_singleton, List.not_mem_nil, or_false, forall_eq_or_imp,
    forall_eq] at hc
  obtain ⟨ha, hp, hm, hr1, _, ha', hp', hm', hr1', _⟩ := hc
  refine ⟨⟨fun secretKey => ?_, by decide, fun secretKey => ?_⟩, ⟨fun h => ?_, fun h => ?_⟩,
    ⟨fun h => ?_, fun h => ?_⟩⟩
  · rw [generateQRRequestSignature_message, generateQRRequestSignature_message]
    exact congrArg (fun s => FonepayUtils.generateHMACSignature secretKey (.str s)) (by decide)
  · rw [generateCheckStatusSignature_message, generateCheckStatusSignature_message]
    exact congrArg (fun s => FonepayUtils.generateHMACSignature secretKey (.str s)) (by decide)
  · have h' : a ++ "," ++ p ++ "," ++ m ++ "," ++ r1 ++ "," ++ r2 =
        a' ++ "," ++ p' ++ "," ++ m' ++ "," ++ r1' ++ "," ++ r2' := Except.ok.inj h
    obtain ⟨e1, e2, e3, e4, e5⟩ := qrMessage_injective a p m r1 r2 a' p' m' r1' r2'
      ha hp hm hr1 ha' hp' hm' hr1' h'
    rw [e1, e2, e3, e4, e5]
  · simp only [Prod.mk.injEq] at h
    obtain ⟨e1, e2, e3, e4, e5⟩ := h
    rw [e1, e2, e3, e4, e5]
  · have h' : a ++ "," ++ p = a' ++ "," ++ p' := Except.ok.inj h
    obtain ⟨e1, e2⟩ := statusMessage_injective a p a' p' ha ha' h'
    rw [e1, e2]
  · simp only [Prod.mk.injEq] at h
    obtain ⟨e1, e2⟩ := h
    rw [e1, e2]

/-- C28, at the fields of the known-vector test, none of which contains a comma. -/
theorem signed_message_injective_without_commas_witness :
    ((∀ secretKey : JsVal,
        FonepayUtils.generateQRRequestSignature (.str "100") (.str "test-1") (.str "fonepay123")
            (.str "a,b") (.str "c") secretKey =
          FonepayUtils.generateQRRequestSignature (.str "100") (.str "test-1") (.str "fonepay123")
            (.str "a") (.str "b,c") secretKey) ∧
      ("a,b", "c") ≠ ("a", "b,c") ∧
      (∀ secretKey : JsVal,
        FonepayUtils.generateCheckStatusSignature (.str "a,b") (.str "c") secretKey =
          FonepayUtils.generateCheckStatusSignature (.str "a") (.str "b,c") secretKey)) ∧
    (qrSignatureMessage (.str "100.50") (.str "test-abc123") (.str "fonepay123")
          (.str "Test Transaction") (.str "API Test") =
        qrSignatureMessage (.str "100.50") (.str "test-abc124") (.str "fonepay123")
          (.str "Test Transaction") (.str "API Test") ↔
      ("100.50", "test-abc123", "fonepay123", "Test Transaction", "API Test") =
        ("100.50", "test-abc124", "fonepay123", "Test Transaction", "API Test")) ∧
    (statusSignatureMessage (.str "100.50") (.str "test-abc123") =
        statusSignatureMessage (.str "100.50") (.str "test-abc124") ↔
      ("100.50", "test-abc123") = ("100.50", "test-abc124")) :=
  signed_message_injective_without_commas "100.50" "test-abc123" "fonepay123" "Test Transaction"
    "API Test" "100.50" "test-abc124" "fonepay123" "Test Transaction" "API Test" (by decide)

/-! ## The request that reaches the provider (C23, C26, C27) -/

/-- A computation that has returned passes its value on. -/
theorem except_ok_bind {α β : Type} (a : α) (k : α → Except JsError β) :
    (Except.ok a >>= k) = k a := rfl

/-- Where `v.toString()` returns, the `ToString` conversion returns the same text. -/
theorem toStringCall_toStr (v : JsVal) (t : String) (h : v.toStringCall = .ok t) :
    v.toStr = .ok t := by
  cases v with
  | undefined => cases h
  | null => cases h
  | bool b => exact h
  | num n => exact h
  | str s => exact h
  | arr items => exact h
  | obj fields =>
    have h' : (if fields.any (fun kv => kv.1 == "toString") then
        (throw (.typeError .notAFunction) : Except JsError String)
        else pure "[object Object]") = .ok t := h
    rw [JsVal.toStr]
    by_cases hany : (fields.any fun kv => kv.1 == "toString") = true
    · rw [if_pos hany] at h'; cases h'
    · rw [if_neg hany] at h' ⊢; exact h'

/-- A QR signature that is computed has converted its five fields and signed their join. -/
theorem generateQRRequestSignature_inv (amount prn merchantCode remarks1 remarks2 secretKey : JsVal)
    (dataValidation : String)
    (h : FonepayUtils.generateQRRequestSignature amount prn merchantCode remarks1 remarks2
      secretKey = .ok dataValidation) :
    ∃ a p m x y, amount.toStr = .ok a ∧ prn.toStr = .ok p ∧ merchantCode.toStr = .ok m ∧
      remarks1.toStr = .ok x ∧ remarks2.toStr = .ok y ∧
      FonepayUtils.generateHMACSignature secretKey
        (.str (a ++ "," ++ p ++ "," ++ m ++ "," ++ x ++ "," ++ y)) = .ok dataValidation := by
  unfold FonepayUtils.generateQRRequestSignature at h
  cases ha : amount.toStr with
  | error e => rw [ha] at h; cases h
  | ok a =>
    cases hp : prn.toStr with
    | error e => rw [ha, hp] at h; cases h
    | ok p =>
      cases hm : merchantCode.toStr with
      | error e => rw [ha, hp, hm] at h; cases h
      | ok m =>
        cases hx : remarks1.toStr with
        | error e => rw [ha, hp, hm, hx] at h; cases h
        | ok x =>
          cases hy : remarks2.toStr with
          | error e => rw [ha, hp, hm, hx, hy] at h; cases h
          | ok y =>
            rw [ha, hp, hm, hx, hy] at h
            exact ⟨a, p, m, x, y, rfl, rfl, rfl, rfl, rfl, h⟩

/-- A status signature that is computed has converted its two fields and signed their join. -/
theorem generateCheckStatusSignature_inv (prn merchantCode secretKey : JsVal)
    (dataValidation : String)
    (h : FonepayUtils.generateCheckStatusSignature prn merchantCode secretKey =
      .ok dataValidation) :
    ∃ p m, prn.toStr = .ok p ∧ merchantCode.toStr = .ok m ∧
      FonepayUtils.generateHMACSignature secretKey (.str (p ++ "," ++ m)) = .ok dataValidation := by
  unfold FonepayUtils.generateCheckStatusSignature at h
  cases hp : prn.toStr with
  | error e => rw [hp] at h; cases h
  | ok p =>
    cases hm : merchantCode.toStr with
    | error e => rw [hp, hm] at h; cases h
    | ok m =>
      rw [hp, hm] at h
      exact ⟨p, m, rfl, rfl, h⟩

/-- A preparation of `qrGenerate` that succeeds has computed the signature and the text of the
amount, and its values are those of lines 167-203. -/
theorem qrPrepare_inv (rt : Runtime) (f : QrFields) (p : QrPrepared)
    (h : qrPrepare rt f = .ok p) :
    ∃ dataValidation amountText,
      FonepayUtils.generateQRRequestSignature f.amount (.str (qrPrn rt))
        ((selectCredentials f.customCredentials).field "merchantCode") f.remarks1 f.remarks2
        ((selectCredentials f.customCredentials).field "secretKey") = .ok dataValidation ∧
      f.amount.toStringCall = .ok amountText ∧
      p = { fields := f
            credentials := selectCredentials f.customCredentials
            prn := qrPrn rt
            dataValidation := dataValidation
            requestPayload := .obj [
              ("amount", .str amountText),
              ("remarks1", f.remarks1),
              ("remarks2", f.remarks2),
              ("prn", .str (qrPrn rt)),
              ("merchantCode", (selectCredentials f.customCredentials).field "merchantCode"),
              ("dataValidation", .str dataValidation),
              ("username", (selectCredentials f.customCredentials).field "username"),
              ("password", (selectCredentials f.customCredentials).field "password")]
            apiUrl := baseUrl f.isLive ++
              "/merchant/merchantDetailsForThirdParty/thirdPartyDynamicQrDownload" } := by
  rw [qrPrepare_eq] at h
  cases hsig : FonepayUtils.generateQRRequestSignature f.amount (.str (qrPrn rt))
      ((selectCredentials f.customCredentials).field "merchantCode") f.remarks1 f.remarks2
      ((selectCredentials f.customCredentials).field "secretKey") with
  | error e => rw [hsig] at h; cases h
  | ok dataValidation =>
    cases hamount : f.amount.toStringCall with
    | error e => rw [hsig, hamount] at h; cases h
    | ok amountText =>
      rw [hsig, hamount] at h
      exact ⟨dataValidation, amountText, rfl, rfl, (Except.ok.inj h).symm⟩

/-- The handler `qrGenerate` after a preparation that succeeded. -/
theorem qrGenerate_of_prepared (rt : Runtime) (body : JsVal) (apiLogs : List LogEntry)
    (f : QrFields) (p : QrPrepared) (hfields : qrFields body = .ok f)
    (hp : qrPrepare rt f = .ok p) :
    qrGenerate rt body apiLogs =
      match axiosPost (rt.provider p.apiUrl p.requestPayload) with
      | .error e =>
        { response := errorResponse rt e, apiLogs := apiLogs
          sent := some { url := p.apiUrl, payload := p.requestPayload, headers := jsonHeaders,
                         timeout := 30000 } }
      | .ok response =>
        match qrSuccessBody p response with
        | .error e =>
          { response := errorResponse rt e
            apiLogs := FonepayUtils.logApiCall rt.logEnv "POST" p.apiUrl jsonHeaders
              p.requestPayload (some (withStartTime response rt.startTime)) apiLogs
            sent := some { url := p.apiUrl, payload := p.requestPayload, headers := jsonHeaders,
                           timeout := 30000 } }
        | .ok json =>
          { response := { status := 200, body := json }
            apiLogs := FonepayUtils.logApiCall rt.logEnv "POST" p.apiUrl jsonHeaders
              p.requestPayload (some (withStartTime response rt.startTime)) apiLogs
            sent := some { url := p.apiUrl, payload := p.requestPayload, headers := jsonHeaders,
                           timeout := 30000 } } := by
  have hprep : (qrFields body >>= qrPrepare rt) = .ok p := by
    rw [hfields]
    exact hp
  unfold qrGenerate
  rw [hprep]

/-- The POST of `qrGenerate` after a preparation that succeeded. -/
theorem qrGenerate_sent_of_prepared (rt : Runtime) (body : JsVal) (apiLogs : List LogEntry)
    (f : QrFields) (p : QrPrepared) (hfields : qrFields body = .ok f)
    (hp : qrPrepare rt f = .ok p) :
    (qrGenerate rt body apiLogs).sent = some
      { url := p.apiUrl, payload := p.requestPayload, headers := jsonHeaders, timeout := 30000 } := by
  rw [qrGenerate_of_prepared rt body apiLogs f p hfields hp]
  cases axiosPost (rt.provider p.apiUrl p.requestPayload) with
  | error e => rfl
  | ok response =>
    dsimp only
    cases qrSuccessBody p response <;> rfl

/-- The log of `qrGenerate` after a POST that resolved. -/
theorem qrGenerate_apiLogs_of_resolved (rt : Runtime) (body : JsVal) (apiLogs : List LogEntry)
    (f : QrFields) (p : QrPrepared) (response : ProviderResponse)
    (hfields : qrFields body = .ok f) (hp : qrPrepare rt f = .ok p)
    (hpost : axiosPost (rt.provider p.apiUrl p.requestPayload) = .ok response) :
    (qrGenerate rt body apiLogs).apiLogs =
      FonepayUtils.logApiCall rt.logEnv "POST" p.apiUrl jsonHeaders p.requestPayload
        (some (withStartTime response rt.startTime)) apiLogs := by
  rw [qrGenerate_of_prepared rt body apiLogs f p hfields hp, hpost]
  dsimp only
  cases qrSuccessBody p response <;> rfl

/-- The answer of `qrGenerate` to a request that reaches the provider: the `catch` block
answers when the POST fails or the body of the answer is `null` or `undefined`, and otherwise the
answer is the object of lines 222-238, with the signed message in `signature.message`. -/
theorem qrGenerate_response (rt : Runtime) (body : JsVal) (apiLogs : List LogEntry)
    (f : QrFields) (p : QrPrepared) (hfields : qrFields body = .ok f)
    (hp : qrPrepare rt f = .ok p) :
    ∃ message,
      qrSignatureMessage f.amount (.str (qrPrn rt))
        ((selectCredentials f.customCredentials).field "merchantCode") f.remarks1 f.remarks2 =
          .ok message ∧
      FonepayUtils.generateHMACSignature ((selectCredentials f.customCredentials).field "secretKey")
        (.str message) = .ok p.dataValidation ∧
      (qrGenerate rt body apiLogs).response =
        match axiosPost (rt.provider p.apiUrl p.requestPayload) with
        | .error e => errorResponse rt e
        | .ok response =>
          match response.data.getProp "thirdpartyQrWebSocketUrl" with
          | .error e => errorResponse rt e
          | .ok websocketUrl =>
            { status := 200
              body := .obj [("success", .bool true),
                ("data", .obj [
                  ("request", .obj [("url", .str p.apiUrl), ("payload", p.requestPayload),
                    ("signature", .obj [("message", .str message),
                      ("secretKey", (selectCredentials f.customCredentials).field "secretKey"),
                      ("generated", .str p.dataValidation)])]),
                  ("response", response.data),
                  ("prn", .str (qrPrn rt)),
                  ("websocketUrl", websocketUrl)])] } := by
  obtain ⟨dataValidation, amountText, hsig, hamount, rfl⟩ := qrPrepare_inv rt f p hp
  obtain ⟨a, q, m, x, y, ha, hq, hm, hx, hy, hmac⟩ :=
    generateQRRequestSignature_inv _ _ _ _ _ _ _ hsig
  have hq' : q = qrPrn rt := (Except.ok.inj hq).symm
  subst hq'
  refine ⟨a ++ "," ++ qrPrn rt ++ "," ++ m ++ "," ++ x ++ "," ++ y, ?_, hmac, ?_⟩
  · unfold qrSignatureMessage
    rw [ha, hm, hx, hy]
    rfl
  · rw [qrGenerate_of_prepared rt body apiLogs f _ hfields hp]
    cases axiosPost (rt.provider _ _) with
    | error e => rfl
    | ok response =>
      dsimp only
      unfold qrSuccessBody
      simp only [credentials_getProp, ha, hm, hx, hy, except_ok_bind]
      cases response.data.getProp "thirdpartyQrWebSocketUrl" with
      | error e => rfl
      | ok websocketUrl => rfl

/-- A preparation of `qrStatus` that succeeds has computed the signature, and its values are
those of lines 266-290. -/
theorem statusPrepare_inv (f : StatusFields) (p : StatusPrepared)
    (h : statusPrepare f = .ok p) :
    ∃ dataValidation,
      FonepayUtils.generateCheckStatusSignature f.prn
        ((selectCredentials f.customCredentials).field "merchantCode")
        ((selectCredentials f.customCredentials).field "secretKey") = .ok dataValidation ∧
      p = { fields := f
            credentials := selectCredentials f.customCredentials
            dataValidation := dataValidation
            requestPayload := .obj [
              ("prn", f.prn),
              ("merchantCode", (selectCredentials f.customCredentials).field "merchantCode"),
              ("dataValidation", .str dataValidation),
              ("username", (selectCredentials f.customCredentials).field "username"),
              ("password", (selectCredentials f.customCredentials).field "password")]
            apiUrl := baseUrl f.isLive ++
              "/merchant/merchantDetailsForThirdParty/thirdPartyDynamicQrGetStatus" } := by
  rw [statusPrepare_eq] at h
  cases hsig : FonepayUtils.generateCheckStatusSignature f.prn
      ((selectCredentials f.customCredentials).field "merchantCode")
      ((selectCredentials f.customCredentials).field "secretKey") with
  | error e => rw [hsig] at h; cases h
  | ok dataValidation =>
    rw [hsig] at h
    exact ⟨dataValidation, rfl, (Except.ok.inj h).symm⟩

/-- The handler `qrStatus` after a preparation that succeeded. -/
theorem qrStatus_of_prepared (rt : Runtime) (body : JsVal) (apiLogs : List LogEntry)
    (f : StatusFields) (p : StatusPrepared) (hfields : statusFields body = .ok f)
    (hprn : f.prn.truthy = true) (hp : statusPrepare f = .ok p) :
    qrStatus rt body apiLogs =
      match axiosPost (rt.provider p.apiUrl p.requestPayload) with
      | .error e =>
        { response := errorResponse rt e, apiLogs := apiLogs
          sent := some { url := p.apiUrl, payload := p.requestPayload, headers := jsonHeaders,
                         timeout := 30000 } }
      | .ok response =>
        match statusSuccessBody p response with
        | .error e =>
          { response := errorResponse rt e
            apiLogs := FonepayUtils.logApiCall rt.logEnv "POST" p.apiUrl jsonHeaders
              p.requestPayload (some (withStartTime response rt.startTime)) apiLogs
            sent := some { url := p.apiUrl, payload := p.requestPayload, headers := jsonHeaders,
                           timeout := 30000 } }
        | .ok json =>
          { response := { status := 200, body := json }
            apiLogs := FonepayUtils.logApiCall rt.logEnv "POST" p.apiUrl jsonHeaders
              p.requestPayload (some (withStartTime response rt.startTime)) apiLogs
            sent := some { url := p.apiUrl, payload := p.requestPayload, headers := jsonHeaders,
                           timeout := 30000 } } := by
  unfold qrStatus
  rw [hfields]
  simp only [hprn, Bool.not_true, Bool.false_eq_true, if_false]
  rw [hp]

/-- The POST of `qrStatus` after a preparation that succeeded. -/
theorem qrStatus_sent_of_prepared (rt : Runtime) (body : JsVal) (apiLogs : List LogEntry)
    (f : StatusFields) (p : StatusPrepared) (hfields : statusFields body = .ok f)
    (hprn : f.prn.truthy = true) (hp : statusPrepare f = .ok p) :
    (qrStatus rt body apiLogs).sent = some
      { url := p.apiUrl, payload := p.requestPayload, headers := jsonHeaders, timeout := 30000 } := by
  rw [qrStatus_of_prepared rt body apiLogs f p hfields hprn hp]
  cases axiosPost (rt.provider p.apiUrl p.requestPayload) with
  | error e => rfl
  | ok response =>
    dsimp only
    cases statusSuccessBody p response <;> rfl

/-- The log of `qrStatus` after a POST that resolved. -/
theorem qrStatus_apiLogs_of_resolved (rt : Runtime) (body : JsVal) (apiLogs : List LogEntry)
    (f : StatusFields) (p : StatusPrepared) (response : ProviderResponse)
    (hfields : statusFields body = .ok f) (hprn : f.prn.truthy = true)
    (hp : statusPrepare f = .ok p)
    (hpost : axiosPost (rt.provider p.apiUrl p.requestPayload) = .ok response) :
    (qrStatus rt body apiLogs).apiLogs =
      FonepayUtils.logApiCall rt.logEnv "POST" p.apiUrl jsonHeaders p.requestPayload
        (some (withStartTime response rt.startTime)) apiLogs := by
  rw [qrStatus_of_prepared rt body apiLogs f p hfields hprn hp, hpost]
  dsimp only
  cases statusSuccessBody p response <;> rfl

/-- The answer of `qrStatus` to a request that reaches the provider: the `catch` block answers
when the POST fails, and otherwise the answer is the object of lines 308-322, with the signed
message in `signature.message`. -/
theorem qrStatus_response (rt : Runtime) (body : JsVal) (apiLogs : List LogEntry)
    (f : StatusFields) (p : StatusPrepared) (hfields : statusFields body = .ok f)
    (hprn : f.prn.truthy = true) (hp : statusPrepare f = .ok p) :
    ∃ message,
      statusSignatureMessage f.prn ((selectCredentials f.customCredentials).field "merchantCode") =
        .ok message ∧
      FonepayUtils.generateHMACSignature ((selectCredentials f.customCredentials).field "secretKey")
        (.str message) = .ok p.dataValidation ∧
      (qrStatus rt body apiLogs).response =
        match axiosPost (rt.provider p.apiUrl p.requestPayload) with
        | .error e => errorResponse rt e
        | .ok response =>
          { status := 200
            body := .obj [("success", .bool true),
              ("data", .obj [
                ("request", .obj [("url", .str p.apiUrl), ("payload", p.requestPayload),
                  ("signature", .obj [("message", .str message),
                    ("secretKey", (selectCredentials f.customCredentials).field "secretKey"),
                    ("generated", .str p.dataValidation)])]),
                ("response", response.data)])] } := by
  obtain ⟨dataValidation, hsig, rfl⟩ := statusPrepare_inv f p hp
  obtain ⟨q, m, hq, hm, hmac⟩ := generateCheckStatusSignature_inv _ _ _ _ hsig
  refine ⟨q ++ "," ++ m, ?_, hmac, ?_⟩
  · unfold statusSignatureMessage
    rw [hq, hm]
    rfl
  · rw [qrStatus_of_prepared rt body apiLogs f _ hfields hprn hp]
    cases axiosPost (rt.provider _ _) with
    | error e => rfl
    | ok response =>
      dsimp only
      unfold statusSuccessBody
      simp only [credentials_getProp, hq, hm, except_ok_bind]
      rfl

/-- C27: for every QR-generation request and every status request that reaches the provider
(the body destructures, the `prn` of a status request is truthy, the preparation succeeds), the
`dataValidation` of the payload verifies against the payload's own fields: the fields of the
payload, converted and joined with commas as the signing functions join them, give a message
whose HMAC under the secret key of the selected credentials is `dataValidation`.  This holds
whatever the type of `amount` is, a number included.  When the handler answers 200, the
`signature.message` of the answer is that message; otherwise it answers 500. -/
theorem dataValidation_verifies_payload (rt : Runtime) (qrBody statusBody : JsVal)
    (qrLogs statusLogs : List LogEntry) (qf : QrFields) (qp : QrPrepared)
    (sf : StatusFields) (sp : StatusPrepared)
    (hqrFields : qrFields qrBody = .ok qf) (hqr : qrPrepare rt qf = .ok qp)
    (hstatusFields : statusFields statusBody = .ok sf) (hprn : sf.prn.truthy = true)
    (hstatus : statusPrepare sf = .ok sp) :
    (∃ message,
      (qrGenerate rt qrBody qrLogs).sent = some
        { url := qp.apiUrl, payload := qp.requestPayload, headers := jsonHeaders,
          timeout := 30000 } ∧
      qrSignatureMessage (qp.requestPayload.field "amount") (qp.requestPayload.field "prn")
        (qp.requestPayload.field "merchantCode") (qp.requestPayload.field "remarks1")
        (qp.requestPayload.field "remarks2") = .ok message ∧
      qp.requestPayload.field "dataValidation" = .str qp.dataValidation ∧
      FonepayUtils.generateHMACSignature
        ((selectCredentials qf.customCredentials).field "secretKey") (.str message) =
          .ok qp.dataValidation ∧
      (if (qrGenerate rt qrBody qrLogs).response.status = 200 then
        ((((qrGenerate rt qrBody qrLogs).response.body.field "data").field "request").field
          "signature").field "message" = .str message
      else (qrGenerate rt qrBody qrLogs).response.status = 500)) ∧
    (∃ message,
      (qrStatus rt statusBody statusLogs).sent = some
        { url := sp.apiUrl, payload := sp.requestPayload, headers := jsonHeaders,
          timeout := 30000 } ∧
      statusSignatureMessage (sp.requestPayload.field "prn")
        (sp.requestPayload.field "merchantCode") = .ok message ∧
      sp.requestPayload.field "dataValidation" = .str sp.dataValidation ∧
      FonepayUtils.generateHMACSignature
        ((selectCredentials sf.customCredentials).field "secretKey") (.str message) =
          .ok sp.dataValidation ∧
      (if (qrStatus rt statusBody statusLogs).response.status = 200 then
        ((((qrStatus rt statusBody statusLogs).response.body.field "data").field "request").field
          "signature").field "message" = .str message
      else (qrStatus rt statusBody statusLogs).response.status = 500)) := by
  constructor
  · obtain ⟨message, hmessage, hmac, hresp⟩ :=
      qrGenerate_response rt qrBody qrLogs qf qp hqrFields hqr
    obtain ⟨dataValidation, amountText, hsig, hamount, rfl⟩ := qrPrepare_inv rt qf qp hqr
    refine ⟨message, qrGenerate_sent_of_prepared rt qrBody qrLogs qf _ hqrFields hqr, ?_, rfl,
      hmac, ?_⟩
    · rw [← hmessage]
      show qrSignatureMessage (.str amountText) (.str (qrPrn rt))
        ((selectCredentials qf.customCredentials).field "merchantCode") qf.remarks1 qf.remarks2 = _
      unfold qrSignatureMessage
      rw [toStringCall_toStr _ _ hamount]
      rfl
    · rw [hresp]
      cases axiosPost (rt.provider _ _) with
      | error e => exact (if_neg (show ¬ (errorResponse rt e).status = 200 from
          (by decide : ¬ ((500 : Nat) = 200)))).mpr rfl
      | ok response =>
        dsimp only
        cases response.data.getProp "thirdpartyQrWebSocketUrl" with
        | error e => exact (if_neg (show ¬ (errorResponse rt e).status = 200 from
          (by decide : ¬ ((500 : Nat) = 200)))).mpr rfl
        | ok websocketUrl => exact (if_pos rfl).mpr rfl
  · obtain ⟨message, hmessage, hmac, hresp⟩ :=
      qrStatus_response rt statusBody statusLogs sf sp hstatusFields hprn hstatus
    obtain ⟨dataValidation, hsig, rfl⟩ := statusPrepare_inv sf sp hstatus
    refine ⟨message,
      qrStatus_sent_of_prepared rt statusBody statusLogs sf _ hstatusFields hprn hstatus,
      hmessage, rfl, hmac, ?_⟩
    · rw [hresp]
      cases axiosPost (rt.provider _ _) with
      | error e => exact (if_neg (show ¬ (errorResponse rt e).status = 200 from
          (by decide : ¬ ((500 : Nat) = 200)))).mpr rfl
      | ok response => exact (if_pos rfl).mpr rfl

/-- The QR signature of a number amount and string fields under a string key. -/
theorem generateQRRequestSignature_num (amount prn merchantCode remarks1 remarks2 secretKey : String) :
    FonepayUtils.generateQRRequestSignature (.num amount) (.str prn) (.str merchantCode)
        (.str remarks1) (.str remarks2) (.str secretKey) =
      .ok (toUpperCase (hexEncode (hmacSha512 (utf8Encode secretKey)
        (utf8Encode (amount ++ "," ++ prn ++ "," ++ merchantCode ++ "," ++ remarks1 ++ "," ++
          remarks2))))) :=
  rfl

/-- The preparation of the request with the amount "100.50" in `exampleRuntime`. -/
theorem qrPrepare_example : qrPrepare exampleRuntime exampleQrFields = .ok exampleQrPrepared :=
  qrPrepare_ok exampleRuntime exampleQrFields "100.50"
    "3B55A08C8416BED1DA0E8B8D5105AA635C9DAE097048BC74FEA096C80328B71BCC27FE63BBA34C589BAED73860F0B613CF76D25120672179459CD2DEAB456F73"
    ((generateQRRequestSignature_str "100.50" "test-0f8fad5b" "fonepay123" "Test Transaction"
      "API Test" "fonepay").trans (congrArg Except.ok (by decide)))
    rfl

/-- The preparation of the request with the number amount 100.5 in `exampleRuntime`. -/
theorem qrPrepare_numberAmount :
    qrPrepare exampleRuntime numberAmountFields = .ok numberAmountPrepared :=
  qrPrepare_ok exampleRuntime numberAmountFields "100.5"
    "691F8D44B55531D51DC88B3DA4EBE8D3590C80112A4D734396BA03E3BAD780EE3554CF85F5B375D6F2D6C607BC6B5C47A17435876FFC54F81A35ACA9F1C42D74"
    ((generateQRRequestSignature_num "100.5" "test-0f8fad5b" "fonepay123" "Test Transaction"
      "API Test" "fonepay").trans (congrArg Except.ok (by decide)))
    rfl

/-- The preparation of the status request for `test-abc123`. -/
theorem statusPrepare_example : statusPrepare exampleStatusFields = .ok exampleStatusPrepared :=
  statusPrepare_ok exampleStatusFields
    "50B791A3EBDA8823AF8408C4E1AF6489D8A3314475039045B5A7D9E31C6E69EAE6FB7C91753B05B02D8C7C598D2AD43D4519D688220E0BD5B229501631BE4088"
    ((generateCheckStatusSignature_str "test-abc123" "fonepay123" "fonepay").trans
      (congrArg Except.ok (by decide)))

/-- C27, at a QR request whose amount is the number 100.5 and a status request for
`test-abc123`, both with the built-in test credentials. -/
theorem dataValidation_verifies_payload_witness :
    (∃ message,
      (qrGenerate exampleRuntime (.obj [("amount", .num "100.5")]) []).sent = some
        { url := numberAmountPrepared.apiUrl, payload := numberAmountPrepared.requestPayload,
          headers := jsonHeaders, timeout := 30000 } ∧
      qrSignatureMessage (numberAmountPrepared.requestPayload.field "amount")
        (numberAmountPrepared.requestPayload.field "prn")
        (numberAmountPrepared.requestPayload.field "merchantCode")
        (numberAmountPrepared.requestPayload.field "remarks1")
        (numberAmountPrepared.requestPayload.field "remarks2") = .ok message ∧
      numberAmountPrepared.requestPayload.field "dataValidation" =
        .str numberAmountPrepared.dataValidation ∧
      FonepayUtils.generateHMACSignature
        ((selectCredentials numberAmountFields.customCredentials).field "secretKey")
        (.str message) = .ok numberAmountPrepared.dataValidation ∧
      (if (qrGenerate exampleRuntime (.obj [("amount", .num "100.5")]) []).response.status = 200
        then
          ((((qrGenerate exampleRuntime (.obj [("amount", .num "100.5")]) []).response.body.field
            "data").field "request").field "signature").field "message" = .str message
        else
          (qrGenerate exampleRuntime (.obj [("amount", .num "100.5")]) []).response.status = 500)) ∧
    (∃ message,
      (qrStatus exampleRuntime (.obj [("prn", .str "test-abc123")]) []).sent = some
        { url := exampleStatusPrepared.apiUrl, payload := exampleStatusPrepared.requestPayload,
          headers := jsonHeaders, timeout := 30000 } ∧
      statusSignatureMessage (exampleStatusPrepared.requestPayload.field "prn")
        (exampleStatusPrepared.requestPayload.field "merchantCode") = .ok message ∧
      exampleStatusPrepared.requestPayload.field "dataValidation" =
        .str exampleStatusPrepared.dataValidation ∧
      FonepayUtils.generateHMACSignature
        ((selectCredentials exampleStatusFields.customCredentials).field "secretKey")
        (.str message) = .ok exampleStatusPrepared.dataValidation ∧
      (if (qrStatus exampleRuntime (.obj [("prn", .str "test-abc123")]) []).response.status = 200
        then
          ((((qrStatus exampleRuntime (.obj [("prn", .str "test-abc123")]) []).response.body.field
            "data").field "request").field "signature").field "message" = .str message
        else
          (qrStatus exampleRuntime (.obj [("prn", .str "test-abc123")]) []).response.status =
            500)) :=
  dataValidation_verifies_payload exampleRuntime (.obj [("amount", .num "100.5")])
    (.obj [("prn", .str "test-abc123")]) [] [] numberAmountFields numberAmountPrepared
    exampleStatusFields exampleStatusPrepared rfl qrPrepare_numberAmount rfl rfl
    statusPrepare_example

/-- The first eight characters of a version-4 UUID are lower-case hexadecimal digits. -/
theorem uuid_head (s : String) (h : isUuidV4 s = true) :
    (substringFromStart s 8).length = 8 ∧
      ∀ c ∈ (substringFromStart s 8).data, isLowerHexDigit c = true := by
  unfold isUuidV4 at h
  simp only [Bool.and_eq_true, beq_iff_eq, List.all_eq_true] at h
  obtain ⟨⟨⟨⟨⟨⟨⟨⟨⟨⟨⟨hlen, hhead⟩, _⟩, _⟩, _⟩, _⟩, _⟩, _⟩, _⟩, _⟩, _⟩, _⟩ := h
  refine ⟨?_, hhead⟩
  show (s.data.take 8).length = 8
  rw [List.length_take, hlen]
  rfl

/-- The reference of a QR request: `test-` and eight lower-case hexadecimal digits. -/
theorem qrPrn_shape (rt : Runtime) (h : isUuidV4 rt.uuid = true) :
    (qrPrn rt).length = 13 ∧ (qrPrn rt).data.take 5 = "test-".data ∧
      ∀ c ∈ (qrPrn rt).data.drop 5, isLowerHexDigit c = true := by
  obtain ⟨hlen, hhex⟩ := uuid_head rt.uuid h
  refine ⟨?_, rfl, hhex⟩
  unfold qrPrn
  rw [String.length_append, hlen]
  rfl

/-- C26: for every QR-generation request served with a version-4 UUID, the reference `prn` is
`test-` followed by the first eight characters of the UUID: 13 characters, the last eight of
them lower-case hexadecimal digits.  When the request reaches the provider (the body
destructures and the preparation succeeds) this one value is the second field of the signed
message, the `prn` of the payload sent, and, when the handler answers 200, the `prn` of the
answer's `data` (otherwise the handler answers 500). -/
theorem prn_is_test_and_uuid_head (rt : Runtime) (body : JsVal) (apiLogs : List LogEntry)
    (f : QrFields) (p : QrPrepared) (huuid : isUuidV4 rt.uuid = true)
    (hfields : qrFields body = .ok f) (hp : qrPrepare rt f = .ok p) :
    (qrPrn rt = "test-" ++ substringFromStart rt.uuid 8 ∧ (qrPrn rt).length = 13 ∧
      (substringFromStart rt.uuid 8).length = 8 ∧
      ∀ c ∈ (qrPrn rt).data.drop 5, isLowerHexDigit c = true) ∧
    (∃ message,
      qrSignatureMessage f.amount (.str (qrPrn rt))
        ((selectCredentials f.customCredentials).field "merchantCode") f.remarks1 f.remarks2 =
          .ok message ∧
      FonepayUtils.generateHMACSignature
        ((selectCredentials f.customCredentials).field "secretKey") (.str message) =
          .ok p.dataValidation) ∧
    ((qrGenerate rt body apiLogs).sent = some
        { url := p.apiUrl, payload := p.requestPayload, headers := jsonHeaders,
          timeout := 30000 } ∧
      p.requestPayload.field "prn" = .str (qrPrn rt) ∧
      p.requestPayload.field "dataValidation" = .str p.dataValidation) ∧
    (if (qrGenerate rt body apiLogs).response.status = 200 then
      ((qrGenerate rt body apiLogs).response.body.field "data").field "prn" = .str (qrPrn rt)
    else (qrGenerate rt body apiLogs).response.status = 500) := by
  obtain ⟨message, hmessage, hmac, hresp⟩ := qrGenerate_response rt body apiLogs f p hfields hp
  have hsent := qrGenerate_sent_of_prepared rt body apiLogs f p hfields hp
  obtain ⟨dataValidation, amountText, hsig, hamount, rfl⟩ := qrPrepare_inv rt f p hp
  refine ⟨⟨rfl, (qrPrn_shape rt huuid).1, (uuid_head rt.uuid huuid).1, (qrPrn_shape rt huuid).2.2⟩,
    ⟨message, hmessage, hmac⟩, ⟨hsent, rfl, rfl⟩, ?_⟩
  rw [hresp]
  cases axiosPost (rt.provider _ _) with
  | error e =>
    exact (if_neg (show ¬ (errorResponse rt e).status = 200 from
      (by decide : ¬ ((500 : Nat) = 200)))).mpr rfl
  | ok response =>
    dsimp only
    cases response.data.getProp "thirdpartyQrWebSocketUrl" with
    | error e =>
      exact (if_neg (show ¬ (errorResponse rt e).status = 200 from
        (by decide : ¬ ((500 : Nat) = 200)))).mpr rfl
    | ok websocketUrl => exact (if_pos rfl).mpr rfl

/-- C26, at the request with the amount "100.50" served with the UUID
`0f8fad5b-d9cb-469f-a165-70867728950e`. -/
theorem prn_is_test_and_uuid_head_witness :
    (qrPrn exampleRuntime = "test-" ++ substringFromStart exampleRuntime.uuid 8 ∧
      (qrPrn exampleRuntime).length = 13 ∧
      (substringFromStart exampleRuntime.uuid 8).length = 8 ∧
      ∀ c ∈ (qrPrn exampleRuntime).data.drop 5, isLowerHexDigit c = true) ∧
    (∃ message,
      qrSignatureMessage exampleQrFields.amount (.str (qrPrn exampleRuntime))
        ((selectCredentials exampleQrFields.customCredentials).field "merchantCode")
        exampleQrFields.remarks1 exampleQrFields.remarks2 = .ok message ∧
      FonepayUtils.generateHMACSignature
        ((selectCredentials exampleQrFields.customCredentials).field "secretKey")
        (.str message) = .ok exampleQrPrepared.dataValidation) ∧
    ((qrGenerate exampleRuntime (.obj [("amount", .str "100.50")]) []).sent = some
        { url := exampleQrPrepared.apiUrl, payload := exampleQrPrepared.requestPayload,
          headers := jsonHeaders, timeout := 30000 } ∧
      exampleQrPrepared.requestPayload.field "prn" = .str (qrPrn exampleRuntime) ∧
      exampleQrPrepared.requestPayload.field "dataValidation" =
        .str exampleQrPrepared.dataValidation) ∧
    (if (qrGenerate exampleRuntime (.obj [("amount", .str "100.50")]) []).response.status = 200
      then
        ((qrGenerate exampleRuntime (.obj [("amount", .str "100.50")]) []).response.body.field
          "data").field "prn" = .str (qrPrn exampleRuntime)
      else
        (qrGenerate exampleRuntime (.obj [("amount", .str "100.50")]) []).response.status = 500) :=
  prn_is_test_and_uuid_head exampleRuntime (.obj [("amount", .str "100.50")]) []
    exampleQrFields exampleQrPrepared (by decide) rfl qrPrepare_example

/-! ## The record of a provider call (C23) -/

/-- The record `logApiCall` builds for a response whose start time is set and not zero. -/
theorem logEntry_of_response (env : LogEnv) (method url : String) (headers body : JsVal)
    (response : ProviderResponse) (startTime : Nat) (hstart : 0 < startTime) :
    FonepayUtils.logEntry env method url headers body (some (withStartTime response startTime)) =
      { id := env.id
        timestamp := env.timestamp
        type := (FonepayUtils.logEntry env method url headers body none).type
        method := method
        url := url
        status := response.status
        duration := (env.now : Int) - (startTime : Int)
        requestHeaders := headers
        requestBody := body
        responseHeaders := response.headers.or (.obj [])
        responseBody := response.data.or (.obj [])
        responseStatus := response.status } := by
  have hne : startTime ≠ 0 := Nat.pos_iff_ne_zero.mp hstart
  unfold FonepayUtils.logEntry withStartTime
  simp only [Option.some_bind, Option.map_some', Option.getD_some, hne, ne_eq, not_false_eq_true,
    if_true]

/-- C23, refuted: a provider that answers a status POST with status 200 and an empty body (the
empty string) gets a record whose `response.body` is the empty object, not that body. -/
theorem empty_provider_body_logged_as_object :
    (qrStatus emptyBodyRuntime (.obj [("prn", .str "test-abc123")]) []).response.status = 200 ∧
      ((qrStatus emptyBodyRuntime (.obj [("prn", .str "test-abc123")]) []).apiLogs.map
        fun record => (record.status, jsonStringify record.responseBody)) =
          [(200, some "\x7b\x7d")] ∧
      jsonStringify (.str "") = some "\"\"" := by
  decide

/-- C23, amended: when the POST of either handler resolves, the API log afterwards is the new
record followed by the earlier records in their order, cut to the first 100.  The record has
method `POST`, the URL and the payload of the POST, the request headers
`Content-Type: application/json`, `status` and `response.status` equal to the provider's
status, and as `response.body` the provider's body when that body is truthy and the empty
object otherwise.  Its duration is the time of logging minus the time the call started, which
is not negative on a clock that has not gone backwards in between (and has left the epoch). -/
theorem provider_call_record (rt : Runtime) (qrBody statusBody : JsVal)
    (qrLogs statusLogs : List LogEntry) (qf : QrFields) (qp : QrPrepared)
    (sf : StatusFields) (sp : StatusPrepared) (qrResponse statusResponse : ProviderResponse)
    (hstart : 0 < rt.startTime) (hclock : rt.startTime ≤ rt.logEnv.now)
    (hqrFields : qrFields qrBody = .ok qf) (hqr : qrPrepare rt qf = .ok qp)
    (hqrPost : axiosPost (rt.provider qp.apiUrl qp.requestPayload) = .ok qrResponse)
    (hstatusFields : statusFields statusBody = .ok sf) (hprn : sf.prn.truthy = true)
    (hstatus : statusPrepare sf = .ok sp)
    (hstatusPost : axiosPost (rt.provider sp.apiUrl sp.requestPayload) = .ok statusResponse) :
    (∃ record : LogEntry,
      (qrGenerate rt qrBody qrLogs).apiLogs = (record :: qrLogs).take 100 ∧
      (qrGenerate rt qrBody qrLogs).sent = some
        { url := qp.apiUrl, payload := qp.requestPayload, headers := jsonHeaders,
          timeout := 30000 } ∧
      record.method = "POST" ∧ record.url = qp.apiUrl ∧
      record.requestBody = qp.requestPayload ∧
      record.requestHeaders = .obj [("Content-Type", .str "application/json")] ∧
      record.status = qrResponse.status ∧ record.responseStatus = qrResponse.status ∧
      record.responseBody = (if qrResponse.data.truthy then qrResponse.data else .obj []) ∧
      record.duration = (rt.logEnv.now : Int) - (rt.startTime : Int) ∧
      0 ≤ record.duration) ∧
    (∃ record : LogEntry,
      (qrStatus rt statusBody statusLogs).apiLogs = (record :: statusLogs).take 100 ∧
      (qrStatus rt statusBody statusLogs).sent = some
        { url := sp.apiUrl, payload := sp.requestPayload, headers := jsonHeaders,
          timeout := 30000 } ∧
      record.method = "POST" ∧ record.url = sp.apiUrl ∧
      record.requestBody = sp.requestPayload ∧
      record.requestHeaders = .obj [("Content-Type", .str "application/json")] ∧
      record.status = statusResponse.status ∧ record.responseStatus = statusResponse.status ∧
      record.responseBody = (if statusResponse.data.truthy then statusResponse.data else .obj []) ∧
      record.duration = (rt.logEnv.now : Int) - (rt.startTime : Int) ∧
      0 ≤ record.duration) := by
  have hduration : (0 : Int) ≤ (rt.logEnv.now : Int) - (rt.startTime : Int) := by omega
  constructor
  · refine ⟨FonepayUtils.logEntry rt.logEnv "POST" qp.apiUrl jsonHeaders qp.requestPayload
      (some (withStartTime qrResponse rt.startTime)), ?_,
      qrGenerate_sent_of_prepared rt qrBody qrLogs qf qp hqrFields hqr, ?_⟩
    · rw [qrGenerate_apiLogs_of_resolved rt qrBody qrLogs qf qp qrResponse hqrFields hqr hqrPost,
        logApiCall_eq_take]
    · rw [logEntry_of_response _ _ _ _ _ _ _ hstart]
      exact ⟨rfl, rfl, rfl, rfl, rfl, rfl, rfl, rfl, hduration⟩
  · refine ⟨FonepayUtils.logEntry rt.logEnv "POST" sp.apiUrl jsonHeaders sp.requestPayload
      (some (withStartTime statusResponse rt.startTime)), ?_,
      qrStatus_sent_of_prepared rt statusBody statusLogs sf sp hstatusFields hprn hstatus, ?_⟩
    · rw [qrStatus_apiLogs_of_resolved rt statusBody statusLogs sf sp statusResponse
        hstatusFields hprn hstatus hstatusPost, logApiCall_eq_take]
    · rw [logEntry_of_response _ _ _ _ _ _ _ hstart]
      exact ⟨rfl, rfl, rfl, rfl, rfl, rfl, rfl, rfl, hduration⟩

/-- C23 as amended, at the request with the amount "100.50" and the status request for
`test-abc123`, both answered with status 200, 250 ms after the call started. -/
theorem provider_call_record_witness :
    (∃ record : LogEntry,
      (qrGenerate exampleRuntime (.obj [("amount", .str "100.50")]) []).apiLogs = [record].take 100 ∧
      (qrGenerate exampleRuntime (.obj [("amount", .str "100.50")]) []).sent = some
        { url := exampleQrPrepared.apiUrl, payload := exampleQrPrepared.requestPayload, headers := jsonHeaders,
          timeout := 30000 } ∧
      record.method = "POST" ∧ record.url = exampleQrPrepared.apiUrl ∧
      record.requestBody = exampleQrPrepared.requestPayload ∧
      record.requestHeaders = .obj [("Content-Type", .str "application/json")] ∧
      record.status = exampleProviderResponse.status ∧ record.responseStatus = exampleProviderResponse.status ∧
      record.responseBody = (if exampleProviderResponse.data.truthy then exampleProviderResponse.data else .obj []) ∧
      record.duration = (exampleRuntime.logEnv.now : Int) - (exampleRuntime.startTime : Int) ∧
      0 ≤ record.duration) ∧
    (∃ record : LogEntry,
      (qrStatus exampleRuntime (.obj [("prn", .str "test-abc123")]) []).apiLogs = [record].take 100 ∧
      (qrStatus exampleRuntime (.obj [("prn", .str "test-abc123")]) []).sent = some
        { url := exampleStatusPrepared.apiUrl, payload := exampleStatusPrepared.requestPayload, headers := jsonHeaders,
          timeout := 30000 } ∧
      record.method = "POST" ∧ record.url = exampleStatusPrepared.apiUrl ∧
      record.requestBody = exampleStatusPrepared.requestPayload ∧
      record.requestHeaders = .obj [("Content-Type", .str "application/json")] ∧
      record.status = exampleProviderResponse.status ∧ record.responseStatus = exampleProviderResponse.status ∧
      record.responseBody = (if exampleProviderResponse.data.truthy then exampleProviderResponse.data else .obj []) ∧
      record.duration = (exampleRuntime.logEnv.now : Int) - (exampleRuntime.startTime : Int) ∧
      0 ≤ record.duration) :=
  provider_call_record exampleRuntime (.obj [("amount", .str "100.50")])
    (.obj [("prn", .str "test-abc123")]) [] [] exampleQrFields exampleQrPrepared
    exampleStatusFields exampleStatusPrepared exampleProviderResponse exampleProviderResponse
    (by decide) (by decide) rfl qrPrepare_example rfl rfl rfl statusPrepare_example rfl

/-! ## The tracking connection and the tester (C21, C22, C24, C25) -/

/-- Recording a message raises no toast. -/
theorem addMessage_toasts (env : BrowserEnv) (message : List (String × JsVal)) (st : TesterState) :
    (addMessage env message st).toasts = st.toasts := rfl

/-- The toasts of the second-level decode. -/
theorem notifyPayment_toasts (env : BrowserEnv) (transactionStatus : JsVal) (st : TesterState) :
    (notifyPayment env transactionStatus st).toasts = st.toasts ++
      (match transactionStatus.toStr with
        | .error _ => []
        | .ok text =>
          match jsonParse env.numberText text with
          | none => []
          | some decoded =>
            if (decoded.field "paymentSuccess").truthy then
              [⟨.success, "Payment notification received!",
                .obj [("duration", .num "6000"), ("icon", .str "💳")]⟩]
            else if (decoded.field "QRVerified").truthy then
              [⟨.plain, "QR Code verified!",
                .obj [("duration", .num "4000"), ("icon", .str "✅")]⟩]
            else []) := by
  unfold notifyPayment
  cases transactionStatus.toStr with
  | error e => exact (List.append_nil _).symm
  | ok text =>
    dsimp only
    cases jsonParse env.numberText text with
    | none => exact (List.append_nil _).symm
    | some decoded =>
      dsimp only
      cases decoded with
      | undefined => exact (List.append_nil _).symm
      | null => exact (List.append_nil _).symm
      | bool b => exact (List.append_nil _).symm
      | num n => exact (List.append_nil _).symm
      | str s => exact (List.append_nil _).symm
      | arr items => exact (List.append_nil _).symm
      | obj inner =>
        dsimp only [JsVal.getProp, JsVal.field]
        show (if (lookupField "paymentSuccess" inner).truthy then _ else _ : TesterState).toasts = _
        cases (lookupField "paymentSuccess" inner).truthy with
        | true => rfl
        | false =>
          simp only [Bool.false_eq_true, if_false]
          cases (lookupField "QRVerified" inner).truthy with
          | true => rfl
          | false => exact (List.append_nil _).symm

/-- The handler `onMessage` of the tester on a frame that decodes to an object. -/
theorem onMessage_obj (env : BrowserEnv) (data : String) (st : TesterState)
    (fields : List (String × JsVal)) (h : jsonParse env.numberText data = some (.obj fields)) :
    onMessage env data st =
      (if (lookupField "transactionStatus" fields).truthy then
          notifyPayment env (lookupField "transactionStatus" fields)
            (addMessage env
              [("type", .str "message"), ("direction", .str "incoming"), ("data", .obj fields),
               ("raw", .str data), ("timestamp", .str env.timestamp),
               ("event", .str "onmessage")] st)
        else
          addMessage env
            [("type", .str "message"), ("direction", .str "incoming"), ("data", .obj fields),
             ("raw", .str data), ("timestamp", .str env.timestamp),
             ("event", .str "onmessage")] st,
        none) := by
  unfold onMessage
  rw [h]
  dsimp only [JsVal.typeofObject, JsVal.getProp, JsVal.field]
  simp only [if_true]
  show (if (lookupField "transactionStatus" fields).truthy then _ else _ :
    TesterState × Option JsError) = _
  cases (lookupField "transactionStatus" fields).truthy <;> rfl

/-- The handler `onMessage` of the tester on a frame that does not decode to an object or to
`null`: the frame is recorded and nothing else happens. -/
theorem onMessage_toasts_of_not_obj (env : BrowserEnv) (data : String) (st : TesterState)
    (h : ∀ fields, jsonParse env.numberText data ≠ some (.obj fields)) :
    (onMessage env data st).1.toasts = st.toasts := by
  unfold onMessage
  cases hp : jsonParse env.numberText data with
  | none => rfl
  | some parsed =>
    cases parsed with
    | undefined => rfl
    | null => rfl
    | bool b => rfl
    | num n => rfl
    | str s => rfl
    | arr items => rfl
    | obj fields => exact absurd hp (h fields)

/-- C25: the notifications of the tester's `onmessage` handler.  For a frame that decodes to an
object with a truthy (non-empty) `transactionStatus`, the text of `transactionStatus` is decoded
a second time: a truthy `paymentSuccess` of the decoded value raises the payment notification,
otherwise a truthy `QRVerified` raises the QR-verified notification, and when the second decode
fails or neither flag is set no notification is raised; no exception escapes in any of these
cases.  A frame that decodes to an object without (truthy) `transactionStatus`, or to anything
else, or does not decode, raises no notification. -/
theorem transactionStatus_notifications (env : BrowserEnv) (data : String) (st : TesterState) :
    match jsonParse env.numberText data with
    | some (.obj fields) =>
      (onMessage env data st).2 = none ∧
      (onMessage env data st).1.toasts = st.toasts ++
        (if (lookupField "transactionStatus" fields).truthy then
          match (lookupField "transactionStatus" fields).toStr with
          | .error _ => []
          | .ok text =>
            match jsonParse env.numberText text with
            | none => []
            | some decoded =>
              if (decoded.field "paymentSuccess").truthy then
                [⟨.success, "Payment notification received!",
                  .obj [("duration", .num "6000"), ("icon", .str "💳")]⟩]
              else if (decoded.field "QRVerified").truthy then
                [⟨.plain, "QR Code verified!",
                  .obj [("duration", .num "4000"), ("icon", .str "✅")]⟩]
              else []
        else [])
    | _ => (onMessage env data st).1.toasts = st.toasts := by
  cases h : jsonParse env.numberText data with
  | none => exact onMessage_toasts_of_not_obj env data st (fun fields hf => by rw [h] at hf; cases hf)
  | some parsed =>
    cases parsed with
    | undefined =>
      exact onMessage_toasts_of_not_obj env data st (fun fields hf => by rw [h] at hf; cases hf)
    | null =>
      exact onMessage_toasts_of_not_obj env data st (fun fields hf => by rw [h] at hf; cases hf)
    | bool b =>
      exact onMessage_toasts_of_not_obj env data st (fun fields hf => by rw [h] at hf; cases hf)
    | num n =>
      exact onMessage_toasts_of_not_obj env data st (fun fields hf => by rw [h] at hf; cases hf)
    | str s =>
      exact onMessage_toasts_of_not_obj env data st (fun fields hf => by rw [h] at hf; cases hf)
    | arr items =>
      exact onMessage_toasts_of_not_obj env data st (fun fields hf => by rw [h] at hf; cases hf)
    | obj fields =>
      dsimp only
      rw [onMessage_obj env data st fields h]
      refine ⟨rfl, ?_⟩
      cases (lookupField "transactionStatus" fields).truthy with
      | false => exact (List.append_nil _).symm
      | true =>
        simp only [if_true]
        rw [notifyPayment_toasts, addMessage_toasts]

/-- C21, refuted: for the result of a QR generation whose payload has the empty merchant code
(custom credentials with an empty `merchantCode`), the initiation message carries the merchant
code `fonepay123`, not the one of the request payload. -/
theorem tracking_open_replaces_empty_merchantCode :
    JsVal.isString
        ((((exampleResult emptyMerchantBody).field "request").field "payload").field
          "merchantCode") "" = true ∧
      (connectWebSocket.onopen exampleBrowser (exampleResult emptyMerchantBody)
        { readyState := 1, sent := [] } trackingGenerator).1.sent =
          ["\x7b\"prn\":\"test-0f8fad5b\",\"merchantCode\":\"fonepay123\"\x7d"] := by
  decide

/-- C21, amended: when the tracking socket opens, the handler marks the connection as connected
and raises a toast; if the result it reads has a truthy `prn`, it hands exactly one text to
`send`, the JSON of the object with the keys `prn` and `merchantCode`, where `prn` is the
result's `prn` and `merchantCode` is the merchant code of the result's request payload, or
`fonepay123` when the payload has none (absent or empty), and it appends exactly one `sent`
event with that object as `data`; if the result has no truthy `prn` (or is `null`), nothing is
handed to `send` and no event is appended. -/
theorem tracking_open_sends_initiation (env : BrowserEnv) (result : JsVal) (ws : Socket)
    (st : GeneratorState) :
    ∃ json,
      jsonStringify (.obj [("prn", result.field "prn"),
        ("merchantCode",
          if (((result.field "request").optProp "payload").optProp "merchantCode").truthy then
            ((result.field "request").optProp "payload").optProp "merchantCode"
          else .str "fonepay123")]) = some json ∧
      connectWebSocket.onopen env result ws st =
        if (result.optProp "prn").truthy then
          ({ ws with sent := ws.sent ++ [json] },
            { st with
              wsStatus := "connected"
              toasts := st.toasts ++
                [⟨.success, "WebSocket connected for transaction tracking", .undefined⟩]
              wsMessages := st.wsMessages ++ [.obj [("type", .str "sent"),
                ("timestamp", .str env.timestamp),
                ("data", .obj [("prn", result.field "prn"),
                  ("merchantCode",
                    if (((result.field "request").optProp "payload").optProp
                        "merchantCode").truthy then
                      ((result.field "request").optProp "payload").optProp "merchantCode"
                    else .str "fonepay123")])]] })
        else
          (ws,
            { st with
              wsStatus := "connected"
              toasts := st.toasts ++
                [⟨.success, "WebSocket connected for transaction tracking", .undefined⟩] }) := by
  obtain ⟨json, hjson⟩ := jsonStringify_of_typeofObject
    (.obj [("prn", result.field "prn"),
      ("merchantCode",
        if (((result.field "request").optProp "payload").optProp "merchantCode").truthy then
          ((result.field "request").optProp "payload").optProp "merchantCode"
        else .str "fonepay123")]) rfl
  refine ⟨json, hjson, ?_⟩
  unfold connectWebSocket.onopen
  cases (result.optProp "prn").truthy with
  | false => rfl
  | true =>
    simp only [if_true]
    unfold JsVal.or
    rw [hjson]
    rfl

/-- The socket that `generateQR` opens by itself gets no initiation message: its handler reads
the result of the render that started the generation (`null`), although the result stored by
then has a `prn`; a handler that reads the stored result, as the one installed from the
Connect buttons does, sends the message. -/
theorem auto_connect_sends_no_initiation :
    ((generateQRSettled (fun _ => "TypeError")
        (.ok (qrGenerate exampleRuntime (.obj [("amount", .str "100.50")]) []).response.body)
        waitingGenerator { items := [] }).connectAfter.isSome = true ∧
      ((generateQRSettled (fun _ => "TypeError")
        (.ok (qrGenerate exampleRuntime (.obj [("amount", .str "100.50")]) []).response.body)
        waitingGenerator { items := [] }).state.result.optProp "prn").truthy = true) ∧
    (autoConnectOnOpen exampleBrowser waitingGenerator { readyState := 1, sent := [] }
      (generateQRSettled (fun _ => "TypeError")
        (.ok (qrGenerate exampleRuntime (.obj [("amount", .str "100.50")]) []).response.body)
        waitingGenerator { items := [] }).state).1.sent = [] ∧
    (connectWebSocket.onopen exampleBrowser
      (generateQRSettled (fun _ => "TypeError")
        (.ok (qrGenerate exampleRuntime (.obj [("amount", .str "100.50")]) []).response.body)
        waitingGenerator { items := [] }).state.result { readyState := 1, sent := [] }
      (generateQRSettled (fun _ => "TypeError")
        (.ok (qrGenerate exampleRuntime (.obj [("amount", .str "100.50")]) []).response.body)
        waitingGenerator { items := [] }).state).1.sent =
      ["\x7b\"prn\":\"test-0f8fad5b\",\"merchantCode\":\"fonepay123\"\x7d"] := by
  decide

/-- C22, at a fresh browser: the generator receives the answer of `/api/qr/generate` to the
request with the amount "100.50", which carries the WebSocket URL `wss://example.test/qr`;
afterwards the storage holds `lastPRN` only, and `loadWebSocketFromQR` leaves the URL field of
the tester empty and raises the toast that no URL was found. -/
theorem load_from_qr_finds_no_url :
    JsVal.isString ((exampleResult (.obj [("amount", .str "100.50")])).field "websocketUrl")
        "wss://example.test/qr" = true ∧
      (generateQRSettled (fun _ => "TypeError")
        (.ok (qrGenerate exampleRuntime (.obj [("amount", .str "100.50")]) []).response.body)
        waitingGenerator { items := [] }).storage.items = [("lastPRN", "test-0f8fad5b")] ∧
      (loadWebSocketFromQR
        (generateQRSettled (fun _ => "TypeError")
          (.ok (qrGenerate exampleRuntime (.obj [("amount", .str "100.50")]) []).response.body)
          waitingGenerator { items := [] }).storage freshTester).wsUrl = "" ∧
      (loadWebSocketFromQR
        (generateQRSettled (fun _ => "TypeError")
          (.ok (qrGenerate exampleRuntime (.obj [("amount", .str "100.50")]) []).response.body)
          waitingGenerator { items := [] }).storage freshTester).toasts.map
            (fun toast => (toast.kind, toast.message)) =
        [(.error, "No WebSocket URL found from recent QR generation")] := by
  decide

/-- C24, at the frame `null`: the frame is valid JSON; the handler of the tester records one
incoming message and then a `TypeError` escapes it; the tracking handler of the QR generator
records two `received` entries, one with the decoded value and one with the raw text. -/
theorem null_frame_breaks_both_handlers :
    ((jsonParse exampleBrowser.numberText "null").map jsonStringify = some (some "null")) ∧
      ((onMessage exampleBrowser "null" openTester).1.messages.length = 1 ∧
        (onMessage exampleBrowser "null" openTester).2.isSome = true) ∧
      (connectWebSocket.onmessage exampleBrowser "2024-01-01T00:00:01.001Z" "null"
        trackingGenerator).wsMessages.map jsonStringify =
          [some "\x7b\"type\":\"received\",\"timestamp\":\"2024-01-01T00:00:01.000Z\",\"data\":null\x7d",
           some "\x7b\"type\":\"received\",\"timestamp\":\"2024-01-01T00:00:01.001Z\",\"data\":\x7b\"message\":\"null\"\x7d\x7d"] := by
  decide

/-- Writing one key of the storage leaves the other keys as they are. -/
theorem getItem_setItem_ne (storage : Storage) (key other value : String) (h : other ≠ key) :
    (storage.setItem key value).getItem other = storage.getItem other := by
  obtain ⟨items⟩ := storage
  unfold Storage.setItem Storage.getItem
  have hkey : ((key, value).1 == other) = false := beq_false_of_ne (fun hk => h hk.symm)
  split
  · congr 1
    clear * - h
    induction items with
    | nil => rfl
    | cons kv rest ih =>
      simp only [List.map_cons, List.find?_cons]
      by_cases hk : kv.1 = key
      · have h1 : (kv.1 == key) = true := beq_iff_eq.mpr hk
        have h2 : (kv.1 == other) = false := beq_false_of_ne (fun hko => h (hko.symm.trans hk))
        have h3 : ((key, value).1 == other) = false := beq_false_of_ne (fun hko => h hko.symm)
        simp only [h1, if_true, h2, h3]
        exact ih
      · have h1 : (kv.1 == key) = false := beq_false_of_ne hk
        simp only [h1, Bool.false_eq_true, if_false]
        cases kv.1 == other
        · exact ih
        · rfl
  · congr 1
    rw [List.find?_append]
    simp only [List.find?_cons, hkey, List.find?_nil, Option.or_none]

/-- The function `generateQR` writes no key of the storage but `lastPRN`. -/
theorem generateQRSettled_keeps_other_keys (typeErrorMessage : TypeErrorKind → String)
    (fetched : Except String JsVal) (st : GeneratorState) (storage : Storage) (key : String)
    (hkey : key ≠ "lastPRN") :
    (generateQRSettled typeErrorMessage fetched st storage).storage.getItem key =
      storage.getItem key := by
  unfold generateQRSettled
  cases fetched with
  | error message => rfl
  | ok data =>
    dsimp only
    cases data.getProp "success" with
    | error e => rfl
    | ok success =>
      dsimp only
      cases success.truthy with
      | false => rfl
      | true =>
        simp only [if_true]
        cases (data.field "data").getProp "prn" >>= JsVal.toStr with
        | error e => rfl
        | ok prn => exact getItem_setItem_ne storage "lastPRN" key prn hkey

/-- The second-level decode records nothing. -/
theorem notifyPayment_messages (env : BrowserEnv) (transactionStatus : JsVal) (st : TesterState) :
    (notifyPayment env transactionStatus st).messages = st.messages := by
  unfold notifyPayment
  cases transactionStatus.toStr with
  | error e => rfl
  | ok text =>
    dsimp only
    cases jsonParse env.numberText text with
    | none => rfl
    | some decoded =>
      dsimp only
      cases decoded.getProp "paymentSuccess" with
      | error e => rfl
      | ok paymentSuccess =>
        dsimp only
        cases paymentSuccess.truthy with
        | true => rfl
        | false =>
          simp only [Bool.false_eq_true, if_false]
          cases (decoded.field "QRVerified").truthy <;> rfl

/-- The tester records exactly one incoming message for every frame, and an exception escapes
its handler exactly for a frame that decodes to `null`. -/
theorem onMessage_records_one (env : BrowserEnv) (data : String) (st : TesterState) :
    (onMessage env data st).1.messages.length = st.messages.length + 1 ∧
      ((onMessage env data st).2.isSome = true ↔
        jsonParse env.numberText data = some .null) := by
  cases h : jsonParse env.numberText data with
  | none =>
    unfold onMessage
    rw [h]
    exact ⟨List.length_append _ _, by simp [JsVal.typeofObject]⟩
  | some parsed =>
    cases parsed with
    | obj fields =>
      rw [onMessage_obj env data st fields h]
      refine ⟨?_, by simp⟩
      cases (lookupField "transactionStatus" fields).truthy with
      | false => exact List.length_append _ _
      | true =>
        simp only [if_true]
        rw [notifyPayment_messages]
        exact List.length_append _ _
    | null =>
      unfold onMessage
      rw [h]
      exact ⟨List.length_append _ _, by simp [JsVal.typeofObject, JsVal.getProp]⟩
    | undefined =>
      unfold onMessage
      rw [h]
      exact ⟨List.length_append _ _, by simp [JsVal.typeofObject]⟩
    | bool b =>
      unfold onMessage
      rw [h]
      exact ⟨List.length_append _ _, by simp [JsVal.typeofObject]⟩
    | num n =>
      unfold onMessage
      rw [h]
      exact ⟨List.length_append _ _, by simp [JsVal.typeofObject]⟩
    | str s =>
      unfold onMessage
      rw [h]
      exact ⟨List.length_append _ _, by simp [JsVal.typeofObject]⟩
    | arr items =>
      unfold onMessage
      rw [h]
      exact ⟨List.length_append _ _,
        by simp [JsVal.typeofObject, JsVal.getProp, JsVal.field, JsVal.truthy, pure, Except.pure]⟩

/-- The tracking handler records one `received` entry for a frame, except for a frame that
decodes to `null` (or `undefined`), for which it records two. -/
theorem onmessage_received_count (env : BrowserEnv) (catchTimestamp data : String)
    (st : GeneratorState) :
    (connectWebSocket.onmessage env catchTimestamp data st).wsMessages.length =
      st.wsMessages.length +
        (match jsonParse env.numberText data with
          | some .null => 2
          | some .undefined => 2
          | _ => 1) := by
  unfold connectWebSocket.onmessage
  cases jsonParse env.numberText data with
  | none => simp
  | some parsed =>
    cases parsed with
    | undefined => simp [JsVal.getProp]
    | null => simp [JsVal.getProp]
    | bool b =>
      dsimp only [JsVal.getProp, pure, Except.pure]
      split
      · simp
      · split <;> simp
    | num n =>
      dsimp only [JsVal.getProp, pure, Except.pure]
      split
      · simp
      · split <;> simp
    | str s =>
      dsimp only [JsVal.getProp, pure, Except.pure]
      split
      · simp
      · split <;> simp
    | arr items =>
      dsimp only [JsVal.getProp, pure, Except.pure]
      split
      · simp
      · split <;> simp
    | obj fields =>
      dsimp only [JsVal.getProp, pure, Except.pure]
      split
      · simp
      · split <;> simp

/-! ## The signature generator of the browser (C29) -/

theorem beBytes_lt (n x : Nat) : ∀ b ∈ beBytes n x, b < 256 := by
  induction n with
  | zero => intro b hb; cases hb
  | succ k ih =>
    intro b hb
    rw [beBytes] at hb
    rcases List.mem_cons.mp hb with rfl | h
    · exact Nat.mod_lt _ (by decide)
    · exact ih b h

theorem sha512_lt (msg : List Nat) : ∀ b ∈ sha512 msg, b < 256 := by
  intro b hb
  unfold sha512 Sha512State.bytes at hb
  simp only [List.mem_append] at hb
  rcases hb with ((((((h | h) | h) | h) | h) | h) | h) | h <;> exact beBytes_lt _ _ b h

theorem hmacSha512_lt (key text : List Nat) : ∀ b ∈ hmacSha512 key text, b < 256 :=
  sha512_lt _

/-- A byte written with `toString(16)` and padded to two digits is its two hex digits. -/
theorem padStart_toString16 : ∀ b, b < 256 →
    padStart (toString16 b) 2 '0' = String.mk [hexDigit (b / 16 % 16), hexDigit (b % 16)] := by
  decide

/-- Joining the two-digit texts of bytes gives their `hex` encoding. -/
theorem join_padStart (bytes : List Nat) (h : ∀ b ∈ bytes, b < 256) (acc : String) :
    (bytes.map fun b => padStart (toString16 b) 2 '0').foldl (fun r s => r ++ s) acc =
      acc ++ hexEncode bytes := by
  induction bytes generalizing acc with
  | nil =>
    show acc = acc ++ hexEncode []
    exact (String.append_empty acc).symm
  | cons b bs ih =>
    simp only [List.map_cons, List.foldl_cons]
    rw [ih (fun c hc => h c (List.mem_cons_of_mem _ hc)),
      padStart_toString16 b (h b (List.mem_cons_self _ _)), String.append_assoc]
    rfl

theorem utf8EncodeScalar_ne_nil (c : Nat) : utf8EncodeScalar c ≠ [] := by
  unfold utf8EncodeScalar
  split
  · exact List.cons_ne_nil _ _
  · split
    · exact List.cons_ne_nil _ _
    · split <;> exact List.cons_ne_nil _ _

/-- A string that is not empty has UTF-8 bytes. -/
theorem utf8Encode_isEmpty (s : String) (h : s ≠ "") : (utf8Encode s).isEmpty = false := by
  obtain ⟨cs⟩ := s
  cases cs with
  | nil => exact absurd rfl h
  | cons c rest =>
    unfold utf8Encode
    simp only [List.flatMap_cons]
    cases hx : utf8EncodeScalar c.toNat with
    | nil => exact absurd hx (utf8EncodeScalar_ne_nil _)
    | cons x xs => rfl

/-- The browser's digest is the server's: same bytes, same text. -/
theorem browser_signature_eq (importKeyMessage secretKey message : String)
    (hkey : secretKey ≠ "") :
    SignatureGenerator.generateHMACSignature importKeyMessage secretKey message =
      .ok (toUpperCase (hexEncode (hmacSha512 (utf8Encode secretKey) (utf8Encode message)))) := by
  unfold SignatureGenerator.generateHMACSignature
  simp only [utf8Encode_isEmpty secretKey hkey, Bool.false_eq_true, if_false]
  have hjoin : String.join ((hmacSha512 (utf8Encode secretKey) (utf8Encode message)).map
      fun b => padStart (toString16 b) 2 '0') =
      hexEncode (hmacSha512 (utf8Encode secretKey) (utf8Encode message)) := by
    unfold String.join
    rw [join_padStart _ (hmacSha512_lt _ _)]
    exact String.empty_append _
  rw [hjoin]
  rfl

/-- A text with something left after `trim` is not empty. -/
theorem ne_empty_of_trim (s : String) (h : trim s ≠ "") : s ≠ "" := by
  intro hs
  apply h
  rw [hs]
  rfl

/-- No field is reported missing when every required field has text left after `trim`. -/
theorem missing_eq_nil (formData : SignatureGenerator.FormData) (requiredFields : List String)
    (h : ∀ field ∈ requiredFields, trim (formData.get field) ≠ "") :
    (requiredFields.filter fun field => trim (formData.get field) == "") = [] := by
  rw [List.filter_eq_nil_iff]
  intro field hfield hblank
  exact h field hfield (beq_iff_eq.mp hblank)

/-- C29: the signature generator of the browser agrees with the server.  For every secret key
that is not empty and every message, the browser's `generateHMACSignature` returns what the
server's returns: the HMAC-SHA512 digest as 128 upper-case hexadecimal digits, two per byte.
For every form the component accepts (each required field has text left after `trim`), the
message `generateSignature` builds is the message the server builds for the same fields, for
the QR signature and for the status signature, and the signature it stores is the server's
signature of these fields under the form's secret key. -/
theorem browser_signature_agrees_with_server (env : BrowserEnv) (importKeyMessage : String)
    (secretKey message : String) (formData : SignatureGenerator.FormData)
    (st : SignatureGenerator.State) (hkey : secretKey ≠ "")
    (hqr : ∀ field ∈ ["amount", "prn", "merchantCode", "remarks1", "remarks2", "secretKey"],
      trim (formData.get field) ≠ "")
    (hstatus : ∀ field ∈ ["statusPrn", "statusMerchantCode", "secretKey"],
      trim (formData.get field) ≠ "") :
    (∃ signature,
      SignatureGenerator.generateHMACSignature importKeyMessage secretKey message = .ok signature ∧
      FonepayUtils.generateHMACSignature (.str secretKey) (.str message) = .ok signature ∧
      signature.length = 128 ∧ ∀ c ∈ signature.data, c ∈ upperHexChars) ∧
    (∃ qrMessage signature,
      qrSignatureMessage (.str formData.amount) (.str formData.prn) (.str formData.merchantCode)
        (.str formData.remarks1) (.str formData.remarks2) = .ok qrMessage ∧
      FonepayUtils.generateQRRequestSignature (.str formData.amount) (.str formData.prn)
        (.str formData.merchantCode) (.str formData.remarks1) (.str formData.remarks2)
        (.str formData.secretKey) = .ok signature ∧
      (SignatureGenerator.generateSignature env importKeyMessage "qr" formData st).result = some
        { type := "QR Request Signature", message := qrMessage, secretKey := formData.secretKey,
          signature := signature, algorithm := "HMAC-SHA512", timestamp := env.timestamp }) ∧
    (∃ statusMessage signature,
      statusSignatureMessage (.str formData.statusPrn) (.str formData.statusMerchantCode) =
        .ok statusMessage ∧
      FonepayUtils.generateCheckStatusSignature (.str formData.statusPrn)
        (.str formData.statusMerchantCode) (.str formData.secretKey) = .ok signature ∧
      (SignatureGenerator.generateSignature env importKeyMessage "status" formData st).result =
        some
          { type := "Status Check Signature", message := statusMessage,
            secretKey := formData.secretKey, signature := signature, algorithm := "HMAC-SHA512",
            timestamp := env.timestamp }) := by
  have hformKey : formData.secretKey ≠ "" :=
    ne_empty_of_trim _ (hqr "secretKey" (by decide))
  refine ⟨⟨_, browser_signature_eq importKeyMessage secretKey message hkey,
    generateHMACSignature_str secretKey message, ?_, toUpperCase_hexEncode_chars _⟩,
    ⟨_, _, rfl, generateQRRequestSignature_str _ _ _ _ _ _, ?_⟩,
    ⟨_, _, rfl, generateCheckStatusSignature_str _ _ _, ?_⟩⟩
  · rw [toUpperCase_length, hexEncode_length, hmacSha512_length]
  · unfold SignatureGenerator.generateSignature
    simp only [if_true, missing_eq_nil formData _ hqr, List.length_nil, gt_iff_lt, Nat.lt_irrefl,
      if_false]
    rw [browser_signature_eq importKeyMessage formData.secretKey _ hformKey]
  · unfold SignatureGenerator.generateSignature
    have hne : ¬ ("status" = "qr") := by decide
    simp only [hne, if_false, missing_eq_nil formData _ hstatus, List.length_nil, gt_iff_lt,
      Nat.lt_irrefl]
    rw [browser_signature_eq importKeyMessage formData.secretKey _ hformKey]

/-- C29, at the form filled with the fields of the known-vector test and the secret key
`fonepay`. -/
theorem browser_signature_agrees_with_server_witness :
    (∃ signature,
      SignatureGenerator.generateHMACSignature "Zero-length key is not supported" "fonepay"
        "test-abc123,fonepay123" = .ok signature ∧
      FonepayUtils.generateHMACSignature (.str "fonepay") (.str "test-abc123,fonepay123") =
        .ok signature ∧
      signature.length = 128 ∧ ∀ c ∈ signature.data, c ∈ upperHexChars) ∧
    (∃ qrMessage signature,
      qrSignatureMessage (.str exampleForm.amount) (.str exampleForm.prn)
        (.str exampleForm.merchantCode) (.str exampleForm.remarks1)
        (.str exampleForm.remarks2) = .ok qrMessage ∧
      FonepayUtils.generateQRRequestSignature (.str exampleForm.amount) (.str exampleForm.prn)
        (.str exampleForm.merchantCode) (.str exampleForm.remarks1) (.str exampleForm.remarks2)
        (.str exampleForm.secretKey) = .ok signature ∧
      (SignatureGenerator.generateSignature exampleBrowser "Zero-length key is not supported"
        "qr" exampleForm emptySignatureState).result = some
        { type := "QR Request Signature", message := qrMessage,
          secretKey := exampleForm.secretKey, signature := signature,
          algorithm := "HMAC-SHA512", timestamp := exampleBrowser.timestamp }) ∧
    (∃ statusMessage signature,
      statusSignatureMessage (.str exampleForm.statusPrn) (.str exampleForm.statusMerchantCode) =
        .ok statusMessage ∧
      FonepayUtils.generateCheckStatusSignature (.str exampleForm.statusPrn)
        (.str exampleForm.statusMerchantCode) (.str exampleForm.secretKey) = .ok signature ∧
      (SignatureGenerator.generateSignature exampleBrowser "Zero-length key is not supported"
        "status" exampleForm emptySignatureState).result =
        some
          { type := "Status Check Signature", message := statusMessage,
            secretKey := exampleForm.secretKey, signature := signature,
            algorithm := "HMAC-SHA512", timestamp := exampleBrowser.timestamp }) :=
  browser_signature_agrees_with_server exampleBrowser "Zero-length key is not supported"
    "fonepay" "test-abc123,fonepay123" exampleForm emptySignatureState (by decide) (by decide)
    (by decide)

/-! ## The credentials check of the configuration page (C30) -/

/-- The issues `validateCredentials` finds in four credentials that are strings. -/
theorem issues_of_strings (merchantCode secretKey username password : String) :
    Configuration.issues (.obj [("merchantCode", .str merchantCode),
        ("secretKey", .str secretKey), ("username", .str username),
        ("password", .str password)]) =
      (if merchantCode = "" then ["Merchant Code is missing"] else []) ++
      (if secretKey = "" then ["Secret Key is missing"] else []) ++
      (if username = "" then ["Username is missing"] else []) ++
      (if password = "" then ["Password is missing"] else []) ++
      (if merchantCode ≠ "" ∧ utf16Length merchantCode < 3 then ["Merchant Code seems too short"]
        else []) ++
      (if secretKey ≠ "" ∧ utf16Length secretKey < 8 then ["Secret Key seems too short"]
        else []) := by
  have hm : (JsVal.obj [("merchantCode", .str merchantCode), ("secretKey", .str secretKey),
      ("username", .str username), ("password", .str password)]).field "merchantCode" =
      .str merchantCode := rfl
  have hs : (JsVal.obj [("merchantCode", .str merchantCode), ("secretKey", .str secretKey),
      ("username", .str username), ("password", .str password)]).field "secretKey" =
      .str secretKey := rfl
  have hu : (JsVal.obj [("merchantCode", .str merchantCode), ("secretKey", .str secretKey),
      ("username", .str username), ("password", .str password)]).field "username" =
      .str username := rfl
  have hp : (JsVal.obj [("merchantCode", .str merchantCode), ("secretKey", .str secretKey),
      ("username", .str username), ("password", .str password)]).field "password" =
      .str password := rfl
  unfold Configuration.issues
  rw [hm, hs, hu, hp]
  simp only [JsVal.truthy, Configuration.lengthBelow, bne_iff_ne, ne_eq, Bool.not_eq_true',
    Bool.and_eq_true, decide_eq_true_eq, bne_eq_false_iff_eq]

/-- C30: for credentials that are strings, `validateCredentials` reports success exactly when
merchant code, secret key, username and password are all non-empty, the merchant code has at
least 3 characters and the secret key at least 8 (counted as `length` counts them, in UTF-16
code units).  The built-in test credentials, as `GET /api/config` delivers them, do not pass:
their secret key `fonepay` has 7 characters, and the one issue reported is
`Secret Key seems too short`. -/
theorem validateCredentials_passes_iff (merchantCode secretKey username password : String) :
    ((Configuration.validateCredentials (.obj [("testCredentials",
        .obj [("merchantCode", .str merchantCode), ("secretKey", .str secretKey),
          ("username", .str username), ("password", .str password)])])).kind =
        ToastKind.success ↔
      merchantCode ≠ "" ∧ secretKey ≠ "" ∧ username ≠ "" ∧ password ≠ "" ∧
        3 ≤ utf16Length merchantCode ∧ 8 ≤ utf16Length secretKey) ∧
    JsVal.isString (((getConfigBody.field "data").field "testCredentials").field "secretKey")
      "fonepay" = true ∧
    utf16Length "fonepay" = 7 ∧
    Configuration.issues ((getConfigBody.field "data").field "testCredentials") =
      ["Secret Key seems too short"] ∧
    (Configuration.validateCredentials (getConfigBody.field "data")).kind = ToastKind.error ∧
    (Configuration.validateCredentials (getConfigBody.field "data")).message =
      "❌ Validation issues: Secret Key seems too short" := by
  refine ⟨?_, by decide, by decide, by decide, by decide, by decide⟩
  have hcreds : (JsVal.obj [("testCredentials",
      .obj [("merchantCode", .str merchantCode), ("secretKey", .str secretKey),
        ("username", .str username), ("password", .str password)])]).field "testCredentials" =
      .obj [("merchantCode", .str merchantCode), ("secretKey", .str secretKey),
        ("username", .str username), ("password", .str password)] := rfl
  have hopt : ((JsVal.obj [("testCredentials",
      .obj [("merchantCode", .str merchantCode), ("secretKey", .str secretKey),
        ("username", .str username), ("password", .str password)])]).optProp
        "testCredentials").truthy = true := rfl
  unfold Configuration.validateCredentials
  rw [hopt, hcreds, issues_of_strings]
  by_cases hm : merchantCode = "" <;> by_cases hs : secretKey = "" <;>
    by_cases hu : username = "" <;> by_cases hp : password = "" <;>
    by_cases hml : utf16Length merchantCode < 3 <;>
    by_cases hsl : utf16Length secretKey < 8 <;>
    simp [hm, hs, hu, hp, hml, hsl]
  omega

end Fonepay
